import Mathlib

/-!
# Santa's Toy Factory dashboard (`santa.js`): a shallow embedding

The dashboard script is modelled as pure functions over an explicit view state.

* JSON data received from the API is a `JSVal`.  Numbers in the data are
  integers (the data model of the dashboard only has integer counts), plus
  the infinities and the not-a-number value that arithmetic produces.
* Arithmetic is that of IEEE doubles: a `Num` is a rational, an infinity or
  NaN, and every operation rounds its exact result to the nearest double
  (`roundDouble`).  The sign of zero is not tracked.
* A thrown JavaScript exception is an `Except.error`, or the second
  component of a `Step`; a rejected promise is an `Except.error` as well.
* The page (the `elements` table of the script) is the record `View`; a
  renderer is a function from a view to the next view.  The page is taken to
  contain every element the script looks up, so the `if (!element) return`
  guards of the renderers never fire; the chart exists once `initializeChart`
  has run.  A row or card is recorded as the texts interpolated into its
  template, in order; a value without a callable conversion to text throws.
* The clock, `Date.parse` and `toISOString` belong to the browser and are
  taken from an environment record; dates are local wall-clock times.
* Timestamps of animation frames are rationals, and the animation computes
  in doubles; `Math.pow` is approximated by the implementation, so its
  values on finite non-zero bases are a parameter (`Engine`).
* Console output and timers (`setTimeout`, `setInterval`) are not part of
  the page state; the `console.error` calls of the action functions are
  recorded in the outcome of the action.
-/

namespace Santa

/-! ## JavaScript values -/

/-- A JavaScript value as produced by `JSON.parse`, or by the script itself. -/
inductive JSVal where
  | undefined
  | null
  | bool (b : Bool)
  | num (n : Int)
  | inf (negative : Bool)
  | nan
  | str (s : String)
  | arr (items : List JSVal)
  | obj (fields : List (String × JSVal))

/-- A thrown JavaScript exception. -/
inductive JSError where
  | typeError (msg : String)
  | error (msg : String)
  deriving DecidableEq, Repr

/-! ## Doubles -/

/-- A JavaScript number: a finite value, an infinity or NaN (the sign of
zero is not tracked). -/
inductive Num where
  | fin (q : ℚ)
  | inf (negative : Bool)
  | nan
  deriving DecidableEq

/-- Rounding of a rational to the nearest integer, ties to the even one. -/
def roundHalfEven (q : ℚ) : Int :=
  if q - ⌊q⌋ < 1 / 2 then ⌊q⌋
  else if 1 / 2 < q - ⌊q⌋ then ⌊q⌋ + 1
  else if ⌊q⌋ % 2 = 0 then ⌊q⌋ else ⌊q⌋ + 1

/-- The exponent of the binade of a double: `floor(log2 |x|)`, not below the
exponent of the subnormal numbers. -/
def binadeExp (x : ℚ) : Int :=
  max (Int.log 2 |x|) (-1022)

/-- The multiple of the spacing of the doubles around `x` nearest to `x`
(ties to the even multiple): the nearest double while it is in range. -/
def roundNearest (x : ℚ) : ℚ :=
  (roundHalfEven (x / 2 ^ (binadeExp x - 52)) : ℚ) * 2 ^ (binadeExp x - 52)

/-- The double nearest to a rational (round to nearest, ties to even, 53
significant bits), infinite from `2^1024` on: the result of every arithmetic
operation of the language on finite operands. -/
def roundDouble (x : ℚ) : Num :=
  if 2 ^ 1024 ≤ |roundNearest x| then Num.inf (decide (x < 0))
  else Num.fin (roundNearest x)

namespace Num

/-- The operator `a + b` on numbers. -/
def add : Num → Num → Num
  | fin x, fin y => roundDouble (x + y)
  | fin _, inf s => inf s
  | inf s, fin _ => inf s
  | inf s, inf t => if s = t then inf s else nan
  | _, _ => nan

/-- The unary minus. -/
def neg : Num → Num
  | fin x => fin (-x)
  | inf s => inf (!s)
  | nan => nan

/-- The operator `a - b` on numbers. -/
def sub (a b : Num) : Num :=
  a.add b.neg

/-- The operator `a * b` on numbers. -/
def mul : Num → Num → Num
  | fin x, fin y => roundDouble (x * y)
  | fin x, inf s => if x = 0 then nan else inf (s != decide (x < 0))
  | inf s, fin y => if y = 0 then nan else inf (s != decide (y < 0))
  | inf s, inf t => inf (s != t)
  | _, _ => nan

/-- The operator `a / b` on numbers. -/
def div : Num → Num → Num
  | fin x, fin y =>
    if y = 0 then (if x = 0 then nan else inf (decide (x < 0))) else roundDouble (x / y)
  | fin _, inf _ => fin 0
  | inf s, fin y => inf (s != decide (y < 0))
  | _, _ => nan

/-- The comparison `a < b`, false when an operand is NaN. -/
def lt : Num → Num → Bool
  | fin x, fin y => decide (x < y)
  | fin _, inf s => !s
  | inf s, fin _ => s
  | inf s, inf t => s && !t
  | _, _ => false

/-- The comparison `a <= b`, false when an operand is NaN. -/
def le : Num → Num → Bool
  | fin x, fin y => decide (x ≤ y)
  | fin _, inf s => !s
  | inf s, fin _ => s
  | inf s, inf t => s || !t
  | _, _ => false

/-- The function `Math.min` of two numbers. -/
def min (a b : Num) : Num :=
  match a, b with
  | nan, _ => nan
  | _, nan => nan
  | _, _ => if b.lt a then b else a

/-- The function `Math.floor`. -/
def floor : Num → Num
  | fin x => fin (⌊x⌋ : ℚ)
  | v => v

end Num

/-- The decimal digits of a natural number without its trailing zeros (the
digits of 0 are `0`). -/
def significantDigits (v : Nat) : List Char :=
  ((Nat.toDigits 10 v).reverse.dropWhile (fun c => c == '0')).reverse

/-- The candidates with `k` significant digits next to `v`: `v` rounded down
and up to a multiple of `10^(digits of v - k)`. -/
def decimalCandidates (v k : Nat) : List Nat :=
  let p := 10 ^ ((Nat.toDigits 10 v).length - k)
  [v / p * p, (v / p + 1) * p]

/-- The decimal number with the fewest significant digits that rounds to the
double `v`, and among those the one nearest to `v`. -/
def shortestDecimal (v : Nat) : Nat :=
  let pick : List Nat → Option Nat := fun l =>
    match l with
    | [] => none
    | [c] => some c
    | c :: d :: _ => some (if v - c ≤ d - v then c else d)
  match (List.range 17).findSome? (fun i =>
      pick ((decimalCandidates v (i + 1)).filter
        (fun (c : Nat) => decide (roundDouble (c : ℚ) = Num.fin (v : ℚ))))) with
  | some c => c
  | none => v

/-- The exponent notation of a positive integer: first significant digit,
the others after a point, and the decimal exponent. -/
def exponentForm (c : Nat) : String :=
  match significantDigits c with
  | [] => "0"
  | [d] => String.mk [d] ++ "e+" ++ Nat.repr ((Nat.toDigits 10 c).length - 1)
  | d :: rest =>
    String.mk (d :: '.' :: rest) ++ "e+" ++ Nat.repr ((Nat.toDigits 10 c).length - 1)

/-- The method `Number.prototype.toString` on an integer-valued double:
decimal digits below `10^21`, exponent notation of the shortest decimal that
reads back as the same double from there on. -/
def numberToString (n : Int) : String :=
  let body :=
    if n.natAbs < 10 ^ 21 then Nat.repr n.natAbs else exponentForm (shortestDecimal n.natAbs)
  if n < 0 then "-" ++ body else body

namespace JSVal

/-- ToBoolean: `undefined`, `null`, `false`, `0`, `NaN` and `''` are falsy. -/
def truthy : JSVal → Bool
  | undefined => false
  | null => false
  | bool b => b
  | num n => n != 0
  | inf _ => true
  | nan => false
  | str s => s != ""
  | arr _ => true
  | obj _ => true

/-- The operator `a || b`. -/
def or (a b : JSVal) : JSVal :=
  if a.truthy then a else b

/-- The test `v === 'literal'` against a string literal. -/
def isStr (v : JSVal) (lit : String) : Bool :=
  match v with
  | str s => s == lit
  | _ => false

/-- The test `v !== undefined`. -/
def isDefined : JSVal → Bool
  | undefined => false
  | _ => true

/-- The function `Array.isArray`. -/
def isArray : JSVal → Bool
  | arr _ => true
  | _ => false

/-- Own-property lookup in the field list of an object (first binding wins). -/
def lookup (key : String) : List (String × JSVal) → JSVal
  | [] => undefined
  | (k, v) :: rest => if k == key then v else lookup key rest

/-- Property access `v.key` for the data property names the script reads
(`status`, `toyName`, `totalToys`, ...): a `TypeError` on `undefined` and
`null`, the own property of an object, and `undefined` on every other value
(no prototype defines one of these names). -/
def get (v : JSVal) (key : String) : Except JSError JSVal :=
  match v with
  | undefined => .error (.typeError ("Cannot read properties of undefined (reading " ++ key ++ ")"))
  | null => .error (.typeError ("Cannot read properties of null (reading " ++ key ++ ")"))
  | obj fields => .ok (lookup key fields)
  | _ => .ok undefined

/-- Property access `v.key` on a receiver known not to be `undefined` or
`null` (the script tests the receiver for truthiness first): the own
property of an object, `undefined` on every other value. -/
def prop (v : JSVal) (key : String) : JSVal :=
  match v with
  | obj fields => lookup key fields
  | _ => undefined

/-- Whether a field list binds the key. -/
def hasKey (key : String) (fields : List (String × JSVal)) : Bool :=
  fields.any (fun kv => kv.1 == key)

mutual
/-- ToString of a value.  An array is the comma-joined text of its elements;
a plain object is `[object Object]`, unless an own data property shadows
`toString`, in which case there is no callable conversion and a `TypeError`
is thrown. -/
def toStr : JSVal → Except JSError String
  | undefined => .ok "undefined"
  | null => .ok "null"
  | bool b => .ok (if b then "true" else "false")
  | num n => .ok (numberToString n)
  | inf negative => .ok (if negative then "-Infinity" else "Infinity")
  | nan => .ok "NaN"
  | str s => .ok s
  | arr items => joinItems items
  | obj fields =>
    if hasKey "toString" fields then
      .error (.typeError "Cannot convert object to primitive value")
    else .ok "[object Object]"
termination_by structural v => v
/-- The method `Array.prototype.join` with the separator `,`: `undefined` and
`null` elements give the empty text. -/
def joinItems : List JSVal → Except JSError String
  | [] => .ok ""
  | x :: rest =>
    match (match x with
      | undefined => Except.ok ""
      | null => Except.ok ""
      | v => toStr v) with
    | .error e => .error e
    | .ok first =>
      match joinItems rest with
      | .error e => .error e
      | .ok others =>
        .ok (first ++ (match rest with | [] => "" | _ :: _ => ",") ++ others)
termination_by structural l => l
end

/-- ToPrimitive: arrays and objects are converted to their text. -/
def toPrimitive (v : JSVal) : Except JSError JSVal :=
  match v with
  | arr _ => (toStr v).map str
  | obj _ => (toStr v).map str
  | p => .ok p

/-- ToNumber of a primitive that is not a string; `none` is `NaN`. -/
def primToNumber : JSVal → Option Int
  | null => some 0
  | bool b => some (if b then 1 else 0)
  | num n => some n
  | _ => none

/-- ToNumber of a primitive that is not a string, as a double. -/
def primToNum : JSVal → Num
  | null => Num.fin 0
  | bool b => Num.fin (if b then 1 else 0)
  | num n => Num.fin n
  | inf negative => Num.inf negative
  | _ => Num.nan

/-- The value of a number that arithmetic on integers produced. -/
def ofNum : Num → JSVal
  | Num.fin q => num ⌊q⌋
  | Num.inf negative => inf negative
  | Num.nan => nan

/-- The operator `a + b`: concatenation when either primitive operand is a
string, addition of doubles otherwise. -/
def add (a b : JSVal) : Except JSError JSVal := do
  let pa ← toPrimitive a
  let pb ← toPrimitive b
  match pa, pb with
  | str x, q => (toStr q).map (fun y => str (x ++ y))
  | p, str y => (toStr p).map (fun x => str (x ++ y))
  | p, q => pure (ofNum ((primToNum p).add (primToNum q)))

/-- Number of UTF-16 code units of a string (its `length` in JavaScript). -/
def utf16Length (s : String) : Nat :=
  (s.data.map (fun c => if c.toNat < 0x10000 then 1 else 2)).sum

/-- The value of `Object.keys(v).length` for a truthy `v`: the number of
distinct own keys of an object, the number of elements of an array, the
number of code units of a string, and 0 for a number or a boolean. -/
def keysLength : JSVal → Nat
  | obj fields => (fields.map Prod.fst).eraseDups.length
  | arr items => items.length
  | str s => utf16Length s
  | _ => 0

/-- The elements of a value when it passes the test
`v && Array.isArray(v)`. -/
def asArray (v : JSVal) : Option (List JSVal) :=
  if v.truthy && v.isArray then
    match v with
    | arr items => some items
    | _ => none
  else none

end JSVal

open JSVal

/-! ## Numbers as text -/

/-- The method `Number.prototype.toString` on an integer. -/
def numToString (n : Int) : String :=
  if n < 0 then "-" ++ Nat.repr n.natAbs else Nat.repr n.natAbs

/-- Commas inserted after every third digit of a digit list given least
significant digit first. -/
def groupRev : List Char → List Char
  | a :: b :: c :: d :: rest => a :: b :: c :: ',' :: groupRev (d :: rest)
  | l => l

/-- The method `toLocaleString` on an integer, in the en-US grouping the
dashboard is written for: decimal digits in groups of three separated by
commas. -/
def toLocaleString (n : Int) : String :=
  let digits := String.mk (groupRev (Nat.toDigits 10 n.natAbs).reverse).reverse
  if n < 0 then "-" ++ digits else digits

/-- The method `padStart(targetLength, padString)`. -/
def padStart (s : String) (targetLength : Nat) (padString : String) : String :=
  if targetLength ≤ s.length ∨ padString.length = 0 then s
  else
    let fillLen := targetLength - s.length
    String.mk (((List.replicate fillLen padString.data).flatten).take fillLen) ++ s

/-- The characters `parseInt` skips at the start of its input (white space
and line terminators). -/
def isStrWhiteSpace (c : Char) : Bool :=
  let n := c.toNat
  n == 9 || n == 10 || n == 11 || n == 12 || n == 13 || n == 32 || n == 160 ||
  n == 0x1680 || (0x2000 ≤ n && n ≤ 0x200A) || n == 0x2028 || n == 0x2029 ||
  n == 0x202F || n == 0x205F || n == 0x3000 || n == 0xFEFF

/-- The value of a character as a digit in the given radix, if it is one. -/
def digitValue (radix : Nat) (c : Char) : Option Nat :=
  let v :=
    if c.isDigit then some (c.toNat - '0'.toNat)
    else if 'a'.toNat ≤ c.toNat ∧ c.toNat ≤ 'z'.toNat then some (c.toNat - 'a'.toNat + 10)
    else if 'A'.toNat ≤ c.toNat ∧ c.toNat ≤ 'Z'.toNat then some (c.toNat - 'A'.toNat + 10)
    else none
  match v with
  | some d => if d < radix then some d else none
  | none => none

/-- The longest run of digits at the start of the input, read in the given
radix onto the accumulator; the flag tells whether a digit was read. -/
def readDigits (radix : Nat) : List Char → Nat → Bool → Nat × Bool
  | [], acc, seen => (acc, seen)
  | c :: cs, acc, seen =>
    match digitValue radix c with
    | some d => readDigits radix cs (acc * radix + d) true
    | none => (acc, seen)

/-- The integer `parseInt(string)` reads, without a radix argument, before
it becomes a number; `none` when no digit is read. -/
def parseInt.mathInt (s : String) : Option Int :=
  let trimmed := s.data.dropWhile isStrWhiteSpace
  let negative := trimmed.head? == some '-'
  let unsigned :=
    match trimmed with
    | '-' :: rest => rest
    | '+' :: rest => rest
    | l => l
  let hex :=
    match unsigned with
    | '0' :: 'x' :: _ => true
    | '0' :: 'X' :: _ => true
    | _ => false
  let r := if hex then readDigits 16 (unsigned.drop 2) 0 false else readDigits 10 unsigned 0 false
  if r.2 then some (if negative then -(r.1 : Int) else (r.1 : Int)) else none

/-- The function `parseInt(string)` without a radix argument: the double
nearest to the integer read, `NaN` when no digit is read. -/
def parseInt (s : String) : Num :=
  match parseInt.mathInt s with
  | some n => roundDouble (n : ℚ)
  | none => Num.nan

/-- The call `text.replace(/,/g, '')`. -/
def removeCommas (s : String) : String :=
  String.mk (s.data.filter (fun c => c != ','))

/-- The method `toLocaleString()` on a number without a fractional part. -/
def Num.toLocaleString : Num → String
  | Num.fin q => Santa.toLocaleString ⌊q⌋
  | Num.inf negative => if negative then "-∞" else "∞"
  | Num.nan => "NaN"

/-! ## Animated counter -/

/-- The part of `Math.pow` the language leaves to the implementation: an
approximation of `x^3` for a finite base other than zero. -/
structure Engine where
  pow3 : ℚ → Num

/-- The call `Math.pow(x, 3)`: NaN, the infinities and zero are fixed by the
language, the other values come from the implementation. -/
def Engine.pow (engine : Engine) : Num → Num
  | Num.nan => Num.nan
  | Num.inf negative => Num.inf negative
  | Num.fin q => if q = 0 then Num.fin 0 else engine.pow3 q

/-- An implementation whose `Math.pow(x, 3)` is the double nearest to
`x^3`. -/
def correctlyRounded : Engine :=
  ⟨fun x => roundDouble (x ^ 3)⟩

/-- The `elapsed` of `update`: `currentTime - startTime`. -/
def animateCounter.elapsed (startTime currentTime : ℚ) : Num :=
  roundDouble (currentTime - startTime)

/-- The `progress` of `update`: `Math.min(elapsed / duration, 1)` with
`duration = 1000`. -/
def animateCounter.progress (startTime currentTime : ℚ) : Num :=
  Num.min ((animateCounter.elapsed startTime currentTime).div (Num.fin 1000)) (Num.fin 1)

/-- The `easeOut` of `update`: `1 - Math.pow(1 - progress, 3)`. -/
def animateCounter.easeOut (engine : Engine) (startTime currentTime : ℚ) : Num :=
  (Num.fin 1).sub (engine.pow ((Num.fin 1).sub (animateCounter.progress startTime currentTime)))

/-- The `currentValue` of `update`:
`Math.floor(current + (target - current) * easeOut)`. -/
def animateCounter.currentValue (engine : Engine) (current target : Num)
    (startTime currentTime : ℚ) : Num :=
  (current.add ((target.sub current).mul
    (animateCounter.easeOut engine startTime currentTime))).floor

/-- What one counter element shows, and whether a frame callback is
requested for it. -/
structure CounterState where
  textContent : String
  frameRequested : Bool
  deriving DecidableEq, Repr

/-- One call of the frame callback `update(currentTime)`: writes the
thousands-separated value and requests another frame while
`progress < 1`. -/
def animateCounter.update (engine : Engine) (current target : Num)
    (startTime currentTime : ℚ) : CounterState :=
  { textContent :=
      (animateCounter.currentValue engine current target startTime currentTime).toLocaleString
    frameRequested := (animateCounter.progress startTime currentTime).lt (Num.fin 1) }

/-- The browser delivering animation frames with the given timestamps: a
frame runs `update` only while a callback is requested. -/
def animateCounter.runFrames (engine : Engine) (current target : Num) (startTime : ℚ) :
    CounterState → List ℚ → CounterState
  | s, [] => s
  | s, t :: ts =>
    if s.frameRequested then
      animateCounter.runFrames engine current target startTime
        (animateCounter.update engine current target startTime t) ts
    else s

/-- The start value read back from the element:
`parseInt(element.textContent.replace(/,/g, '')) || 0`. -/
def animateCounter.current (textContent : String) : Num :=
  match parseInt (removeCommas textContent) with
  | Num.nan => Num.fin 0
  | Num.fin q => if q = 0 then Num.fin 0 else Num.fin q
  | Num.inf negative => Num.inf negative

/-- The call `animateCounter(element, target)` on an existing element
showing `textContent`, started at `startTime`, followed by the animation
frames the browser delivers. -/
def animateCounter (engine : Engine) (textContent : String) (target : Num) (startTime : ℚ)
    (frames : List ℚ) : CounterState :=
  animateCounter.runFrames engine (animateCounter.current textContent) target startTime
    { textContent := textContent, frameRequested := true } frames

/-! ## Dates and the countdown -/

/-- Milliseconds in one day, `1000 * 60 * 60 * 24`. -/
def msPerDay : Int := 1000 * 60 * 60 * 24

/-- Milliseconds in one hour, `1000 * 60 * 60`. -/
def msPerHour : Int := 1000 * 60 * 60

/-- Milliseconds in one minute, `1000 * 60`. -/
def msPerMinute : Int := 1000 * 60

/-- The day number of 1 January of a year, counted from 1 January 1970
(`DayFromYear` of the language standard). -/
def dayFromYear (y : Int) : Int :=
  365 * (y - 1970) + (y - 1969) / 4 - (y - 1901) / 100 + (y - 1601) / 400

/-- Whether a year of the Gregorian calendar is a leap year. -/
def inLeapYear (y : Int) : Bool :=
  y % 4 == 0 && (y % 100 != 0 || y % 400 == 0)

/-- Number of days of a year before the first day of a month (months are
numbered from 0, as in `new Date(year, month, day)`). -/
def daysBeforeMonth (leap : Bool) (month : Nat) : Int :=
  let l : Int := if leap then 1 else 0
  match month with
  | 0 => 0
  | 1 => 31
  | 2 => 59 + l
  | 3 => 90 + l
  | 4 => 120 + l
  | 5 => 151 + l
  | 6 => 181 + l
  | 7 => 212 + l
  | 8 => 243 + l
  | 9 => 273 + l
  | 10 => 304 + l
  | _ => 334 + l

/-- Number of days of a month. -/
def daysInMonth (leap : Bool) (month : Nat) : Nat :=
  match month with
  | 1 => if leap then 29 else 28
  | 3 => 30
  | 5 => 30
  | 8 => 30
  | 10 => 30
  | _ => 31

/-- A `Date` object read in local time: calendar fields (month from 0) and
the milliseconds elapsed since local midnight. -/
structure LocalDate where
  year : Int
  month : Nat
  date : Nat
  msOfDay : Nat
  deriving DecidableEq, Repr

/-- The fields denote a calendar date and a time of day. -/
def LocalDate.valid (d : LocalDate) : Prop :=
  d.month < 12 ∧ 1 ≤ d.date ∧ d.date ≤ daysInMonth (inLeapYear d.year) d.month ∧
    d.msOfDay < 86400000

instance LocalDate.decidableValid (d : LocalDate) : Decidable d.valid := by
  unfold LocalDate.valid
  infer_instance

/-- The time value of a date, in milliseconds on the local wall clock (the
zone offset is taken constant, so differences of time values are
differences of instants). -/
def LocalDate.time (d : LocalDate) : Int :=
  (dayFromYear d.year + daysBeforeMonth (inLeapYear d.year) d.month + ((d.date : Int) - 1))
      * msPerDay + (d.msOfDay : Int)

/-- The constant `CHRISTMAS_DATE = new Date(new Date().getFullYear(), 11, 25)`,
for a script loaded in the given year. -/
def CHRISTMAS_DATE (loadYear : Int) : LocalDate :=
  { year := loadYear, month := 11, date := 25, msOfDay := 0 }

/-- The method `setFullYear` on a date. -/
def LocalDate.setFullYear (d : LocalDate) (y : Int) : LocalDate :=
  { d with year := y }

/-- The date `christmas` that `updateChristmasCountdown` counts down to:
a copy of the constant, moved one year ahead when `now > christmas`. -/
def updateChristmasCountdown.christmas (christmasDate : LocalDate) (now : Int) : LocalDate :=
  if now > christmasDate.time then christmasDate.setFullYear (christmasDate.year + 1)
  else christmasDate

/-- The `days` of `updateChristmasCountdown`. -/
def updateChristmasCountdown.days (diff : Int) : Int :=
  diff / msPerDay

/-- The `hours` of `updateChristmasCountdown`; `%` is the remainder of
JavaScript, which has the sign of the dividend. -/
def updateChristmasCountdown.hours (diff : Int) : Int :=
  (diff.tmod msPerDay) / msPerHour

/-- The `minutes` of `updateChristmasCountdown`. -/
def updateChristmasCountdown.minutes (diff : Int) : Int :=
  (diff.tmod msPerHour) / msPerMinute

/-- The `seconds` of `updateChristmasCountdown`. -/
def updateChristmasCountdown.seconds (diff : Int) : Int :=
  (diff.tmod msPerMinute) / 1000

/-- One field of the countdown: `n.toString().padStart(2, '0')`. -/
def updateChristmasCountdown.field (n : Int) : String :=
  padStart (numToString n) 2 "0"

/-- The text written to the countdown element for a difference `diff` of
`christmas - now` milliseconds. -/
def updateChristmasCountdown.text (diff : Int) : String :=
  updateChristmasCountdown.field (updateChristmasCountdown.days diff) ++ ":" ++
  updateChristmasCountdown.field (updateChristmasCountdown.hours diff) ++ ":" ++
  updateChristmasCountdown.field (updateChristmasCountdown.minutes diff) ++ ":" ++
  updateChristmasCountdown.field (updateChristmasCountdown.seconds diff)

/-- The function `updateChristmasCountdown` at the instant `now`: the new
text of the countdown element. -/
def updateChristmasCountdown (christmasDate : LocalDate) (now : Int) : String :=
  updateChristmasCountdown.text
    ((updateChristmasCountdown.christmas christmasDate now).time - now)

/-! ## Relative age of an alert -/

/-- What the script takes from the browser: the clock read by `new Date()`,
`Date.parse` (`none` is `NaN`) and `toISOString`. -/
structure Env where
  now : Int
  parseDate : String → Option Int
  toISOString : Int → String

/-- TimeClip: a time value beyond 8.64e15 milliseconds is an invalid date. -/
def timeClip (t : Int) : Option Int :=
  if t.natAbs ≤ 8640000000000000 then some t else none

/-- The time value of `new Date(value)` for a value received from the API;
`none` is an invalid date.  A string is parsed, any other primitive is
converted to a number. -/
def newDate (env : Env) (value : JSVal) : Except JSError (Option Int) := do
  let p ← value.toPrimitive
  match p with
  | str s => pure ((env.parseDate s).bind timeClip)
  | undefined => pure none
  | q => pure ((primToNumber q).bind timeClip)

/-- The text chosen by `getTimeAgo` once `diff = now - past` is known. -/
def getTimeAgo.ofDiff (diff : Int) : String :=
  let minutes := diff / msPerMinute
  let hours := diff / msPerHour
  let days := diff / msPerDay
  if days > 0 then numToString days ++ "d ago"
  else if hours > 0 then numToString hours ++ "h ago"
  else if minutes > 0 then numToString minutes ++ "m ago"
  else "Just now"

/-- The function `getTimeAgo(timestamp)`.  With an invalid date `diff` is
`NaN`, every comparison fails and the result is `Just now`. -/
def getTimeAgo (env : Env) (timestamp : JSVal) : Except JSError String :=
  if !timestamp.truthy then pure "Recently"
  else do
    let past ← newDate env timestamp
    match past with
    | some t => pure (getTimeAgo.ofDiff (env.now - t))
    | none => pure "Just now"

/-! ## Rows of the page -/

namespace JSVal

mutual
/-- The text of the call `v.toLocaleString()`.  A number is grouped (en-US),
an array is the comma-joined text of the same call on its elements, a plain
object is `[object Object]`; an own data property named `toLocaleString` or
`toString` shadows the inherited method with something that cannot be
called, and the call throws a `TypeError`. -/
def toLocaleStr : JSVal → Except JSError String
  | undefined => .error (.typeError "Cannot read properties of undefined (reading toLocaleString)")
  | null => .error (.typeError "Cannot read properties of null (reading toLocaleString)")
  | bool b => .ok (if b then "true" else "false")
  | num n => .ok (toLocaleString n)
  | inf negative => .ok (if negative then "-∞" else "∞")
  | nan => .ok "NaN"
  | str s => .ok s
  | arr items => joinLocale items
  | obj fields =>
    if hasKey "toLocaleString" fields then
      .error (.typeError "toLocaleString is not a function")
    else if hasKey "toString" fields then
      .error (.typeError "toString is not a function")
    else .ok "[object Object]"
termination_by structural v => v
/-- The method `Array.prototype.toLocaleString`: `undefined` and `null`
elements give the empty text. -/
def joinLocale : List JSVal → Except JSError String
  | [] => .ok ""
  | x :: rest =>
    match (match x with
      | undefined => Except.ok ""
      | null => Except.ok ""
      | v => toLocaleStr v) with
    | .error e => .error e
    | .ok first =>
      match joinLocale rest with
      | .error e => .error e
      | .ok others =>
        .ok (first ++ (match rest with | [] => "" | _ :: _ => ",") ++ others)
termination_by structural l => l
end

end JSVal

/-- The texts interpolated into one `<tr>` of the inventory table, in the
order of the template of `updateInventoryTable` (the three buttons
interpolate the same `item.toyId`). -/
structure InventoryRow where
  toyName : String
  toyIdLabel : String
  region : String
  city : String
  currentStock : String
  minimumStock : String
  statusClass : String
  statusText : String
  restockETA : String
  actionToyId : String
  deriving DecidableEq, Repr

/-- The status class and status text chosen in the body of the `forEach` of
`updateInventoryTable`, from the value of `item.status`. -/
def inventoryStatusBadge (status : JSVal) : String × String :=
  if status.isStr "LOW_STOCK" then ("status-lowstock", "Low Stock")
  else if status.isStr "OUT_OF_STOCK" then ("status-outstock", "Out of Stock")
  else ("status-instock", "In Stock")

/-- The body of the `forEach` of `updateInventoryTable`: the row built for
one item.  Reading a property of a `null` or `undefined` item throws, and so
does the conversion to text of an interpolated value that has no callable
conversion. -/
def inventoryRow (item : JSVal) : Except JSError InventoryRow := do
  let status ← item.get "status"
  let badge := inventoryStatusBadge status
  let toyName ← item.get "toyName"
  let toyNameText ← (toyName.or (str "Unknown Toy")).toStr
  let toyId ← item.get "toyId"
  let toyIdLabel ← (toyId.or (str "N/A")).toStr
  let region ← item.get "region"
  let regionText ← (region.or (str "Unknown Region")).toStr
  let city ← item.get "city"
  let cityText ← (city.or (str "Unknown City")).toStr
  let currentStock ← item.get "currentStock"
  let currentStockText ← (currentStock.or (num 0)).toLocaleStr
  let minimumStock ← item.get "minimumStock"
  let minimumStockText ← (minimumStock.or (num 0)).toLocaleStr
  let restockETA ← item.get "restockETA"
  let restockETAText ← (restockETA.or (str "--:--")).toStr
  let actionToyId ← toyId.toStr
  pure {
    toyName := toyNameText
    toyIdLabel := toyIdLabel
    region := regionText
    city := cityText
    currentStock := currentStockText
    minimumStock := minimumStockText
    statusClass := badge.1
    statusText := badge.2
    restockETA := restockETAText
    actionToyId := actionToyId }

/-- A `forEach` that appends one rendered child per element: the children
appended so far, and the exception that stopped the loop, if any. -/
def forEachAppend {ρ : Type} (body : JSVal → Except JSError ρ) :
    List JSVal → List ρ × Option JSError
  | [] => ([], none)
  | x :: xs =>
    match body x with
    | .error e => ([], some e)
    | .ok r => ((r :: (forEachAppend body xs).1), (forEachAppend body xs).2)

/-! ## The page -/

/-- The texts interpolated into one production-line card. -/
structure ProductionCard where
  lineName : String
  statusClass : String
  status : String
  outputPerHour : String
  qualityScore : String
  toyType : String
  lineId : String
  deriving DecidableEq, Repr

/-- The texts interpolated into one item of the alerts list. -/
structure AlertCard where
  icon : String
  message : String
  timeAgo : String
  alertId : String
  deriving DecidableEq, Repr

/-- One dataset of the stock chart. -/
structure Dataset where
  label : String
  backgroundColor : String
  data : List JSVal

/-- The bar chart held in `elements.stockChart`: its labels, its three
datasets (`datasets[0]`, `datasets[1]`, `datasets[2]`) and the number of
calls of `update()`. -/
structure Chart where
  labels : List JSVal
  dataset0 : Dataset
  dataset1 : Dataset
  dataset2 : Dataset
  redraws : Nat

/-- The four counter elements driven by `animateCounter`. -/
inductive Counter where
  | totalToys
  | activeLines
  | stockAlerts
  | regionsStocked
  deriving DecidableEq, Repr

/-- The state of the page.  `animations` lists the calls
`animateCounter(element, target)` made so far, the latest first;
`toyTrendSource` is the `totalToys` value the trend text was last computed
from; `stockChart` is `none` until `initializeChart` has run;
`loadingDisplay` is the display style of the loading element, if the page has
one. -/
structure View where
  inventoryTable : List InventoryRow
  productionGrid : List ProductionCard
  alertsList : List AlertCard
  alertCount : String
  animations : List (Counter × JSVal)
  toyTrendSource : Option JSVal
  stockChart : Option Chart
  apiStatusText : String
  apiStatusClass : String
  alertMessage : String
  bannerDisplay : String
  bannerBackground : String
  loadingDisplay : Option String

/-- The target of the latest animation started on a counter. -/
def View.counterTarget (v : View) (c : Counter) : Option JSVal :=
  (v.animations.find? (fun a => decide (a.1 = c))).map Prod.snd

/-- The view-level effect of a call `animateCounter(element, target)`. -/
def View.animate (v : View) (c : Counter) (target : JSVal) : View :=
  { v with animations := (c, target) :: v.animations }

/-- A view after a piece of script ran, with the exception it threw, if
any. -/
abbrev Step := View × Option JSError

/-- Sequencing of two statements: the second runs unless the first threw. -/
def Step.andThen (s : Step) (f : View → Step) : Step :=
  match s.2 with
  | none => f s.1
  | some e => (s.1, some e)

/-- The function `updateInventoryTable(inventory)` on an array. -/
def updateInventoryTable (inventory : List JSVal) (v : View) : Step :=
  let r := forEachAppend inventoryRow inventory
  ({ v with inventoryTable := r.1 }, r.2)

/-- The status class of a production line. -/
def productionStatusClass (status : JSVal) : String :=
  let c0 := "status-idle"
  let c1 := if status.isStr "ACTIVE" then "status-active" else c0
  if status.isStr "MAINTENANCE" then "status-maintenance" else c1

/-- The body of the `forEach` of `updateProductionLines`: the card built for
one line. -/
def productionCard (line : JSVal) : Except JSError ProductionCard := do
  let status ← line.get "status"
  let lineName ← line.get "lineName"
  let lineNameText ← (lineName.or (str "Unknown Line")).toStr
  let statusText ← (status.or (str "UNKNOWN")).toStr
  let outputPerHour ← line.get "outputPerHour"
  let outputPerHourText ← (outputPerHour.or (num 0)).toStr
  let qualityScore ← line.get "qualityScore"
  let qualityScoreText ← (qualityScore.or (num 0)).toStr
  let toyType ← line.get "toyType"
  let toyTypeText ← (toyType.or (str "Unknown")).toStr
  let lineId ← line.get "lineId"
  let lineIdText ← (lineId.or (str "N/A")).toStr
  pure {
    lineName := lineNameText
    statusClass := productionStatusClass status
    status := statusText
    outputPerHour := outputPerHourText
    qualityScore := qualityScoreText
    toyType := toyTypeText
    lineId := lineIdText }

/-- The value of `activeCount` after a `forEach` over lines that did not
throw: the number of lines whose status is `ACTIVE`. -/
def activeCount (lines : List JSVal) : Nat :=
  (lines.filter (fun line => (line.prop "status").isStr "ACTIVE")).length

/-- The function `updateProductionLines(lines)` on an array. -/
def updateProductionLines (lines : List JSVal) (v : View) : Step :=
  let r := forEachAppend productionCard lines
  let v1 := { v with productionGrid := r.1 }
  match r.2 with
  | some e => (v1, some e)
  | none => (v1.animate Counter.activeLines (num (activeCount lines)), none)

/-- The icon of an alert, from its severity. -/
def alertIcon (severity : JSVal) : String :=
  let i0 := "fa-exclamation-circle"
  let i1 := if severity.isStr "CRITICAL" then "fa-skull-crossbones" else i0
  let i2 := if severity.isStr "MEDIUM" then "fa-exclamation-triangle" else i1
  if severity.isStr "LOW" then "fa-info-circle" else i2

/-- The body of the `forEach` of `updateAlertsList`: the item built for one
alert. -/
def alertCard (env : Env) (alert : JSVal) : Except JSError AlertCard := do
  let severity ← alert.get "severity"
  let createdAt ← alert.get "createdAt"
  let timeAgo ← getTimeAgo env createdAt
  let message ← alert.get "message"
  let messageText ← (message.or (str "New alert")).toStr
  let alertId ← alert.get "alertId"
  let alertIdText ← alertId.toStr
  pure {
    icon := alertIcon severity
    message := messageText
    timeAgo := timeAgo
    alertId := alertIdText }

/-- The function `updateAlertsList(alerts)` on an array. -/
def updateAlertsList (env : Env) (alerts : List JSVal) (v : View) : Step :=
  let r := forEachAppend (alertCard env) alerts
  let v1 := { v with alertsList := r.1 }
  match r.2 with
  | some e => (v1, some e)
  | none =>
    let v2 := { v1 with alertCount := Nat.repr alerts.length }
    (v2.animate Counter.stockAlerts (num alerts.length), none)

/-! ## Chart and statistics -/

/-- The chart created by `initializeChart`. -/
def initialChart : Chart :=
  { labels := []
    dataset0 := { label := "In Stock", backgroundColor := "#4CAF50", data := [] }
    dataset1 := { label := "Low Stock", backgroundColor := "#FF9800", data := [] }
    dataset2 := { label := "Out of Stock", backgroundColor := "#F44336", data := [] }
    redraws := 0 }

/-- The function `initializeChart()` on a page that has the chart canvas. -/
def initializeChart (v : View) : View :=
  { v with stockChart := some initialChart }

/-- The function `updateChartFromStats(stats)`, called with a truthy
`stats`. -/
def updateChartFromStats (stats : JSVal) (v : View) : View :=
  match v.stockChart with
  | none => v
  | some chart =>
    if !(stats.prop "inventoryStatus").truthy then v
    else
      let status := stats.prop "inventoryStatus"
      let chart1 : Chart :=
        { labels := [str "Stock Status"]
          dataset0 := { chart.dataset0 with data := [(status.prop "IN_STOCK").or (num 0)] }
          dataset1 := { chart.dataset1 with data := [(status.prop "LOW_STOCK").or (num 0)] }
          dataset2 := { chart.dataset2 with data := [(status.prop "OUT_OF_STOCK").or (num 0)] }
          redraws := chart.redraws + 1 }
      { v with stockChart := some chart1 }

/-- The function `updateDashboardStats(stats)`.  The five `if` statements
run in the order of the source.  The trend multiplies `stats.totalToys` by
0.05, which converts it to a number and throws when it has no callable
conversion; of the trend text the page state keeps the `totalToys` value it
was computed from. -/
def updateDashboardStats (stats : JSVal) (v : View) : Step :=
  if !stats.truthy then (v, none)
  else
    let v1 :=
      if (stats.prop "totalToys").isDefined then
        v.animate Counter.totalToys (stats.prop "totalToys")
      else v
    let v2 :=
      if (stats.prop "productionStats").truthy then
        v1.animate Counter.activeLines
          (((stats.prop "productionStats").prop "activeLines").or (num 0))
      else v1
    let v3 :=
      if (stats.prop "alertStats").truthy then
        v2.animate Counter.stockAlerts (((stats.prop "alertStats").prop "total").or (num 0))
      else v2
    let v4 :=
      if (stats.prop "regionStats").truthy then
        v3.animate Counter.regionsStocked (num (stats.prop "regionStats").keysLength)
      else v3
    if (stats.prop "totalToys").truthy then
      match (stats.prop "totalToys").toPrimitive with
      | .error e => (v4, some e)
      | .ok _ =>
        let v5 := { v4 with toyTrendSource := some (stats.prop "totalToys") }
        (if (stats.prop "inventoryStatus").truthy then updateChartFromStats stats v5 else v5, none)
    else
      (if (stats.prop "inventoryStatus").truthy then updateChartFromStats stats v4 else v4, none)

/-- The call `inventory.reduce((sum, item) => sum + (item.currentStock || 0), 0)`
continued from the accumulator `sum`. -/
def sumCurrentStock : List JSVal → JSVal → Except JSError JSVal
  | [], sum => .ok sum
  | item :: rest, sum =>
    match item.get "currentStock" with
    | .error e => .error e
    | .ok stock =>
      match sum.add (stock.or (num 0)) with
      | .error e => .error e
      | .ok sum1 => sumCurrentStock rest sum1

/-- The `stats` object literal built by `calculateStatsFromInventory`. -/
def minimalStats (totalToys : JSVal) : JSVal :=
  obj [("totalToys", totalToys),
       ("productionStats", obj [("activeLines", num 0), ("totalLines", num 0)]),
       ("alertStats", obj [("total", num 0)]),
       ("regionStats", obj [])]

/-- The function `calculateStatsFromInventory(inventory)`. -/
def calculateStatsFromInventory (inventory : JSVal) (v : View) : Step :=
  if !inventory.truthy || !inventory.isArray then (v, none)
  else
    match inventory with
    | arr items =>
      match sumCurrentStock items (num 0) with
      | .error e => (v, some e)
      | .ok total => updateDashboardStats (minimalStats total) v
    | _ => (v, none)

/-! ## Banner, loading indicator and fallback data -/

/-- The function `showAlert(type, message)` on a page that has the banner.
The timer that hides the banner five seconds later is not part of the
state. -/
def showAlert (type message : String) (v : View) : View :=
  { v with
    alertMessage := message
    bannerDisplay := "flex"
    bannerBackground :=
      if type == "error" then "linear-gradient(90deg, #ff6b6b, #ff8e53)"
      else if type == "success" then "linear-gradient(90deg, #4CAF50, #8BC34A)"
      else "linear-gradient(90deg, #2196F3, #03A9F4)" }

/-- The function `closeAlert()`. -/
def closeAlert (v : View) : View :=
  { v with bannerDisplay := "none" }

/-- The function `showLoading(show)`. -/
def showLoading (shown : Bool) (v : View) : View :=
  { v with loadingDisplay := v.loadingDisplay.map (fun _ => if shown then "block" else "none") }

/-- The constant `fallbackInventory` of `useFallbackInventory`. -/
def fallbackInventory : List JSVal :=
  [obj [("toyid", str "TOY001"), ("toyName", str "Teddy Bear"),
        ("region", str "Central Africa"), ("city", str "Douala"),
        ("currentStock", num 1500), ("minimumStock", num 2000),
        ("status", str "LOW_STOCK"), ("restockETA", str "02:30")]]

/-- The constant `fallbackProduction` of `useFallbackProduction`. -/
def fallbackProduction : List JSVal :=
  [obj [("lineId", str "LINE001"), ("lineName", str "Teddy Bear Assembly"),
        ("status", str "ACTIVE"), ("outputPerHour", num 500),
        ("toyType", str "Teddy Bears"), ("qualityScore", num 98)]]

/-- The array `fallbackAlerts` of `useFallbackAlerts`; its `createdAt` is the
current time as an ISO string. -/
def fallbackAlerts (env : Env) : List JSVal :=
  [obj [("alertId", str "ALERT001"), ("severity", str "HIGH"),
        ("message", str "Teddy Bears running low in Douala (1500/2000)"),
        ("createdAt", str (env.toISOString env.now))]]

/-- The function `useFallbackInventory()`. -/
def useFallbackInventory (v : View) : Step :=
  updateInventoryTable fallbackInventory v

/-- The function `useFallbackProduction()`. -/
def useFallbackProduction (v : View) : Step :=
  updateProductionLines fallbackProduction v

/-- The function `useFallbackAlerts()`. -/
def useFallbackAlerts (env : Env) (v : View) : Step :=
  updateAlertsList env (fallbackAlerts env) v

/-- The function `loadFallbackData()`. -/
def loadFallbackData (env : Env) (v : View) : Step :=
  (((useFallbackInventory v).andThen useFallbackProduction).andThen (useFallbackAlerts env)).andThen
    (fun v3 => (showAlert "warning" "Using fallback data. Check API connection." v3, none))

/-! ## API client and refresh cycle -/

/-- The constant `API_BASE_URL`. -/
def API_BASE_URL : String := "https://6220jrfx30.execute-api.us-east-1.amazonaws.com/prod"

/-- A response of `fetch`: its status, and what reading the body as text
and as JSON gives (either reader may reject). -/
structure Response where
  status : Nat
  text : Except JSError String
  json : Except JSError JSVal

/-- The flag `response.ok`: the status is in the range 200-299. -/
def Response.ok (r : Response) : Bool :=
  200 ≤ r.status && r.status ≤ 299

/-- The network as the script sees it: for the URL of a request, `fetch`
either rejects or resolves to a response. -/
abbrev Network := String → Except JSError Response

/-- The `try` block of `fetchFromAPI`. -/
def fetchFromAPI.tryBlock (net : Network) (endpoint : String) : Except JSError JSVal :=
  match net (API_BASE_URL ++ endpoint) with
  | .error e => .error e
  | .ok response =>
    if !response.ok then
      match response.text with
      | .error e => .error e
      | .ok body => .error (.error ("HTTP " ++ Nat.repr response.status ++ ": " ++ body))
    else
      match response.json with
      | .error e => .error e
      | .ok data => .ok data

/-- The function `fetchFromAPI(endpoint)`: what the returned promise settles
to (`Except.error` is a rejection). -/
def fetchFromAPI (net : Network) (endpoint : String) : Except JSError JSVal :=
  match fetchFromAPI.tryBlock net endpoint with
  | .ok data => .ok data
  | .error _ => .ok null

/-- The part of the `try` block of `loadDashboardData` that follows the
`await`: the four sections are rendered in turn, then the status indicator
and the banner are set. -/
def loadDashboardData.render (env : Env) (inventory productionLines alerts stats : JSVal)
    (v : View) : Step :=
  ((((match inventory.asArray with
      | some items => updateInventoryTable items v
      | none => useFallbackInventory v).andThen
    (fun v1 =>
      match productionLines.asArray with
      | some lines => updateProductionLines lines v1
      | none => useFallbackProduction v1)).andThen
    (fun v2 =>
      match alerts.asArray with
      | some items => updateAlertsList env items v2
      | none => useFallbackAlerts env v2)).andThen
    (fun v3 =>
      if stats.truthy then updateDashboardStats stats v3
      else calculateStatsFromInventory (inventory.or (arr [])) v3)).andThen
    (fun v4 =>
      (showAlert "success" "Dashboard updated with real factory data"
        { v4 with apiStatusText := "Connected", apiStatusClass := "status-good" }, none))

/-- The `catch` block of `loadDashboardData`. -/
def loadDashboardData.handler (env : Env) (v : View) : Step :=
  loadFallbackData env
    (showAlert "error" "Failed to load data. Showing cached information."
      { v with apiStatusText := "Connection Error", apiStatusClass := "status-error" })

/-- The `try` block of `loadDashboardData`: `Promise.all` over the four
fetches, then the rendering. -/
def loadDashboardData.tryBlock (env : Env) (net : Network) (v : View) : Step :=
  match fetchFromAPI net "/inventory", fetchFromAPI net "/production",
      fetchFromAPI net "/alerts", fetchFromAPI net "/stats" with
  | .ok inventory, .ok productionLines, .ok alerts, .ok stats =>
    loadDashboardData.render env inventory productionLines alerts stats v
  | .error e, _, _, _ => (v, some e)
  | _, .error e, _, _ => (v, some e)
  | _, _, .error e, _ => (v, some e)
  | _, _, _, .error e => (v, some e)

/-- The function `loadDashboardData()`: one refresh cycle. -/
def loadDashboardData (env : Env) (net : Network) (v : View) : Step :=
  let tried := loadDashboardData.tryBlock env net (showLoading true v)
  let caught :=
    match tried.2 with
    | none => tried
    | some _ => loadDashboardData.handler env tried.1
  (showLoading false caught.1, caught.2)

/-- The array whose elements a section is rendered from: the fetched value
when it passes the test `v && Array.isArray(v)`, the fallback constant
otherwise. -/
def sectionSource (fetched : JSVal) (fallback : List JSVal) : List JSVal :=
  match fetched.asArray with
  | some items => items
  | none => fallback

/-- A value that is not an array or an object. -/
def JSVal.isPrimitive : JSVal → Bool
  | arr _ => false
  | obj _ => false
  | _ => true

/-- A record as in the data model: an object whose field values are all
primitive. -/
def JSVal.isFlatRecord : JSVal → Bool
  | obj fields => fields.all (fun kv => kv.2.isPrimitive)
  | _ => false

/-- A network that answers every request with status 200 and the given JSON
bodies for the four resources. -/
def jsonNetwork (inventory productionLines alerts stats : JSVal) : Network :=
  fun url =>
    if url == API_BASE_URL ++ "/inventory" then .ok ⟨200, .ok "", .ok inventory⟩
    else if url == API_BASE_URL ++ "/production" then .ok ⟨200, .ok "", .ok productionLines⟩
    else if url == API_BASE_URL ++ "/alerts" then .ok ⟨200, .ok "", .ok alerts⟩
    else .ok ⟨200, .ok "", .ok stats⟩

/-- A browser environment with the clock at the given time and an ISO
format that `Date.parse` does not read. -/
def fixedClock (now : Int) : Env :=
  { now := now, parseDate := fun _ => none, toISOString := fun _ => "1970-01-01T00:00:00.000Z" }

/-- The number a record contributes to the stock total: its `currentStock`
when that is a number, 0 when it is missing (or any other value that is not
a number). -/
def currentStockOf (item : JSVal) : Int :=
  match item.prop "currentStock" with
  | num n => n
  | _ => 0

/-- A page on which nothing has been rendered yet. -/
def emptyPage : View :=
  { inventoryTable := [], productionGrid := [], alertsList := [], alertCount := "",
    animations := [], toyTrendSource := none, stockChart := none,
    apiStatusText := "", apiStatusClass := "", alertMessage := "",
    bannerDisplay := "none", bannerBackground := "", loadingDisplay := none }

/-! ## Action functions -/

/-- A request of a mutating action: the method, the URL and the object that
is sent as the JSON body. -/
structure Request where
  method : String
  url : String
  body : JSVal

/-- What `fetch` does for the request of a mutating action: it rejects, or
resolves to a response. -/
abbrev Mutations := Request → Except JSError Response

/-- What a call of an action function did: the page afterwards, the calls
of `console.error` made by the action itself (label and error), and whether
`loadDashboardData()` was called.  When the refresh is called, `view` is the
page once its cycle has completed. -/
structure ActionOutcome where
  view : View
  errors : List (String × JSError)
  refreshed : Bool

/-- The function `restockToy(toyid)`. -/
def restockToy (env : Env) (net : Network) (send : Mutations) (toyid : String) (v : View) :
    ActionOutcome :=
  let v1 := showAlert "info" ("Initiating restock for Toy ID: " ++ toyid) v
  match send
      { method := "POST", url := API_BASE_URL ++ "/inventory",
        body := obj [("toyid", str toyid), ("currentStock", num 2000),
          ("action", str "restock")] } with
  | .error e => { view := v1, errors := [("Restock error:", e)], refreshed := false }
  | .ok response =>
    if response.ok then
      let v2 := showAlert "success" ("Toy " ++ toyid ++ " restocked successfully") v1
      { view := (loadDashboardData env net v2).1, errors := [], refreshed := true }
    else { view := v1, errors := [], refreshed := false }

/-- The function `showToyDetails(toyid)`. -/
def showToyDetails (toyid : String) (v : View) : View :=
  showAlert "info" ("Showing details for Toy ID: " ++ toyid) v

/-- The function `createAlert(toyid)`. -/
def createAlert (env : Env) (net : Network) (send : Mutations) (toyid : String) (v : View) :
    ActionOutcome :=
  let v1 := showAlert "warning" ("Creating alert for Toy ID: " ++ toyid) v
  match send
      { method := "POST", url := API_BASE_URL ++ "/alerts",
        body := obj [("toyid", str toyid), ("severity", str "MEDIUM"),
          ("message", str ("Manual alert created for toy " ++ toyid))] } with
  | .error e => { view := v1, errors := [("Create alert error:", e)], refreshed := false }
  | .ok response =>
    if response.ok then
      let v2 := showAlert "success" "Alert created successfully" v1
      { view := (loadDashboardData env net v2).1, errors := [], refreshed := true }
    else { view := v1, errors := [], refreshed := false }

/-- The function `resolveAlert(alertId)`. -/
def resolveAlert (env : Env) (net : Network) (send : Mutations) (alertId : String) (v : View) :
    ActionOutcome :=
  let v1 := showAlert "info" ("Resolving alert: " ++ alertId) v
  match send
      { method := "PUT", url := API_BASE_URL ++ "/alerts",
        body := obj [("alertId", str alertId), ("resolved", bool true)] } with
  | .error e => { view := v1, errors := [("Resolve alert error:", e)], refreshed := false }
  | .ok response =>
    if response.ok then
      let v2 := showAlert "success" "Alert marked as resolved" v1
      { view := (loadDashboardData env net v2).1, errors := [], refreshed := true }
    else { view := v1, errors := [], refreshed := false }

/-- The colour `showAlert` gives the banner for every type other than
`error` and `success`. -/
def bannerBlue : String := "linear-gradient(90deg, #2196F3, #03A9F4)"

/-- A `fetch` that rejects every mutating request with the given error. -/
def rejectingMutations (e : JSError) : Mutations :=
  fun _ => .error e

/-- A `fetch` that answers every mutating request with the given status and
an empty body. -/
def statusMutations (status : Nat) : Mutations :=
  fun _ => .ok ⟨status, .ok "", .ok null⟩

/-! ## Reading a counter back -/

/-- Every character of the list is a decimal digit. -/
def AllDigits (l : List Char) : Prop := ∀ c ∈ l, ∃ k, k < 10 ∧ c = Nat.digitChar k

/-- Whether a text, commas and leading white space aside, begins with an
integer: an optional sign followed by a decimal digit. -/
def beginsWithInteger (text : String) : Bool :=
  match (removeCommas text).data.dropWhile isStrWhiteSpace with
  | '-' :: c :: _ => c.isDigit
  | '+' :: c :: _ => c.isDigit
  | c :: _ => c.isDigit
  | [] => false

/-! ## Rounding to the nearest double -/

theorem roundHalfEven_intCast (k : ℤ) : roundHalfEven (k : ℚ) = k := by
  unfold roundHalfEven
  simp

theorem roundHalfEven_cases (q : ℚ) :
    (roundHalfEven q = ⌊q⌋ ∧ q - ⌊q⌋ ≤ 1 / 2) ∨ (roundHalfEven q = ⌊q⌋ + 1 ∧ 1 / 2 ≤ q - ⌊q⌋) := by
  unfold roundHalfEven
  split_ifs with h1 h2 h3
  · exact Or.inl ⟨rfl, h1.le⟩
  · exact Or.inr ⟨rfl, h2.le⟩
  · exact Or.inl ⟨rfl, not_lt.1 h2⟩
  · exact Or.inr ⟨rfl, not_lt.1 h1⟩

theorem roundHalfEven_mono {q r : ℚ} (h : q ≤ r) : roundHalfEven q ≤ roundHalfEven r := by
  have hfl : ⌊q⌋ ≤ ⌊r⌋ := Int.floor_mono h
  rcases lt_or_eq_of_le hfl with hlt | heq
  · have h1 : roundHalfEven q ≤ ⌊q⌋ + 1 := by
      rcases roundHalfEven_cases q with ⟨e, _⟩ | ⟨e, _⟩ <;> omega
    have h2 : ⌊r⌋ ≤ roundHalfEven r := by
      rcases roundHalfEven_cases r with ⟨e, _⟩ | ⟨e, _⟩ <;> omega
    omega
  · unfold roundHalfEven
    rw [heq]
    have hle : q - ⌊r⌋ ≤ r - ⌊r⌋ := by linarith
    split_ifs <;> first | omega | (exfalso; linarith)

theorem roundHalfEven_neg (q : ℚ) : roundHalfEven (-q) = -roundHalfEven q := by
  by_cases hq : q = (⌊q⌋ : ℚ)
  · have h1 : roundHalfEven q = ⌊q⌋ := by
      conv_lhs => rw [hq]
      exact roundHalfEven_intCast _
    have h2 : roundHalfEven (-q) = -⌊q⌋ := by
      have : -q = ((-⌊q⌋ : ℤ) : ℚ) := by push_cast; rw [← hq]
      rw [this]
      exact roundHalfEven_intCast _
    rw [h1, h2]
  · have hlt : (⌊q⌋ : ℚ) < q := lt_of_le_of_ne (Int.floor_le q) (fun e => hq e.symm)
    have hfl : ⌊-q⌋ = -⌊q⌋ - 1 := by
      rw [Int.floor_eq_iff]
      have := Int.lt_floor_add_one q
      push_cast
      constructor <;> linarith
    unfold roundHalfEven
    rw [hfl]
    push_cast
    have hlt1 := Int.lt_floor_add_one q
    split_ifs <;> first | omega | (exfalso; linarith)

theorem two_pow_53_mul (e : ℤ) : ((2 ^ 53 : ℤ) : ℚ) * 2 ^ (e - 52) = 2 ^ (e + 1) := by
  have e1 : ((2 ^ 53 : ℤ) : ℚ) = (2 : ℚ) ^ (53 : ℤ) := by norm_num
  rw [e1, ← zpow_add₀ (by norm_num)]
  congr 1
  ring

theorem two_pow_52_mul (e : ℤ) : ((2 ^ 52 : ℤ) : ℚ) * 2 ^ (e - 52) = 2 ^ e := by
  have e1 : ((2 ^ 52 : ℤ) : ℚ) = (2 : ℚ) ^ (52 : ℤ) := by norm_num
  rw [e1, ← zpow_add₀ (by norm_num)]
  congr 1
  ring

theorem binadeExp_neg (x : ℚ) : binadeExp (-x) = binadeExp x := by
  unfold binadeExp
  rw [abs_neg]

theorem roundNearest_neg (x : ℚ) : roundNearest (-x) = -roundNearest x := by
  unfold roundNearest
  rw [binadeExp_neg, neg_div, roundHalfEven_neg]
  push_cast
  ring

theorem roundNearest_zero : roundNearest 0 = 0 := by
  unfold roundNearest
  rw [zero_div]
  have := roundHalfEven_intCast 0
  simp only [Int.cast_zero] at this
  rw [this]
  simp

theorem ulp_pos (x : ℚ) : (0 : ℚ) < 2 ^ (binadeExp x - 52) := by positivity

theorem abs_lt_zpow_binadeExp (x : ℚ) : |x| < 2 ^ (binadeExp x + 1) := by
  have h1 : |x| < (2 : ℚ) ^ (Int.log 2 |x| + 1) := by
    have := Int.lt_zpow_succ_log_self (R := ℚ) (b := 2) (by norm_num) |x|
    exact_mod_cast this
  have h2 : (2 : ℚ) ^ (Int.log 2 |x| + 1) ≤ 2 ^ (binadeExp x + 1) := by
    apply zpow_le_zpow_right₀ (by norm_num)
    unfold binadeExp
    have := le_max_left (Int.log 2 |x|) (-1022)
    omega
  exact lt_of_lt_of_le h1 h2

theorem binadeExp_eq_log {x : ℚ} (h : (2 : ℚ) ^ (-1022 : ℤ) ≤ |x|) :
    binadeExp x = Int.log 2 |x| := by
  unfold binadeExp
  apply max_eq_left
  have hpos : 0 < |x| := lt_of_lt_of_le (by positivity) h
  have := (Int.zpow_le_iff_le_log (R := ℚ) (b := 2) (by norm_num) hpos).1 (by exact_mod_cast h)
  exact this

theorem zpow_binadeExp_le {x : ℚ} (h : (2 : ℚ) ^ (-1022 : ℤ) ≤ |x|) :
    (2 : ℚ) ^ binadeExp x ≤ |x| := by
  rw [binadeExp_eq_log h]
  have hpos : 0 < |x| := lt_of_lt_of_le (by positivity) h
  have := Int.zpow_log_le_self (R := ℚ) (b := 2) (by norm_num) hpos
  exact_mod_cast this

theorem binadeExp_mono {x y : ℚ} (hx : 0 < |x|) (h : |x| ≤ |y|) : binadeExp x ≤ binadeExp y := by
  unfold binadeExp
  exact max_le_max (Int.log_mono_right hx h) le_rfl

theorem binadeExp_ge (x : ℚ) : -1022 ≤ binadeExp x := le_max_right _ _

theorem roundNearest_nonneg {x : ℚ} (h : 0 ≤ x) : 0 ≤ roundNearest x := by
  unfold roundNearest
  have h0 : (0 : ℚ) ≤ x / 2 ^ (binadeExp x - 52) := div_nonneg h (ulp_pos x).le
  have h1 := roundHalfEven_mono h0
  have h2 := roundHalfEven_intCast 0
  simp only [Int.cast_zero] at h2
  rw [h2] at h1
  have h3 : (0 : ℚ) ≤ (roundHalfEven (x / 2 ^ (binadeExp x - 52)) : ℚ) := by exact_mod_cast h1
  exact mul_nonneg h3 (ulp_pos x).le

theorem roundNearest_le_zpow {x : ℚ} (h : 0 ≤ x) : roundNearest x ≤ 2 ^ (binadeExp x + 1) := by
  unfold roundNearest
  have hlt := abs_lt_zpow_binadeExp x
  rw [abs_of_nonneg h] at hlt
  have hu := ulp_pos x
  have h0 : x / 2 ^ (binadeExp x - 52) ≤ ((2 ^ 53 : ℤ) : ℚ) := by
    rw [div_le_iff₀ hu]
    have : ((2 ^ 53 : ℤ) : ℚ) * 2 ^ (binadeExp x - 52) = 2 ^ (binadeExp x + 1) := by
      exact two_pow_53_mul _
    rw [this]
    exact hlt.le
  have h1 := roundHalfEven_mono h0
  rw [roundHalfEven_intCast] at h1
  have h3 : (roundHalfEven (x / 2 ^ (binadeExp x - 52)) : ℚ) ≤ ((2 ^ 53 : ℤ) : ℚ) := by
    exact_mod_cast h1
  calc (roundHalfEven (x / 2 ^ (binadeExp x - 52)) : ℚ) * 2 ^ (binadeExp x - 52)
      ≤ ((2 ^ 53 : ℤ) : ℚ) * 2 ^ (binadeExp x - 52) := mul_le_mul_of_nonneg_right h3 hu.le
    _ = 2 ^ (binadeExp x + 1) := by
      exact two_pow_53_mul _

theorem zpow_le_roundNearest {x : ℚ} (h : (2 : ℚ) ^ (-1022 : ℤ) ≤ x) :
    2 ^ binadeExp x ≤ roundNearest x := by
  have hx : 0 ≤ x := le_trans (by positivity) h
  have habs : (2 : ℚ) ^ (-1022 : ℤ) ≤ |x| := by rwa [abs_of_nonneg hx]
  have hle := zpow_binadeExp_le habs
  rw [abs_of_nonneg hx] at hle
  unfold roundNearest
  have hu := ulp_pos x
  have hpow : ((2 ^ 52 : ℤ) : ℚ) * 2 ^ (binadeExp x - 52) = 2 ^ binadeExp x := by
    exact two_pow_52_mul _
  have h0 : ((2 ^ 52 : ℤ) : ℚ) ≤ x / 2 ^ (binadeExp x - 52) := by
    rw [le_div_iff₀ hu, hpow]
    exact hle
  have h1 := roundHalfEven_mono h0
  rw [roundHalfEven_intCast] at h1
  have h3 : ((2 ^ 52 : ℤ) : ℚ) ≤ (roundHalfEven (x / 2 ^ (binadeExp x - 52)) : ℚ) := by
    exact_mod_cast h1
  calc (2 : ℚ) ^ binadeExp x = ((2 ^ 52 : ℤ) : ℚ) * 2 ^ (binadeExp x - 52) := hpow.symm
    _ ≤ _ := mul_le_mul_of_nonneg_right h3 hu.le

theorem roundNearest_mono_pos {x y : ℚ} (hx : 0 < x) (h : x ≤ y) :
    roundNearest x ≤ roundNearest y := by
  have hy : 0 < y := lt_of_lt_of_le hx h
  have he : binadeExp x ≤ binadeExp y :=
    binadeExp_mono (by rwa [abs_of_pos hx]) (by rwa [abs_of_pos hx, abs_of_pos hy])
  rcases lt_or_eq_of_le he with hlt | heq
  · have hy2 : (2 : ℚ) ^ (-1022 : ℤ) ≤ y := by
      by_contra hc
      have hc := not_le.1 hc
      have hlog : Int.log 2 |y| < -1022 := by
        rw [abs_of_pos hy]
        exact (Int.lt_zpow_iff_log_lt (R := ℚ) (b := 2) (by norm_num) hy).1 (by exact_mod_cast hc)
      have : binadeExp y = -1022 := by
        unfold binadeExp
        exact max_eq_right hlog.le
      have := binadeExp_ge x
      omega
    calc roundNearest x ≤ 2 ^ (binadeExp x + 1) := roundNearest_le_zpow hx.le
      _ ≤ 2 ^ binadeExp y := zpow_le_zpow_right₀ (by norm_num) (by omega)
      _ ≤ roundNearest y := zpow_le_roundNearest hy2
  · unfold roundNearest
    rw [heq]
    have hu := ulp_pos y
    have h0 : x / 2 ^ (binadeExp y - 52) ≤ y / 2 ^ (binadeExp y - 52) :=
      div_le_div_of_nonneg_right h hu.le
    have h1 := roundHalfEven_mono h0
    have h3 : (roundHalfEven (x / 2 ^ (binadeExp y - 52)) : ℚ) ≤
        (roundHalfEven (y / 2 ^ (binadeExp y - 52)) : ℚ) := by exact_mod_cast h1
    exact mul_le_mul_of_nonneg_right h3 hu.le

theorem roundNearest_mono {x y : ℚ} (h : x ≤ y) : roundNearest x ≤ roundNearest y := by
  rcases lt_trichotomy 0 x with hx | hx | hx
  · exact roundNearest_mono_pos hx h
  · subst hx
    rw [roundNearest_zero]
    exact roundNearest_nonneg h
  · rcases le_or_lt 0 y with hy | hy
    · have h1 : roundNearest x ≤ 0 := by
        have := roundNearest_nonneg (x := -x) (by linarith)
        rw [roundNearest_neg] at this
        linarith
      exact le_trans h1 (roundNearest_nonneg hy)
    · have := roundNearest_mono_pos (x := -y) (y := -x) (by linarith) (by linarith)
      rw [roundNearest_neg, roundNearest_neg] at this
      linarith

theorem roundNearest_of_quot {x : ℚ} (k : ℤ) (h : x / 2 ^ (binadeExp x - 52) = k) :
    roundNearest x = x := by
  unfold roundNearest
  rw [h, roundHalfEven_intCast, ← h]
  exact div_mul_cancel₀ x (ulp_pos x).ne.symm

theorem binadeExp_natCast (n : ℕ) : binadeExp (n : ℚ) = Nat.log 2 n := by
  unfold binadeExp
  rw [abs_of_nonneg (Nat.cast_nonneg n), Int.log_natCast]
  exact max_eq_left (by omega)

theorem binadeExp_of_bounds {x : ℚ} (e : ℤ) (he : -1022 ≤ e) (h1 : (2 : ℚ) ^ e ≤ |x|)
    (h2 : |x| < (2 : ℚ) ^ (e + 1)) : binadeExp x = e := by
  have hpos : 0 < |x| := lt_of_lt_of_le (by positivity) h1
  have hlog : Int.log 2 |x| = e := by
    apply le_antisymm
    · have := (Int.lt_zpow_iff_log_lt (R := ℚ) (b := 2) (by norm_num) hpos).1
        (by exact_mod_cast h2)
      omega
    · exact (Int.zpow_le_iff_le_log (R := ℚ) (b := 2) (by norm_num) hpos).1
        (by exact_mod_cast h1)
  unfold binadeExp
  rw [hlog]
  exact max_eq_left he

theorem roundNearest_natCast (n : ℕ) (h : n ≤ 2 ^ 53) : roundNearest (n : ℚ) = n := by
  rcases Nat.lt_or_eq_of_le h with hlt | heq
  · have he : Nat.log 2 n ≤ 52 := by
      by_cases h0 : n = 0
      · subst h0
        simp
      · have := Nat.log_lt_of_lt_pow h0 hlt
        omega
    apply roundNearest_of_quot ((n * 2 ^ (52 - Nat.log 2 n) : ℕ) : ℤ)
    rw [binadeExp_natCast]
    push_cast
    rw [div_eq_iff (by positivity), mul_assoc, ← zpow_natCast, ← zpow_add₀ (by norm_num)]
    have : ((52 - Nat.log 2 n : ℕ) : ℤ) + ((Nat.log 2 n : ℤ) - 52) = 0 := by omega
    rw [this]
    simp
  · subst heq
    apply roundNearest_of_quot (2 ^ 52)
    rw [binadeExp_natCast]
    have : Nat.log 2 (2 ^ 53) = 53 := Nat.log_pow (by norm_num) 53
    rw [this]
    norm_num

theorem roundNearest_intCast (k : ℤ) (h : |k| ≤ 2 ^ 53) : roundNearest (k : ℚ) = k := by
  rcases le_or_lt 0 k with hk | hk
  · lift k to ℕ using hk
    have : k ≤ 2 ^ 53 := by
      rw [abs_of_nonneg (by positivity)] at h
      exact_mod_cast h
    exact_mod_cast roundNearest_natCast k this
  · have hn : 0 ≤ -k := by omega
    have hk2 : ((k : ℚ)) = -(((-k : ℤ)) : ℚ) := by push_cast; ring
    rw [hk2, roundNearest_neg]
    congr 1
    generalize hm : -k = m at hn hk2 ⊢
    have hm2 : |m| ≤ 2 ^ 53 := by rw [← hm, abs_neg]; exact h
    lift m to ℕ using hn
    have : m ≤ 2 ^ 53 := by
      rw [abs_of_nonneg (by positivity)] at hm2
      exact_mod_cast hm2
    exact_mod_cast roundNearest_natCast m this

theorem roundDouble_of_roundNearest {x : ℚ} (h : roundNearest x = x) (hx : |x| < 2 ^ 1024) :
    roundDouble x = Num.fin x := by
  unfold roundDouble
  rw [h, if_neg (not_le.2 hx)]

theorem roundDouble_intCast (k : ℤ) (h : |k| ≤ 2 ^ 53) : roundDouble (k : ℚ) = Num.fin k := by
  apply roundDouble_of_roundNearest (roundNearest_intCast k h)
  have h1 : |(k : ℚ)| ≤ 2 ^ 53 := by exact_mod_cast h
  exact lt_of_le_of_lt h1 (by norm_num)

theorem roundDouble_zero : roundDouble 0 = Num.fin 0 := by
  have := roundDouble_intCast 0 (by norm_num)
  simpa using this

theorem roundDouble_one : roundDouble 1 = Num.fin 1 := by
  have := roundDouble_intCast 1 (by norm_num)
  simpa using this

theorem roundDouble_cases (x : ℚ) :
    (roundDouble x = Num.fin (roundNearest x) ∧ |roundNearest x| < 2 ^ 1024) ∨
    (roundDouble x = Num.inf false ∧ 0 ≤ x ∧ 2 ^ 1024 ≤ roundNearest x) ∨
    (roundDouble x = Num.inf true ∧ x < 0 ∧ roundNearest x ≤ -2 ^ 1024) := by
  unfold roundDouble
  by_cases h : (2 : ℚ) ^ 1024 ≤ |roundNearest x|
  · rw [if_pos h]
    rcases le_or_lt 0 x with hx | hx
    · right; left
      have := roundNearest_nonneg hx
      rw [abs_of_nonneg this] at h
      exact ⟨by simp [not_lt.2 hx], hx, h⟩
    · right; right
      have h1 : roundNearest x ≤ 0 := by
        have := roundNearest_nonneg (x := -x) (by linarith)
        rw [roundNearest_neg] at this
        linarith
      rw [abs_of_nonpos h1] at h
      exact ⟨by simp [hx], hx, by linarith⟩
  · rw [if_neg h]
    exact Or.inl ⟨rfl, not_le.1 h⟩

theorem roundDouble_mono {x y : ℚ} (h : x ≤ y) : (roundDouble x).le (roundDouble y) = true := by
  have hm := roundNearest_mono h
  have hM : (0 : ℚ) < 2 ^ 1024 := by positivity
  rcases roundDouble_cases x with ⟨ex, hx⟩ | ⟨ex, hx0, hx⟩ | ⟨ex, hx0, hx⟩ <;>
  rcases roundDouble_cases y with ⟨ey, hy⟩ | ⟨ey, hy0, hy⟩ | ⟨ey, hy0, hy⟩ <;>
  rw [ex, ey] <;> generalize (2 : ℚ) ^ 1024 = M at hM hx hy
  · simpa [Num.le] using hm
  · rfl
  · exfalso
    have := abs_lt.1 hx
    linarith
  · exfalso
    have := abs_lt.1 hy
    linarith
  · rfl
  · exfalso
    linarith
  · rfl
  · rfl
  · rfl

theorem roundDouble_ne_nan (x : ℚ) : roundDouble x ≠ Num.nan := by
  rcases roundDouble_cases x with ⟨e, _⟩ | ⟨e, _⟩ | ⟨e, _⟩ <;> rw [e] <;> simp

theorem Num.inf_true_le (a : Num) (h : a ≠ Num.nan) : (Num.inf true).le a = true := by
  cases a <;> simp_all [Num.le]

theorem Num.le_inf_false (a : Num) (h : a ≠ Num.nan) : a.le (Num.inf false) = true := by
  cases a <;> simp_all [Num.le]

theorem roundHalfEven_add_half (m : ℤ) :
    roundHalfEven ((m : ℚ) + 1 / 2) = if m % 2 = 0 then m else m + 1 := by
  have hf : ⌊(m : ℚ) + 1 / 2⌋ = m := by
    rw [Int.floor_eq_iff]
    constructor <;> linarith
  unfold roundHalfEven
  rw [hf]
  have e : (m : ℚ) + 1 / 2 - (m : ℚ) = 1 / 2 := by ring
  rw [e]
  simp

theorem roundDouble_odd_binade53 (m : ℤ) (hlo : 2 ^ 52 ≤ m) (hhi : m < 2 ^ 53) :
    roundDouble ((2 * m + 1 : ℤ) : ℚ) =
      Num.fin ((2 * (if m % 2 = 0 then m else m + 1) : ℤ) : ℚ) := by
  have hlo2 : ((2 ^ 52 : ℤ) : ℚ) ≤ (m : ℚ) := by exact_mod_cast hlo
  have hhi2 : (m : ℚ) < ((2 ^ 53 : ℤ) : ℚ) := by exact_mod_cast hhi
  push_cast at hlo2 hhi2
  have hhi3 : (m : ℚ) ≤ ((9007199254740991 : ℤ) : ℚ) := by
    have : m ≤ 9007199254740991 := by omega
    exact_mod_cast this
  push_cast at hhi3
  have hx0 : (0 : ℚ) < ((2 * m + 1 : ℤ) : ℚ) := by push_cast; linarith
  have hb : binadeExp ((2 * m + 1 : ℤ) : ℚ) = 53 := by
    apply binadeExp_of_bounds 53 (by norm_num)
    · rw [abs_of_pos hx0]
      push_cast
      norm_num
      linarith
    · rw [abs_of_pos hx0]
      push_cast
      norm_num
      linarith
  have hr : roundNearest ((2 * m + 1 : ℤ) : ℚ) =
      ((2 * (if m % 2 = 0 then m else m + 1) : ℤ) : ℚ) := by
    unfold roundNearest
    rw [hb]
    have e1 : (2 : ℚ) ^ ((53 : ℤ) - 52) = 2 := by norm_num
    rw [e1]
    have e2 : ((2 * m + 1 : ℤ) : ℚ) / 2 = (m : ℚ) + 1 / 2 := by push_cast; ring
    rw [e2, roundHalfEven_add_half]
    push_cast
    ring
  unfold roundDouble
  rw [hr]
  have hsmall : ¬ (2 : ℚ) ^ 1024 ≤ |((2 * (if m % 2 = 0 then m else m + 1) : ℤ) : ℚ)| := by
    rw [not_le]
    have hle : |((2 * (if m % 2 = 0 then m else m + 1) : ℤ) : ℚ)| ≤ 18014398509481984 := by
      rw [abs_le]
      split_ifs <;> push_cast <;> constructor <;> linarith
    exact lt_of_le_of_lt hle (by norm_num)
  rw [if_neg hsmall]

theorem roundDouble_even_binade53 (m : ℤ) (hlo : 2 ^ 52 ≤ m) (hhi : m ≤ 2 ^ 53) :
    roundDouble ((2 * m : ℤ) : ℚ) = Num.fin ((2 * m : ℤ) : ℚ) := by
  have hlo2 : ((2 ^ 52 : ℤ) : ℚ) ≤ (m : ℚ) := by exact_mod_cast hlo
  have hhi2 : (m : ℚ) ≤ ((2 ^ 53 : ℤ) : ℚ) := by exact_mod_cast hhi
  push_cast at hlo2 hhi2
  rcases lt_or_eq_of_le hhi with hlt | heq
  · have hhi3 : (m : ℚ) < 2 ^ 53 := by exact_mod_cast hlt
    have hx0 : (0 : ℚ) < ((2 * m : ℤ) : ℚ) := by push_cast; linarith
    have hb : binadeExp ((2 * m : ℤ) : ℚ) = 53 := by
      apply binadeExp_of_bounds 53 (by norm_num)
      · rw [abs_of_pos hx0]
        push_cast
        norm_num
        linarith
      · rw [abs_of_pos hx0]
        push_cast
        norm_num
        linarith
    apply roundDouble_of_roundNearest
    · apply roundNearest_of_quot m
      rw [hb]
      push_cast
      norm_num
    · rw [abs_of_pos hx0]
      push_cast
      have : (2 : ℚ) * 2 ^ 53 < 2 ^ 1024 := by norm_num
      linarith
  · subst heq
    have hx0 : (0 : ℚ) < ((2 * 2 ^ 53 : ℤ) : ℚ) := by norm_num
    have hb : binadeExp ((2 * 2 ^ 53 : ℤ) : ℚ) = 54 := by
      apply binadeExp_of_bounds 54 (by norm_num)
      · rw [abs_of_pos hx0]
        norm_num
      · rw [abs_of_pos hx0]
        norm_num
    apply roundDouble_of_roundNearest
    · apply roundNearest_of_quot (2 ^ 52)
      rw [hb]
      norm_num
    · rw [abs_of_pos hx0]
      norm_num

theorem roundHalfEven_le_of_lt_half (q : ℚ) (N : ℤ) (h : q < (N : ℚ) - 1 / 2) :
    roundHalfEven q ≤ N - 1 := by
  have hf := Int.floor_le q
  rcases roundHalfEven_cases q with ⟨e, _⟩ | ⟨e, h2⟩
  · rw [e]
    have : (⌊q⌋ : ℚ) < (N : ℚ) := by linarith
    have : ⌊q⌋ < N := by exact_mod_cast this
    omega
  · rw [e]
    have : (⌊q⌋ : ℚ) < ((N - 1 : ℤ) : ℚ) := by push_cast; linarith
    have : ⌊q⌋ < N - 1 := by exact_mod_cast this
    omega

theorem roundNearest_lt_one {w : ℚ} (h : w < 1 - 1 / 2 ^ 54) : roundNearest w < 1 := by
  rcases lt_or_le w (1 / 2) with h1 | h1
  · have hhalf : roundNearest (1 / 2) = 1 / 2 := by
      have hb : binadeExp (1 / 2 : ℚ) = -1 := by
        apply binadeExp_of_bounds (-1) (by norm_num)
        · rw [abs_of_pos (by norm_num)]
          norm_num
        · rw [abs_of_pos (by norm_num)]
          norm_num
      apply roundNearest_of_quot (2 ^ 52)
      rw [hb]
      norm_num
    have := roundNearest_mono h1.le
    rw [hhalf] at this
    linarith
  · have hw0 : 0 < w := by linarith
    have hb : binadeExp w = -1 := by
      apply binadeExp_of_bounds (-1) (by norm_num)
      · rw [abs_of_pos hw0]
        norm_num
        linarith
      · rw [abs_of_pos hw0]
        norm_num
        have : (1 : ℚ) - 1 / 2 ^ 54 < 1 := by norm_num
        linarith
    unfold roundNearest
    rw [hb]
    have hq : w / 2 ^ ((-1 : ℤ) - 52) < ((2 ^ 53 : ℤ) : ℚ) - 1 / 2 := by
      have e1 : (2 : ℚ) ^ ((-1 : ℤ) - 52) = 1 / 2 ^ 53 := by norm_num
      rw [e1]
      have : w / (1 / 2 ^ 53) = w * 2 ^ 53 := by field_simp
      rw [this]
      push_cast
      have : (1 - 1 / 2 ^ 54 : ℚ) * 2 ^ 53 = 2 ^ 53 - 1 / 2 := by norm_num
      nlinarith
    have hk := roundHalfEven_le_of_lt_half _ _ hq
    have hk2 : (roundHalfEven (w / 2 ^ ((-1 : ℤ) - 52)) : ℚ) ≤ ((2 ^ 53 - 1 : ℤ) : ℚ) := by
      exact_mod_cast hk
    have e1 : (2 : ℚ) ^ ((-1 : ℤ) - 52) = 1 / 2 ^ 53 := by norm_num
    rw [e1] at hk2 ⊢
    have : (roundHalfEven (w / (1 / 2 ^ 53)) : ℚ) * (1 / 2 ^ 53) ≤
        ((2 ^ 53 - 1 : ℤ) : ℚ) * (1 / 2 ^ 53) :=
      mul_le_mul_of_nonneg_right hk2 (by positivity)
    have e2 : ((2 ^ 53 - 1 : ℤ) : ℚ) * (1 / 2 ^ 53) < 1 := by norm_num
    linarith

theorem roundNearest_le_of_lt_1000 {z : ℚ} (h : roundNearest z < 1000) :
    roundNearest z ≤ 1000 - 1 / 2 ^ 43 := by
  rcases lt_or_le z 512 with h1 | h1
  · have := roundNearest_mono h1.le
    have e := roundNearest_intCast 512 (by norm_num)
    norm_num at e
    rw [e] at this
    have : (512 : ℚ) ≤ 1000 - 1 / 2 ^ 43 := by norm_num
    linarith
  · rcases le_or_lt 1024 z with h2 | h2
    · have := roundNearest_mono h2
      have e := roundNearest_intCast 1024 (by norm_num)
      norm_num at e
      rw [e] at this
      linarith
    · have hz0 : 0 < z := by linarith
      have hb : binadeExp z = 9 := by
        apply binadeExp_of_bounds 9 (by norm_num)
        · rw [abs_of_pos hz0]
          norm_num
          exact h1
        · rw [abs_of_pos hz0]
          norm_num
          exact h2
      unfold roundNearest at h ⊢
      rw [hb] at h ⊢
      have e1 : (2 : ℚ) ^ ((9 : ℤ) - 52) = 1 / 2 ^ 43 := by norm_num
      rw [e1] at h ⊢
      generalize roundHalfEven (z / (1 / 2 ^ 43)) = k at h ⊢
      have hk : (k : ℚ) < ((8796093022208000 : ℤ) : ℚ) := by
        have h3 : (k : ℚ) * (1 / 2 ^ 43) * 2 ^ 43 < 1000 * 2 ^ 43 :=
          mul_lt_mul_of_pos_right h (by positivity)
        have e : (k : ℚ) * (1 / 2 ^ 43) * 2 ^ 43 = k := by field_simp
        rw [e] at h3
        norm_num at h3 ⊢
        exact h3
      have hk1 : k < 8796093022208000 := by exact_mod_cast hk
      have hk2 : k ≤ 8796093022207999 := by omega
      have hk3 : (k : ℚ) ≤ ((8796093022207999 : ℤ) : ℚ) := by exact_mod_cast hk2
      have h4 := mul_le_mul_of_nonneg_right hk3 (by positivity : (0 : ℚ) ≤ 1 / 2 ^ 43)
      have e : ((8796093022207999 : ℤ) : ℚ) * (1 / 2 ^ 43) = 1000 - 1 / 2 ^ 43 := by
        norm_num
      rw [e] at h4
      exact h4

/-! ## Order of doubles and monotone arithmetic -/

theorem Num.add_fin_mono (c : ℚ) {a b : Num} (h : a.le b = true) :
    ((Num.fin c).add a).le ((Num.fin c).add b) = true := by
  cases a with
  | nan => simp [Num.le] at h
  | fin x =>
    cases b with
    | nan => simp [Num.le] at h
    | fin y =>
      have hxy : x ≤ y := by simpa [Num.le] using h
      exact roundDouble_mono (by linarith)
    | inf t =>
      cases t with
      | false => exact Num.le_inf_false _ (roundDouble_ne_nan _)
      | true => simp [Num.le] at h
  | inf s =>
    cases b with
    | nan => simp [Num.le] at h
    | fin y =>
      cases s with
      | false => simp [Num.le] at h
      | true => exact Num.inf_true_le _ (roundDouble_ne_nan _)
    | inf t => exact h

theorem Num.sub_fin_anti (c : ℚ) {a b : Num} (h : a.le b = true) :
    ((Num.fin c).sub b).le ((Num.fin c).sub a) = true := by
  cases a with
  | nan => simp [Num.le] at h
  | fin x =>
    cases b with
    | nan => simp [Num.le] at h
    | fin y =>
      have hxy : x ≤ y := by simpa [Num.le] using h
      exact roundDouble_mono (by linarith)
    | inf t =>
      cases t with
      | false => exact Num.inf_true_le _ (roundDouble_ne_nan _)
      | true => simp [Num.le] at h
  | inf s =>
    cases b with
    | nan => simp [Num.le] at h
    | fin y =>
      cases s with
      | false => simp [Num.le] at h
      | true => exact Num.le_inf_false _ (roundDouble_ne_nan _)
    | inf t => cases s <;> cases t <;> first | rfl | simp [Num.le] at h

theorem Num.mul_fin_mono (d : ℚ) (hd : 0 < d) {a b : Num} (h : a.le b = true) :
    ((Num.fin d).mul a).le ((Num.fin d).mul b) = true := by
  have hd0 : d ≠ 0 := hd.ne.symm
  have hd1 : ¬ d < 0 := not_lt.2 hd.le
  have hinf : ∀ s, (Num.fin d).mul (Num.inf s) = Num.inf s := by
    intro s
    simp [Num.mul, hd0, hd1]
  cases a with
  | nan => simp [Num.le] at h
  | fin x =>
    cases b with
    | nan => simp [Num.le] at h
    | fin y =>
      have hxy : x ≤ y := by simpa [Num.le] using h
      exact roundDouble_mono (mul_le_mul_of_nonneg_left hxy hd.le)
    | inf t =>
      rw [hinf]
      cases t with
      | false => exact Num.le_inf_false _ (roundDouble_ne_nan _)
      | true => simp [Num.le] at h
  | inf s =>
    rw [hinf]
    cases b with
    | nan => simp [Num.le] at h
    | fin y =>
      cases s with
      | false => simp [Num.le] at h
      | true => exact Num.inf_true_le _ (roundDouble_ne_nan _)
    | inf t =>
      rw [hinf]
      exact h

theorem Num.div_fin_mono (d : ℚ) (hd : 0 < d) {a b : Num} (h : a.le b = true) :
    (a.div (Num.fin d)).le (b.div (Num.fin d)) = true := by
  have hd0 : d ≠ 0 := hd.ne.symm
  have hd1 : ¬ d < 0 := not_lt.2 hd.le
  have hinf : ∀ s, (Num.inf s).div (Num.fin d) = Num.inf s := by
    intro s
    simp [Num.div, hd1]
  have hfin : ∀ x, (Num.fin x).div (Num.fin d) = roundDouble (x / d) := by
    intro x
    simp [Num.div, hd0]
  cases a with
  | nan => simp [Num.le] at h
  | fin x =>
    rw [hfin]
    cases b with
    | nan => simp [Num.le] at h
    | fin y =>
      rw [hfin]
      have hxy : x ≤ y := by simpa [Num.le] using h
      exact roundDouble_mono (div_le_div_of_nonneg_right hxy hd.le)
    | inf t =>
      rw [hinf]
      cases t with
      | false => exact Num.le_inf_false _ (roundDouble_ne_nan _)
      | true => simp [Num.le] at h
  | inf s =>
    rw [hinf]
    cases b with
    | nan => simp [Num.le] at h
    | fin y =>
      rw [hfin]
      cases s with
      | false => simp [Num.le] at h
      | true => exact Num.inf_true_le _ (roundDouble_ne_nan _)
    | inf t =>
      rw [hinf]
      exact h

theorem Num.floor_mono {a b : Num} (h : a.le b = true) : a.floor.le b.floor = true := by
  cases a with
  | nan => simp [Num.le] at h
  | fin x =>
    cases b with
    | nan => simp [Num.le] at h
    | fin y =>
      have hxy : x ≤ y := by simpa [Num.le] using h
      have := Int.floor_mono hxy
      simp only [Num.floor, Num.le, decide_eq_true_eq]
      exact_mod_cast this
    | inf t => exact h
  | inf s =>
    cases b with
    | nan => simp [Num.le] at h
    | fin y => exact h
    | inf t => exact h

theorem Num.min_fin_fin (x c : ℚ) :
    Num.min (Num.fin x) (Num.fin c) = if c < x then Num.fin c else Num.fin x := by
  simp [Num.min, Num.lt]

theorem Num.min_inf_fin (s : Bool) (c : ℚ) :
    Num.min (Num.inf s) (Num.fin c) = if s then Num.inf true else Num.fin c := by
  cases s <;> simp [Num.min, Num.lt]

theorem Num.min_fin_le (c : ℚ) (a : Num) (h : a ≠ Num.nan) :
    (Num.min a (Num.fin c)).le (Num.fin c) = true := by
  cases a with
  | nan => exact absurd rfl h
  | fin x =>
    rw [Num.min_fin_fin]
    split_ifs with h1
    · simp [Num.le]
    · simpa [Num.le] using h1
  | inf s =>
    rw [Num.min_inf_fin]
    cases s <;> simp [Num.le]

theorem Num.min_fin_mono (c : ℚ) {a b : Num} (h : a.le b = true) :
    (Num.min a (Num.fin c)).le (Num.min b (Num.fin c)) = true := by
  cases a with
  | nan => simp [Num.le] at h
  | fin x =>
    cases b with
    | nan => simp [Num.le] at h
    | fin y =>
      have hxy : x ≤ y := by simpa [Num.le] using h
      rw [Num.min_fin_fin, Num.min_fin_fin]
      split_ifs with h1 h2 h2 <;> simp only [Num.le, decide_eq_true_eq] <;> linarith
    | inf t =>
      cases t with
      | true => simp [Num.le] at h
      | false =>
        rw [Num.min_inf_fin]
        exact Num.min_fin_le c _ (by simp)
  | inf s =>
    cases s with
    | false =>
      cases b with
      | nan => simp [Num.le] at h
      | fin y => simp [Num.le] at h
      | inf t =>
        cases t with
        | false => simp [Num.min_inf_fin, Num.le]
        | true => simp [Num.le] at h
    | true =>
      rw [Num.min_inf_fin]
      apply Num.inf_true_le
      cases b with
      | nan => simp [Num.le] at h
      | fin y =>
        rw [Num.min_fin_fin]
        split_ifs <;> simp
      | inf t =>
        rw [Num.min_inf_fin]
        cases t <;> simp

theorem Num.min_eq_of_le (c : ℚ) {a : Num} (h : (Num.fin c).le a = true) :
    Num.min a (Num.fin c) = Num.fin c := by
  cases a with
  | nan => simp [Num.le] at h
  | fin x =>
    have hx : c ≤ x := by simpa [Num.le] using h
    rw [Num.min_fin_fin]
    split_ifs with h1
    · rfl
    · have : x = c := le_antisymm (not_lt.1 h1) hx
      rw [this]
  | inf s =>
    cases s with
    | false => simp [Num.min_inf_fin]
    | true => simp [Num.le] at h

theorem Engine.pow_nonneg (engine : Engine)
    (hpos : ∀ x : ℚ, 0 < x → (Num.fin 0).le (engine.pow3 x) = true)
    {a : Num} (h : (Num.fin 0).le a = true) : (Num.fin 0).le (engine.pow a) = true := by
  cases a with
  | nan => simp [Num.le] at h
  | fin x =>
    have hx : 0 ≤ x := by simpa [Num.le] using h
    unfold Engine.pow
    simp only
    split_ifs with h0
    · simp [Num.le]
    · exact hpos x (lt_of_le_of_ne hx (fun e => h0 e.symm))
  | inf s => exact h

theorem Engine.pow_mono (engine : Engine)
    (hpos : ∀ x : ℚ, 0 < x → (Num.fin 0).le (engine.pow3 x) = true)
    (hmono : ∀ x y : ℚ, 0 < x → x ≤ y → (engine.pow3 x).le (engine.pow3 y) = true)
    {a b : Num} (ha : (Num.fin 0).le a = true) (h : a.le b = true) :
    (engine.pow a).le (engine.pow b) = true := by
  cases a with
  | nan => simp [Num.le] at h
  | fin x =>
    have hx : 0 ≤ x := by simpa [Num.le] using ha
    cases b with
    | nan => simp [Num.le] at h
    | fin y =>
      have hxy : x ≤ y := by simpa [Num.le] using h
      unfold Engine.pow
      simp only
      by_cases h0 : x = 0
      · rw [if_pos h0]
        subst h0
        split_ifs with h1
        · simp [Num.le]
        · exact hpos y (lt_of_le_of_ne hxy (fun e => h1 e.symm))
      · have hxpos : 0 < x := lt_of_le_of_ne hx (fun e => h0 e.symm)
        have hy0 : y ≠ 0 := (lt_of_lt_of_le hxpos hxy).ne.symm
        rw [if_neg h0, if_neg hy0]
        exact hmono x y hxpos hxy
    | inf t =>
      cases t with
      | true => simp [Num.le] at h
      | false =>
        apply Num.le_inf_false
        have := Engine.pow_nonneg engine hpos ha
        intro e
        rw [e] at this
        simp [Num.le] at this
  | inf s =>
    cases s with
    | true => simp [Num.le] at ha
    | false =>
      cases b with
      | nan => simp [Num.le] at h
      | fin y => simp [Num.le] at h
      | inf t => exact h

/-! ## Loops and conversions -/

theorem forEachAppend_forall₂ {ρ : Type} (body : JSVal → Except JSError ρ)
    (R : JSVal → ρ → Prop) (hR : ∀ x r, body x = .ok r → R x r) (xs : List JSVal) :
    List.Forall₂ R (xs.take (forEachAppend body xs).1.length) (forEachAppend body xs).1 := by
  induction xs with
  | nil => simp [forEachAppend]
  | cons x rest ih =>
    unfold forEachAppend
    cases hx : body x with
    | error e => simp
    | ok r => simpa using ⟨hR x r hx, ih⟩

theorem forEachAppend_ok {ρ : Type} (body : JSVal → Except JSError ρ) (f : JSVal → ρ)
    (xs : List JSVal) (h : ∀ x ∈ xs, body x = .ok (f x)) :
    forEachAppend body xs = (xs.map f, none) := by
  induction xs with
  | nil => simp [forEachAppend]
  | cons x rest ih =>
    have hx := h x (List.mem_cons_self x rest)
    have hrest := ih (fun y hy => h y (List.mem_cons_of_mem x hy))
    unfold forEachAppend
    rw [hx]
    simp [hrest]

theorem inventoryRow_badge (item : JSVal) (row : InventoryRow) (h : inventoryRow item = .ok row) :
    ∃ status, item.get "status" = .ok status ∧
      row.statusClass = (inventoryStatusBadge status).1 ∧
      row.statusText = (inventoryStatusBadge status).2 := by
  unfold inventoryRow at h
  simp only [bind, Except.bind, pure, Except.pure] at h
  split at h
  · exact absurd h (by simp)
  · rename_i status hs
    refine ⟨status, hs, ?_⟩
    repeat (split at h; · exact absurd h (by simp))
    injection h with h
    subst h
    exact ⟨rfl, rfl⟩

theorem isStr_eq_true_iff (v : JSVal) (lit : String) : v.isStr lit = true ↔ v = str lit := by
  cases v <;> simp [JSVal.isStr]

theorem lookup_isPrimitive (key : String) (fields : List (String × JSVal))
    (h : fields.all (fun kv => kv.2.isPrimitive) = true) :
    (lookup key fields).isPrimitive = true := by
  induction fields with
  | nil => rfl
  | cons kv rest ih =>
    obtain ⟨k, x⟩ := kv
    simp only [List.all_cons, Bool.and_eq_true] at h
    unfold lookup
    split
    · exact h.1
    · exact ih h.2

theorem isFlatRecord_iff (x : JSVal) (h : x.isFlatRecord = true) :
    ∃ fields, x = obj fields ∧ ∀ key, (lookup key fields).isPrimitive = true := by
  cases x with
  | obj fields => exact ⟨fields, rfl, fun key => lookup_isPrimitive key fields h⟩
  | _ => simp [JSVal.isFlatRecord] at h

theorem toPrimitive_of_isPrimitive (p : JSVal) (h : p.isPrimitive = true) :
    p.toPrimitive = .ok p := by
  cases p <;> simp [JSVal.isPrimitive] at h <;> rfl

theorem toStr_of_isPrimitive (p : JSVal) (h : p.isPrimitive = true) :
    ∃ s, p.toStr = .ok s := by
  cases p <;> simp [JSVal.isPrimitive] at h <;> simp [JSVal.toStr]

theorem or_isPrimitive (a b : JSVal) (ha : a.isPrimitive = true) (hb : b.isPrimitive = true) :
    (a.or b).isPrimitive = true := by
  unfold JSVal.or
  split <;> assumption

theorem toStr_or_ok (a b : JSVal) (ha : a.isPrimitive = true) (hb : b.isPrimitive = true) :
    ∃ s, (a.or b).toStr = .ok s :=
  toStr_of_isPrimitive _ (or_isPrimitive a b ha hb)

theorem toLocaleStr_or_ok (a : JSVal) (n : Int) (ha : a.isPrimitive = true) :
    ∃ s, (a.or (num n)).toLocaleStr = .ok s := by
  unfold JSVal.or
  cases a <;> simp [JSVal.isPrimitive] at ha <;> simp [JSVal.truthy, JSVal.toLocaleStr] <;>
    split <;> simp [JSVal.toLocaleStr]

theorem inventoryRow_ok_of_flat (x : JSVal) (h : x.isFlatRecord = true) :
    ∃ r, inventoryRow x = .ok r := by
  obtain ⟨fields, rfl, hp⟩ := isFlatRecord_iff x h
  obtain ⟨s1, h1⟩ := toStr_or_ok (lookup "toyName" fields) (str "Unknown Toy") (hp _) rfl
  obtain ⟨s2, h2⟩ := toStr_or_ok (lookup "toyId" fields) (str "N/A") (hp _) rfl
  obtain ⟨s3, h3⟩ := toStr_or_ok (lookup "region" fields) (str "Unknown Region") (hp _) rfl
  obtain ⟨s4, h4⟩ := toStr_or_ok (lookup "city" fields) (str "Unknown City") (hp _) rfl
  obtain ⟨s5, h5⟩ := toLocaleStr_or_ok (lookup "currentStock" fields) 0 (hp _)
  obtain ⟨s6, h6⟩ := toLocaleStr_or_ok (lookup "minimumStock" fields) 0 (hp _)
  obtain ⟨s7, h7⟩ := toStr_or_ok (lookup "restockETA" fields) (str "--:--") (hp _) rfl
  obtain ⟨s8, h8⟩ := toStr_of_isPrimitive (lookup "toyId" fields) (hp _)
  simp [inventoryRow, JSVal.get, bind, Except.bind, pure, Except.pure, h1, h2, h3, h4, h5, h6,
    h7, h8]

theorem forEachAppend_none_of_ok {ρ : Type} (body : JSVal → Except JSError ρ)
    (xs : List JSVal) (h : ∀ x ∈ xs, ∃ r, body x = .ok r) :
    (forEachAppend body xs).2 = none ∧ (forEachAppend body xs).1.length = xs.length := by
  induction xs with
  | nil => simp [forEachAppend]
  | cons x rest ih =>
    obtain ⟨r, hr⟩ := h x (List.mem_cons_self x rest)
    have := ih (fun y hy => h y (List.mem_cons_of_mem x hy))
    unfold forEachAppend
    rw [hr]
    simpa using this

/-! ## Inventory status label -/

/-- C1: every row that `updateInventoryTable` renders belongs to the
inventory record at the same position, and its status label and CSS class
are `Low Stock` / `status-lowstock` when the status of the record is exactly
`LOW_STOCK`, `Out of Stock` / `status-outstock` when it is exactly
`OUT_OF_STOCK`, and `In Stock` / `status-instock` for every other status
value (a missing status is `undefined`); when every element of the array is
an object whose field values are primitive, every record gets a row and
nothing is thrown. -/
theorem updateInventoryTable_status_label (inventory : List JSVal) (v : View) :
    List.Forall₂
        (fun item row => ∃ status, item.get "status" = .ok status ∧
          (status = str "LOW_STOCK" →
            row.statusText = "Low Stock" ∧ row.statusClass = "status-lowstock") ∧
          (status = str "OUT_OF_STOCK" →
            row.statusText = "Out of Stock" ∧ row.statusClass = "status-outstock") ∧
          (status ≠ str "LOW_STOCK" → status ≠ str "OUT_OF_STOCK" →
            row.statusText = "In Stock" ∧ row.statusClass = "status-instock"))
        (inventory.take (updateInventoryTable inventory v).1.inventoryTable.length)
        (updateInventoryTable inventory v).1.inventoryTable ∧
      ((∀ item ∈ inventory, item.isFlatRecord = true) →
        (updateInventoryTable inventory v).1.inventoryTable.length = inventory.length ∧
        (updateInventoryTable inventory v).2 = none) := by
  constructor
  · apply forEachAppend_forall₂
    intro item row h
    obtain ⟨status, hs, hc, ht⟩ := inventoryRow_badge item row h
    refine ⟨status, hs, ?_, ?_, ?_⟩
    · intro e
      subst e
      rw [hc, ht]
      exact ⟨rfl, rfl⟩
    · intro e
      subst e
      rw [hc, ht]
      exact ⟨rfl, rfl⟩
    · intro h1 h2
      have e1 : status.isStr "LOW_STOCK" = false := by
        rw [Bool.eq_false_iff]
        intro c
        exact h1 ((isStr_eq_true_iff _ _).1 c)
      have e2 : status.isStr "OUT_OF_STOCK" = false := by
        rw [Bool.eq_false_iff]
        intro c
        exact h2 ((isStr_eq_true_iff _ _).1 c)
      rw [hc, ht]
      simp [inventoryStatusBadge, e1, e2]
  · intro h
    have := forEachAppend_none_of_ok inventoryRow inventory
      (fun x hx => inventoryRow_ok_of_flat x (h x hx))
    simp [updateInventoryTable, this]

/-- A table of five records of all status kinds gets five rows. -/
theorem updateInventoryTable_status_label_witness :
    (updateInventoryTable
        [obj [("status", str "LOW_STOCK")], obj [("status", str "OUT_OF_STOCK")],
         obj [("status", str "IN_STOCK")], obj [], obj [("status", str "low_stock")]]
        emptyPage).1.inventoryTable.length = 5 ∧
    (updateInventoryTable
        [obj [("status", str "LOW_STOCK")], obj [("status", str "OUT_OF_STOCK")],
         obj [("status", str "IN_STOCK")], obj [], obj [("status", str "low_stock")]]
        emptyPage).2 = none :=
  (updateInventoryTable_status_label
    [obj [("status", str "LOW_STOCK")], obj [("status", str "OUT_OF_STOCK")],
     obj [("status", str "IN_STOCK")], obj [], obj [("status", str "low_stock")]]
    emptyPage).2 (by simp [JSVal.isFlatRecord, JSVal.isPrimitive])

/-! ## Relative age -/

theorem getTimeAgo_of_falsy (env : Env) (ts : JSVal) (h : ts.truthy = false) :
    getTimeAgo env ts = .ok "Recently" := by
  simp [getTimeAgo, h, pure, Except.pure]

theorem getTimeAgo_of_valid (env : Env) (ts : JSVal) (t : Int) (h : ts.truthy = true)
    (hd : newDate env ts = .ok (some t)) :
    getTimeAgo env ts = .ok (getTimeAgo.ofDiff (env.now - t)) := by
  simp [getTimeAgo, h, hd, bind, Except.bind, pure, Except.pure]

theorem getTimeAgo_of_invalid (env : Env) (ts : JSVal) (h : ts.truthy = true)
    (hd : newDate env ts = .ok none) :
    getTimeAgo env ts = .ok "Just now" := by
  simp [getTimeAgo, h, hd, bind, Except.bind, pure, Except.pure]

/-- C2, as stated, fails: the timestamp `0` (the epoch, as a number) is
neither `null` nor `undefined`, and 90 minutes after it the claim gives
`1h ago`, while `getTimeAgo` answers `Recently`; the empty string is answered
`Recently` as well. -/
theorem getTimeAgo_zero_timestamp_recently :
    getTimeAgo ⟨5400000, fun _ => none, fun _ => ""⟩ (num 0) = .ok "Recently" ∧
    getTimeAgo.ofDiff (5400000 - 0) = "1h ago" ∧
    newDate ⟨5400000, fun _ => none, fun _ => ""⟩ (num 0) = .ok (some 0) ∧
    getTimeAgo ⟨5400000, fun _ => none, fun _ => ""⟩ (str "") = .ok "Recently" :=
  ⟨rfl, by decide, rfl, rfl⟩

/-- C2, amended: `getTimeAgo` returns `Recently` for every falsy timestamp
(`null`, `undefined`, `0`, `NaN`, `false`, the empty string).  For a truthy
timestamp that `new Date` reads as the time `t`, with `diff = now - t`, it
returns `<d>d ago` with `d = floor(diff/86400000)` when `d > 0`, else
`<h>h ago` with `h = floor(diff/3600000)` when `h > 0` (then `1 ≤ h ≤ 23`),
else `<m>m ago` with `m = floor(diff/60000)` when `m > 0` (then
`1 ≤ m ≤ 59`), else `Just now`; so 90 minutes in the past gives `1h ago` and
30 seconds in the past gives `Just now`.  A truthy timestamp that is not a
valid date gives `Just now`. -/
theorem getTimeAgo_units (env : Env) (ts : JSVal) :
    (ts.truthy = false → getTimeAgo env ts = .ok "Recently") ∧
    getTimeAgo env null = .ok "Recently" ∧
    getTimeAgo env undefined = .ok "Recently" ∧
    (∀ t : Int, ts.truthy = true → newDate env ts = .ok (some t) →
      (0 < (env.now - t) / 86400000 →
        getTimeAgo env ts = .ok (numToString ((env.now - t) / 86400000) ++ "d ago")) ∧
      ((env.now - t) / 86400000 ≤ 0 → 0 < (env.now - t) / 3600000 →
        getTimeAgo env ts = .ok (numToString ((env.now - t) / 3600000) ++ "h ago") ∧
        1 ≤ (env.now - t) / 3600000 ∧ (env.now - t) / 3600000 ≤ 23) ∧
      ((env.now - t) / 86400000 ≤ 0 → (env.now - t) / 3600000 ≤ 0 →
        0 < (env.now - t) / 60000 →
        getTimeAgo env ts = .ok (numToString ((env.now - t) / 60000) ++ "m ago") ∧
        1 ≤ (env.now - t) / 60000 ∧ (env.now - t) / 60000 ≤ 59) ∧
      ((env.now - t) / 86400000 ≤ 0 → (env.now - t) / 3600000 ≤ 0 →
        (env.now - t) / 60000 ≤ 0 → getTimeAgo env ts = .ok "Just now") ∧
      (env.now - t = 90 * 60000 → getTimeAgo env ts = .ok "1h ago") ∧
      (env.now - t = 30 * 1000 → getTimeAgo env ts = .ok "Just now")) ∧
    (ts.truthy = true → newDate env ts = .ok none → getTimeAgo env ts = .ok "Just now") := by
  refine ⟨getTimeAgo_of_falsy env ts, rfl, rfl, ?_, getTimeAgo_of_invalid env ts⟩
  intro t htruthy hdate
  rw [getTimeAgo_of_valid env ts t htruthy hdate]
  refine ⟨?_, ?_, ?_, ?_, ?_, ?_⟩
  · intro hd
    simp [getTimeAgo.ofDiff, msPerDay, hd]
  · intro hd hh
    refine ⟨?_, by omega, by omega⟩
    have hd' : ¬ (0 < (env.now - t) / 86400000) := by omega
    simp [getTimeAgo.ofDiff, msPerDay, msPerHour, hd', hh]
  · intro hd hh hm
    refine ⟨?_, by omega, by omega⟩
    have hd' : ¬ (0 < (env.now - t) / 86400000) := by omega
    have hh' : ¬ (0 < (env.now - t) / 3600000) := by omega
    simp [getTimeAgo.ofDiff, msPerDay, msPerHour, msPerMinute, hd', hh', hm]
  · intro hd hh hm
    have hd' : ¬ (0 < (env.now - t) / 86400000) := by omega
    have hh' : ¬ (0 < (env.now - t) / 3600000) := by omega
    have hm' : ¬ (0 < (env.now - t) / 60000) := by omega
    simp [getTimeAgo.ofDiff, msPerDay, msPerHour, msPerMinute, hd', hh', hm']
  · intro h
    rw [h]
    exact congrArg Except.ok (by decide)
  · intro h
    rw [h]
    exact congrArg Except.ok (by decide)

/-- An alert created 90 minutes before the clock reading is `1h ago`. -/
theorem getTimeAgo_units_witness :
    getTimeAgo ⟨1704072600000, fun _ => some 1704067200000, fun _ => ""⟩
      (str "2024-01-01T00:00:00.000Z") = .ok "1h ago" :=
  ((getTimeAgo_units ⟨1704072600000, fun _ => some 1704067200000, fun _ => ""⟩
      (str "2024-01-01T00:00:00.000Z")).2.2.2.1 1704067200000 rfl rfl).2.2.2.2.1 (by decide)

/-! ## Countdown target -/

theorem daysBeforeMonth_add_date_lt (leap : Bool) (m d : Nat) (hm : m < 12)
    (hd : d ≤ daysInMonth leap m) (hlt : m < 11 ∨ d < 25) :
    daysBeforeMonth leap m + ((d : Int) - 1) < daysBeforeMonth leap 11 + 24 := by
  have h12 : m = 0 ∨ m = 1 ∨ m = 2 ∨ m = 3 ∨ m = 4 ∨ m = 5 ∨ m = 6 ∨ m = 7 ∨ m = 8 ∨
      m = 9 ∨ m = 10 ∨ m = 11 := by omega
  rcases h12 with h | h | h | h | h | h | h | h | h | h | h | h <;> subst h <;>
    cases leap <;> simp [daysBeforeMonth, daysInMonth] at hd ⊢ <;> omega

theorem christmas_time_lt_iff (now : LocalDate) (hv : now.valid) :
    (CHRISTMAS_DATE now.year).time < now.time ↔
      now.month = 11 ∧ (25 < now.date ∨ (now.date = 25 ∧ 0 < now.msOfDay)) := by
  obtain ⟨hm, hd1, hd, hms⟩ := hv
  simp only [LocalDate.time, CHRISTMAS_DATE, msPerDay]
  constructor
  · intro h
    by_contra hc
    have hlt : now.month < 11 ∨ now.date < 25 ∨ (now.date = 25 ∧ now.msOfDay = 0) := by omega
    rcases hlt with hlt | hlt | ⟨hlt, hz⟩
    · have := daysBeforeMonth_add_date_lt (inLeapYear now.year) now.month now.date hm hd
        (Or.inl hlt)
      push_cast at h this
      omega
    · have := daysBeforeMonth_add_date_lt (inLeapYear now.year) now.month now.date hm hd
        (Or.inr hlt)
      push_cast at h this
      omega
    · by_cases hmonth : now.month = 11
      · rw [hmonth, hlt, hz] at h
        simp at h
      · have := daysBeforeMonth_add_date_lt (inLeapYear now.year) now.month now.date hm hd
          (Or.inl (by omega))
        push_cast at h this
        omega
  · rintro ⟨hmonth, hlate⟩
    rw [hmonth]
    push_cast
    omega

/-- C3, as stated, fails on 25 December itself: at noon of 25 December 2025
the calendar date is on Dec 25, yet the countdown already targets
25 December 2026. -/
theorem christmas_noon_targets_next_year :
    updateChristmasCountdown.christmas (CHRISTMAS_DATE 2025)
        (LocalDate.mk 2025 11 25 43200000).time = CHRISTMAS_DATE 2026 ∧
    updateChristmasCountdown (CHRISTMAS_DATE 2025) (LocalDate.mk 2025 11 25 43200000).time =
      "364:12:00:00" := by
  decide

/-- C3, amended: with `CHRISTMAS_DATE` computed in the calendar year of `now`,
`updateChristmasCountdown` counts down to the instant 25 December 00:00:00.000
of that year when `now` is not later than that instant, and to 25 December
00:00:00.000 of the following year exactly when `now` is later than it.  So
every `now` whose calendar date is before Dec 25 has this year as target,
every `now` whose calendar date is after Dec 25 (Dec 26 00:00:00 for
instance) has next year as target, and on Dec 25 only the first instant of
the day still has this year as target. -/
theorem christmas_target (now : LocalDate) (hv : now.valid) :
    (updateChristmasCountdown.christmas (CHRISTMAS_DATE now.year) now.time =
        CHRISTMAS_DATE (now.year + 1) ↔
      (CHRISTMAS_DATE now.year).time < now.time) ∧
    (updateChristmasCountdown.christmas (CHRISTMAS_DATE now.year) now.time =
        CHRISTMAS_DATE now.year ↔
      now.time ≤ (CHRISTMAS_DATE now.year).time) ∧
    ((now.month < 11 ∨ now.date < 25) →
      updateChristmasCountdown.christmas (CHRISTMAS_DATE now.year) now.time =
        CHRISTMAS_DATE now.year) ∧
    ((now.month = 11 ∧ 25 < now.date) →
      updateChristmasCountdown.christmas (CHRISTMAS_DATE now.year) now.time =
        CHRISTMAS_DATE (now.year + 1)) ∧
    ((now.month = 11 ∧ now.date = 25) →
      (updateChristmasCountdown.christmas (CHRISTMAS_DATE now.year) now.time =
          CHRISTMAS_DATE now.year ↔ now.msOfDay = 0) ∧
      (updateChristmasCountdown.christmas (CHRISTMAS_DATE now.year) now.time =
          CHRISTMAS_DATE (now.year + 1) ↔ 0 < now.msOfDay)) := by
  have hiff := christmas_time_lt_iff now hv
  have hne : CHRISTMAS_DATE (now.year + 1) ≠ CHRISTMAS_DATE now.year := by
    intro h
    have := congrArg LocalDate.year h
    simp [CHRISTMAS_DATE] at this
  have hnext : (CHRISTMAS_DATE now.year).time < now.time →
      updateChristmasCountdown.christmas (CHRISTMAS_DATE now.year) now.time =
        CHRISTMAS_DATE (now.year + 1) := by
    intro h
    unfold updateChristmasCountdown.christmas
    rw [if_pos h]
    rfl
  have hthis : now.time ≤ (CHRISTMAS_DATE now.year).time →
      updateChristmasCountdown.christmas (CHRISTMAS_DATE now.year) now.time =
        CHRISTMAS_DATE now.year := by
    intro h
    have h' : ¬ (now.time > (CHRISTMAS_DATE now.year).time) := by omega
    unfold updateChristmasCountdown.christmas
    rw [if_neg h']
  have h1 : updateChristmasCountdown.christmas (CHRISTMAS_DATE now.year) now.time =
        CHRISTMAS_DATE (now.year + 1) ↔ (CHRISTMAS_DATE now.year).time < now.time := by
    constructor
    · intro h
      by_contra hc
      rw [hthis (by omega)] at h
      exact hne h.symm
    · exact hnext
  have h2 : updateChristmasCountdown.christmas (CHRISTMAS_DATE now.year) now.time =
        CHRISTMAS_DATE now.year ↔ now.time ≤ (CHRISTMAS_DATE now.year).time := by
    constructor
    · intro h
      by_contra hc
      rw [hnext (by omega)] at h
      exact hne h
    · exact hthis
  refine ⟨h1, h2, ?_, ?_, ?_⟩
  · intro hbefore
    apply hthis
    by_contra hc
    have := hiff.1 (by omega)
    omega
  · rintro ⟨hm, hd⟩
    exact hnext (hiff.2 ⟨hm, Or.inl hd⟩)
  · rintro ⟨hm, hd⟩
    constructor
    · rw [h2]
      constructor
      · intro h
        by_contra hc
        have := hiff.2 ⟨hm, Or.inr ⟨hd, by omega⟩⟩
        omega
      · intro hz
        by_contra hc
        have := hiff.1 (by omega)
        omega
    · rw [h1, hiff]
      constructor
      · rintro ⟨_, h | h⟩ <;> omega
      · intro h
        exact ⟨hm, Or.inr ⟨hd, h⟩⟩

/-- On 26 December 2025 at 00:00:00 the target is 25 December 2026. -/
theorem christmas_target_witness :
    updateChristmasCountdown.christmas (CHRISTMAS_DATE 2025) (LocalDate.mk 2025 11 26 0).time =
      CHRISTMAS_DATE 2026 :=
  (christmas_target (LocalDate.mk 2025 11 26 0) (by decide)).2.2.2.1 (by decide)

/-! ## Countdown fields -/

theorem toDigitsCore_length_ge (f n : Nat) (ds : List Char) :
    ds.length ≤ (Nat.toDigitsCore 10 f n ds).length := by
  induction f generalizing n ds with
  | zero => simp [Nat.toDigitsCore]
  | succ f ih =>
    unfold Nat.toDigitsCore
    simp only
    split
    · simp
    · exact Nat.le_trans (by simp) (ih _ _)

theorem repr_length_ge_two (n : Nat) (h : 10 ≤ n) : 2 ≤ (Nat.repr n).length := by
  obtain ⟨f, hf⟩ : ∃ f, n + 1 = f + 2 := ⟨n - 1, by omega⟩
  have h0 : n / 10 ≠ 0 := by omega
  simp only [Nat.repr, Nat.toDigits, hf, List.asString, String.length]
  unfold Nat.toDigitsCore
  simp only [h0, if_false]
  unfold Nat.toDigitsCore
  simp only
  split
  · simp
  · exact Nat.le_trans (by simp) (toDigitsCore_length_ge _ _ _)

theorem field_of_ge_ten (n : Int) (h : 10 ≤ n) :
    updateChristmasCountdown.field n = numToString n := by
  have hneg : ¬ n < 0 := by omega
  have hlen := repr_length_ge_two n.natAbs (by omega)
  simp [updateChristmasCountdown.field, padStart, numToString, hneg, hlen]

theorem field_of_lt_ten (n : Int) (h0 : 0 ≤ n) (h : n < 10) :
    updateChristmasCountdown.field n = "0" ++ numToString n := by
  obtain ⟨k, rfl⟩ := Int.eq_ofNat_of_zero_le h0
  have hk : k < 10 := by omega
  interval_cases k <;> decide

theorem field_length (n : Int) (h0 : 0 ≤ n) : 2 ≤ (updateChristmasCountdown.field n).length := by
  by_cases h : n < 10
  · obtain ⟨k, rfl⟩ := Int.eq_ofNat_of_zero_le h0
    have hk : k < 10 := by omega
    interval_cases k <;> decide
  · have h10 : 10 ≤ n := by omega
    have hneg : ¬ n < 0 := by omega
    rw [field_of_ge_ten n h10]
    simpa [numToString, hneg] using repr_length_ge_two n.natAbs (by omega)

/-- C4: for every non-negative difference `diff` in milliseconds the fields
computed by `updateChristmasCountdown` satisfy `0 ≤ days`, `0 ≤ hours ≤ 23`,
`0 ≤ minutes ≤ 59`, `0 ≤ seconds ≤ 59` and
`days*86400 + hours*3600 + minutes*60 + seconds = floor(diff/1000)`; the
text is the four fields in that order joined by `:`, and each field is the
decimal number padded on the left with `0` to at least two characters: a
number below 10 gets one leading zero, a number of 10 or more (and so a days
value of 100 or more) is printed in full, and no field is shorter than two
characters. -/
theorem countdown_fields (diff : Int) (h : 0 ≤ diff) :
    0 ≤ updateChristmasCountdown.days diff ∧
    (0 ≤ updateChristmasCountdown.hours diff ∧ updateChristmasCountdown.hours diff ≤ 23) ∧
    (0 ≤ updateChristmasCountdown.minutes diff ∧ updateChristmasCountdown.minutes diff ≤ 59) ∧
    (0 ≤ updateChristmasCountdown.seconds diff ∧ updateChristmasCountdown.seconds diff ≤ 59) ∧
    updateChristmasCountdown.days diff * 86400 + updateChristmasCountdown.hours diff * 3600 +
        updateChristmasCountdown.minutes diff * 60 + updateChristmasCountdown.seconds diff =
      diff / 1000 ∧
    updateChristmasCountdown.text diff =
      updateChristmasCountdown.field (updateChristmasCountdown.days diff) ++ ":" ++
      updateChristmasCountdown.field (updateChristmasCountdown.hours diff) ++ ":" ++
      updateChristmasCountdown.field (updateChristmasCountdown.minutes diff) ++ ":" ++
      updateChristmasCountdown.field (updateChristmasCountdown.seconds diff) ∧
    (∀ n : Int,
      n = updateChristmasCountdown.days diff ∨ n = updateChristmasCountdown.hours diff ∨
        n = updateChristmasCountdown.minutes diff ∨ n = updateChristmasCountdown.seconds diff →
      2 ≤ (updateChristmasCountdown.field n).length ∧
      (n < 10 → updateChristmasCountdown.field n = "0" ++ numToString n) ∧
      (10 ≤ n → updateChristmasCountdown.field n = numToString n)) := by
  have hd : updateChristmasCountdown.days diff = diff / 86400000 := by
    simp [updateChristmasCountdown.days, msPerDay]
  have hh : updateChristmasCountdown.hours diff = diff % 86400000 / 3600000 := by
    simp only [updateChristmasCountdown.hours, msPerDay, msPerHour]
    rw [Int.tmod_eq_emod h (by norm_num)]
    norm_num
  have hm : updateChristmasCountdown.minutes diff = diff % 3600000 / 60000 := by
    simp only [updateChristmasCountdown.minutes, msPerHour, msPerMinute]
    rw [Int.tmod_eq_emod h (by norm_num)]
    norm_num
  have hs : updateChristmasCountdown.seconds diff = diff % 60000 / 1000 := by
    simp only [updateChristmasCountdown.seconds, msPerMinute]
    rw [Int.tmod_eq_emod h (by norm_num)]
    norm_num
  have b1 : 0 ≤ updateChristmasCountdown.days diff := by omega
  have b2 : 0 ≤ updateChristmasCountdown.hours diff := by omega
  have b3 : 0 ≤ updateChristmasCountdown.minutes diff := by omega
  have b4 : 0 ≤ updateChristmasCountdown.seconds diff := by omega
  refine ⟨b1, ⟨b2, by omega⟩, ⟨b3, by omega⟩, ⟨b4, by omega⟩, by omega, rfl, ?_⟩
  intro n hn
  have hn0 : 0 ≤ n := by
    rcases hn with hn | hn | hn | hn <;> omega
  exact ⟨field_length n hn0, field_of_lt_ten n hn0, field_of_ge_ten n⟩

/-- A difference of 100 days, 1 hour, 2 minutes and 3.5 seconds is shown
as `100:01:02:03`. -/
theorem countdown_fields_witness :
    updateChristmasCountdown.text 8643723500 = "100:01:02:03" :=
  (countdown_fields 8643723500 (by decide)).2.2.2.2.2.1.trans (by decide)

/-! ## Refresh cycle: frame lemmas -/

theorem Step.andThen_of_none (s : Step) (f : View → Step) (h : s.2 = none) :
    s.andThen f = f s.1 := by
  simp [Step.andThen, h]

theorem Step.andThen_of_some (s : Step) (f : View → Step) (e : JSError) (h : s.2 = some e) :
    s.andThen f = (s.1, some e) := by
  simp [Step.andThen, h]

theorem Step.none_of_andThen_none (s : Step) (f : View → Step) (h : (s.andThen f).2 = none) :
    s.2 = none := by
  cases hs : s.2 with
  | none => rfl
  | some e => rw [Step.andThen_of_some s f e hs] at h; simp [hs] at h

theorem updateInventoryTable_fields (inventory : List JSVal) (v : View) :
    (updateInventoryTable inventory v).1.inventoryTable = (forEachAppend inventoryRow inventory).1 ∧
    (updateInventoryTable inventory v).1.productionGrid = v.productionGrid ∧
    (updateInventoryTable inventory v).1.alertsList = v.alertsList ∧
    (updateInventoryTable inventory v).1.animations = v.animations :=
  ⟨rfl, rfl, rfl, rfl⟩

theorem updateProductionLines_fields (lines : List JSVal) (v : View) :
    (updateProductionLines lines v).1.inventoryTable = v.inventoryTable ∧
    (updateProductionLines lines v).1.productionGrid = (forEachAppend productionCard lines).1 ∧
    (updateProductionLines lines v).1.alertsList = v.alertsList := by
  unfold updateProductionLines
  simp only
  split <;> simp [View.animate]

theorem updateAlertsList_fields (env : Env) (alerts : List JSVal) (v : View) :
    (updateAlertsList env alerts v).1.inventoryTable = v.inventoryTable ∧
    (updateAlertsList env alerts v).1.productionGrid = v.productionGrid ∧
    (updateAlertsList env alerts v).1.alertsList = (forEachAppend (alertCard env) alerts).1 := by
  unfold updateAlertsList
  simp only
  split <;> simp [View.animate]

theorem updateChartFromStats_fields (stats : JSVal) (v : View) :
    (updateChartFromStats stats v).inventoryTable = v.inventoryTable ∧
    (updateChartFromStats stats v).productionGrid = v.productionGrid ∧
    (updateChartFromStats stats v).alertsList = v.alertsList ∧
    (updateChartFromStats stats v).animations = v.animations := by
  unfold updateChartFromStats
  cases v.stockChart with
  | none => simp
  | some chart =>
    by_cases h : (stats.prop "inventoryStatus").truthy = true <;> simp [h]

theorem updateDashboardStats_fields (stats : JSVal) (v : View) :
    (updateDashboardStats stats v).1.inventoryTable = v.inventoryTable ∧
    (updateDashboardStats stats v).1.productionGrid = v.productionGrid ∧
    (updateDashboardStats stats v).1.alertsList = v.alertsList := by
  unfold updateDashboardStats
  cases hp : (stats.prop "totalToys").toPrimitive <;>
  by_cases h0 : stats.truthy = true <;>
  by_cases h1 : (stats.prop "totalToys").isDefined = true <;>
  by_cases h2 : (stats.prop "productionStats").truthy = true <;>
  by_cases h3 : (stats.prop "alertStats").truthy = true <;>
  by_cases h4 : (stats.prop "regionStats").truthy = true <;>
  by_cases h5 : (stats.prop "totalToys").truthy = true <;>
  by_cases h6 : (stats.prop "inventoryStatus").truthy = true <;>
  simp [h0, h1, h2, h3, h4, h5, h6, View.animate, updateChartFromStats_fields]

theorem calculateStatsFromInventory_fields (inventory : JSVal) (v : View) :
    (calculateStatsFromInventory inventory v).1.inventoryTable = v.inventoryTable ∧
    (calculateStatsFromInventory inventory v).1.productionGrid = v.productionGrid ∧
    (calculateStatsFromInventory inventory v).1.alertsList = v.alertsList := by
  unfold calculateStatsFromInventory
  split
  · simp
  · split
    · split
      · simp
      · simp [updateDashboardStats_fields]
    · simp

theorem showAlert_fields (type message : String) (v : View) :
    (showAlert type message v).inventoryTable = v.inventoryTable ∧
    (showAlert type message v).productionGrid = v.productionGrid ∧
    (showAlert type message v).alertsList = v.alertsList ∧
    (showAlert type message v).animations = v.animations ∧
    (showAlert type message v).apiStatusText = v.apiStatusText :=
  ⟨rfl, rfl, rfl, rfl, rfl⟩

theorem showLoading_fields (shown : Bool) (v : View) :
    (showLoading shown v).inventoryTable = v.inventoryTable ∧
    (showLoading shown v).productionGrid = v.productionGrid ∧
    (showLoading shown v).alertsList = v.alertsList ∧
    (showLoading shown v).animations = v.animations ∧
    (showLoading shown v).apiStatusText = v.apiStatusText :=
  ⟨rfl, rfl, rfl, rfl, rfl⟩

theorem render_eq (env : Env) (inventory productionLines alerts stats : JSVal) (v : View) :
    loadDashboardData.render env inventory productionLines alerts stats v =
      ((((updateInventoryTable (sectionSource inventory fallbackInventory) v).andThen
        (updateProductionLines (sectionSource productionLines fallbackProduction))).andThen
        (updateAlertsList env (sectionSource alerts (fallbackAlerts env)))).andThen
        (fun v3 =>
          if stats.truthy then updateDashboardStats stats v3
          else calculateStatsFromInventory (inventory.or (arr [])) v3)).andThen
        (fun v4 =>
          (showAlert "success" "Dashboard updated with real factory data"
            { v4 with apiStatusText := "Connected", apiStatusClass := "status-good" }, none)) := by
  unfold loadDashboardData.render sectionSource useFallbackInventory useFallbackProduction
    useFallbackAlerts
  cases inventory.asArray <;> cases productionLines.asArray <;> cases alerts.asArray <;> rfl

theorem statsStep_fields (stats inventory : JSVal) (v : View) :
    (if stats.truthy then updateDashboardStats stats v
      else calculateStatsFromInventory inventory v).1.inventoryTable = v.inventoryTable ∧
    (if stats.truthy then updateDashboardStats stats v
      else calculateStatsFromInventory inventory v).1.productionGrid = v.productionGrid ∧
    (if stats.truthy then updateDashboardStats stats v
      else calculateStatsFromInventory inventory v).1.alertsList = v.alertsList := by
  split
  · exact updateDashboardStats_fields stats v
  · exact calculateStatsFromInventory_fields inventory v

theorem render_tables_of_ok (env : Env) (inventory productionLines alerts stats : JSVal)
    (v : View)
    (h : (loadDashboardData.render env inventory productionLines alerts stats v).2 = none) :
    (loadDashboardData.render env inventory productionLines alerts stats v).1.inventoryTable =
      (forEachAppend inventoryRow (sectionSource inventory fallbackInventory)).1 ∧
    (loadDashboardData.render env inventory productionLines alerts stats v).1.productionGrid =
      (forEachAppend productionCard (sectionSource productionLines fallbackProduction)).1 ∧
    (loadDashboardData.render env inventory productionLines alerts stats v).1.alertsList =
      (forEachAppend (alertCard env) (sectionSource alerts (fallbackAlerts env))).1 ∧
    (loadDashboardData.render env inventory productionLines alerts stats v).1.apiStatusText =
      "Connected" := by
  rw [render_eq] at h ⊢
  have h4 := Step.none_of_andThen_none _ _ h
  have h3 := Step.none_of_andThen_none _ _ h4
  have h2 := Step.none_of_andThen_none _ _ h3
  have h1 := Step.none_of_andThen_none _ _ h2
  rw [Step.andThen_of_none _ _ h4, Step.andThen_of_none _ _ h3, Step.andThen_of_none _ _ h2,
    Step.andThen_of_none _ _ h1]
  simp only [(showAlert_fields _ _ _).1, (showAlert_fields _ _ _).2.1,
    (showAlert_fields _ _ _).2.2.1, (showAlert_fields _ _ _).2.2.2.2,
    (statsStep_fields _ _ _).1, (statsStep_fields _ _ _).2.1, (statsStep_fields _ _ _).2.2,
    (updateAlertsList_fields _ _ _).1, (updateAlertsList_fields _ _ _).2.1,
    (updateAlertsList_fields _ _ _).2.2,
    (updateProductionLines_fields _ _).1, (updateProductionLines_fields _ _).2.1,
    (updateProductionLines_fields _ _).2.2,
    (updateInventoryTable_fields _ _).1, and_self]

theorem getTimeAgo_str_ok (env : Env) (s : String) : ∃ ta, getTimeAgo env (str s) = .ok ta := by
  unfold getTimeAgo
  by_cases h : (str s).truthy = true
  · simp only [h, Bool.not_true, Bool.false_eq_true, if_false]
    simp only [newDate, toPrimitive, bind, Except.bind, pure, Except.pure]
    cases (env.parseDate s).bind timeClip <;> simp
  · simp [h, pure, Except.pure]

/-- The one row of the fallback inventory. -/
theorem fallbackInventory_rows :
    forEachAppend inventoryRow fallbackInventory =
      ([{ toyName := "Teddy Bear", toyIdLabel := "N/A", region := "Central Africa",
          city := "Douala", currentStock := "1,500", minimumStock := "2,000",
          statusClass := "status-lowstock", statusText := "Low Stock",
          restockETA := "02:30", actionToyId := "undefined" }], none) := by
  decide

/-- The one card of the fallback production. -/
theorem fallbackProduction_rows :
    forEachAppend productionCard fallbackProduction =
      ([{ lineName := "Teddy Bear Assembly", statusClass := "status-active",
          status := "ACTIVE", outputPerHour := "500", qualityScore := "98",
          toyType := "Teddy Bears", lineId := "LINE001" }], none) := by
  decide

/-- The one item of the fallback alerts. -/
theorem fallbackAlerts_rows (env : Env) :
    ∃ ta, getTimeAgo env (str (env.toISOString env.now)) = .ok ta ∧
      forEachAppend (alertCard env) (fallbackAlerts env) =
        ([{ icon := "fa-exclamation-circle",
            message := "Teddy Bears running low in Douala (1500/2000)",
            timeAgo := ta, alertId := "ALERT001" }], none) := by
  obtain ⟨ta, hta⟩ := getTimeAgo_str_ok env (env.toISOString env.now)
  refine ⟨ta, hta, ?_⟩
  have hcard : alertCard env (obj [("alertId", str "ALERT001"), ("severity", str "HIGH"),
        ("message", str "Teddy Bears running low in Douala (1500/2000)"),
        ("createdAt", str (env.toISOString env.now))]) =
      .ok { icon := "fa-exclamation-circle",
            message := "Teddy Bears running low in Douala (1500/2000)",
            timeAgo := ta, alertId := "ALERT001" } := by
    have hl : lookup "createdAt" [("alertId", str "ALERT001"), ("severity", str "HIGH"),
        ("message", str "Teddy Bears running low in Douala (1500/2000)"),
        ("createdAt", str (env.toISOString env.now))] = str (env.toISOString env.now) := by
      rfl
    simp only [alertCard, JSVal.get, bind, Except.bind, hl, hta, pure, Except.pure]
    rfl
  simp only [fallbackAlerts, forEachAppend, hcard]

theorem loadFallbackData_tables (env : Env) (v : View) :
    (loadFallbackData env v).2 = none ∧
    (loadFallbackData env v).1.inventoryTable = (forEachAppend inventoryRow fallbackInventory).1 ∧
    (loadFallbackData env v).1.productionGrid =
      (forEachAppend productionCard fallbackProduction).1 ∧
    (loadFallbackData env v).1.alertsList =
      (forEachAppend (alertCard env) (fallbackAlerts env)).1 ∧
    (loadFallbackData env v).1.apiStatusText = v.apiStatusText := by
  obtain ⟨ta, _, hal⟩ := fallbackAlerts_rows env
  have e1 : (useFallbackInventory v).2 = none := by
    simp [useFallbackInventory, updateInventoryTable, fallbackInventory_rows]
  have e2 : (useFallbackProduction (useFallbackInventory v).1).2 = none := by
    simp [useFallbackProduction, updateProductionLines, fallbackProduction_rows]
  have e3 : (useFallbackAlerts env (useFallbackProduction (useFallbackInventory v).1).1).2 =
      none := by
    simp [useFallbackAlerts, updateAlertsList, hal]
  unfold loadFallbackData
  rw [Step.andThen_of_none _ _ e1, Step.andThen_of_none _ _ e2, Step.andThen_of_none _ _ e3]
  refine ⟨rfl, ?_, ?_, ?_, ?_⟩
  · simp only [(showAlert_fields _ _ _).1, useFallbackAlerts, useFallbackProduction,
      useFallbackInventory, (updateAlertsList_fields _ _ _).1,
      (updateProductionLines_fields _ _).1, (updateInventoryTable_fields _ _).1]
  · simp only [(showAlert_fields _ _ _).2.1, useFallbackAlerts, useFallbackProduction,
      (updateAlertsList_fields _ _ _).2.1, (updateProductionLines_fields _ _).2.1]
  · simp only [(showAlert_fields _ _ _).2.2.1, useFallbackAlerts,
      (updateAlertsList_fields _ _ _).2.2]
  · simp [showAlert, useFallbackAlerts, useFallbackProduction, useFallbackInventory,
      updateAlertsList, updateProductionLines, updateInventoryTable, hal,
      fallbackProduction_rows, View.animate]

/-! ## Refresh cycle: when nothing is thrown -/

theorem getTimeAgo_ok_of_isPrimitive (env : Env) (p : JSVal) (h : p.isPrimitive = true) :
    ∃ ta, getTimeAgo env p = .ok ta := by
  unfold getTimeAgo
  by_cases ht : p.truthy = true
  · simp only [ht, Bool.not_true, Bool.false_eq_true, if_false]
    simp only [newDate, toPrimitive_of_isPrimitive p h, bind, Except.bind, pure, Except.pure]
    cases p <;> simp [JSVal.isPrimitive] at h <;>
      first
        | (simp only []; split <;> simp)
        | simp
  · simp [ht, pure, Except.pure]

theorem ofNum_isPrimitive (x : Num) : (ofNum x).isPrimitive = true := by
  cases x <;> rfl

theorem add_ok_of_isPrimitive (a b : JSVal) (ha : a.isPrimitive = true)
    (hb : b.isPrimitive = true) :
    ∃ c, a.add b = .ok c ∧ c.isPrimitive = true := by
  obtain ⟨sa, hsa⟩ := toStr_of_isPrimitive a ha
  obtain ⟨sb, hsb⟩ := toStr_of_isPrimitive b hb
  unfold JSVal.add
  simp only [toPrimitive_of_isPrimitive a ha, toPrimitive_of_isPrimitive b hb, bind, Except.bind]
  cases a <;> simp [JSVal.isPrimitive] at ha <;> cases b <;> simp [JSVal.isPrimitive] at hb <;>
    first
      | exact ⟨_, rfl, rfl⟩
      | exact ⟨_, rfl, ofNum_isPrimitive _⟩

theorem sumCurrentStock_ok_of_flat (items : List JSVal) (sum : JSVal)
    (hsum : sum.isPrimitive = true) (h : ∀ x ∈ items, x.isFlatRecord = true) :
    ∃ total, sumCurrentStock items sum = .ok total ∧ total.isPrimitive = true := by
  induction items generalizing sum with
  | nil => exact ⟨sum, rfl, hsum⟩
  | cons x rest ih =>
    obtain ⟨fields, rfl, hp⟩ := isFlatRecord_iff x (h x (List.mem_cons_self x rest))
    obtain ⟨c, hc, hcp⟩ := add_ok_of_isPrimitive sum ((lookup "currentStock" fields).or (num 0))
      hsum (or_isPrimitive _ _ (hp "currentStock") rfl)
    simp only [sumCurrentStock, JSVal.get, hc]
    exact ih c hcp (fun y hy => h y (List.mem_cons_of_mem _ hy))

theorem productionCard_ok_of_flat (x : JSVal) (h : x.isFlatRecord = true) :
    ∃ r, productionCard x = .ok r := by
  obtain ⟨fields, rfl, hp⟩ := isFlatRecord_iff x h
  obtain ⟨s1, h1⟩ := toStr_or_ok (lookup "lineName" fields) (str "Unknown Line") (hp _) rfl
  obtain ⟨s2, h2⟩ := toStr_or_ok (lookup "status" fields) (str "UNKNOWN") (hp _) rfl
  obtain ⟨s3, h3⟩ := toStr_or_ok (lookup "outputPerHour" fields) (num 0) (hp _) rfl
  obtain ⟨s4, h4⟩ := toStr_or_ok (lookup "qualityScore" fields) (num 0) (hp _) rfl
  obtain ⟨s5, h5⟩ := toStr_or_ok (lookup "toyType" fields) (str "Unknown") (hp _) rfl
  obtain ⟨s6, h6⟩ := toStr_or_ok (lookup "lineId" fields) (str "N/A") (hp _) rfl
  simp [productionCard, JSVal.get, bind, Except.bind, pure, Except.pure, h1, h2, h3, h4, h5, h6]

theorem alertCard_ok_of_flat (env : Env) (x : JSVal) (h : x.isFlatRecord = true) :
    ∃ r, alertCard env x = .ok r := by
  obtain ⟨fields, rfl, hp⟩ := isFlatRecord_iff x h
  obtain ⟨ta, hta⟩ := getTimeAgo_ok_of_isPrimitive env (lookup "createdAt" fields) (hp "createdAt")
  obtain ⟨s1, h1⟩ := toStr_or_ok (lookup "message" fields) (str "New alert") (hp _) rfl
  obtain ⟨s2, h2⟩ := toStr_of_isPrimitive (lookup "alertId" fields) (hp _)
  simp [alertCard, JSVal.get, bind, Except.bind, pure, Except.pure, hta, h1, h2]

theorem updateDashboardStats_ok (stats : JSVal) (v : View)
    (h : (stats.prop "totalToys").isPrimitive = true) : (updateDashboardStats stats v).2 = none := by
  unfold updateDashboardStats
  rw [toPrimitive_of_isPrimitive _ h]
  by_cases h0 : stats.truthy = true <;>
  by_cases h5 : (stats.prop "totalToys").truthy = true <;>
  simp [h0, h5]

theorem asArray_arr (items : List JSVal) : (arr items).asArray = some items := rfl

theorem asArray_of_not_isArray (v : JSVal) (h : v.isArray = false) : v.asArray = none := by
  simp [JSVal.asArray, h]

theorem sectionSource_flat (fetched : JSVal) (fallback : List JSVal)
    (hf : ∀ items, fetched = arr items → ∀ x ∈ items, x.isFlatRecord = true)
    (hb : ∀ x ∈ fallback, x.isFlatRecord = true) :
    ∀ x ∈ sectionSource fetched fallback, x.isFlatRecord = true := by
  unfold sectionSource
  cases fetched with
  | arr items => simpa [asArray_arr] using hf items rfl
  | _ => simpa [JSVal.asArray, JSVal.isArray] using hb

theorem or_empty_eq_arr (inventory : JSVal) (items : List JSVal)
    (h : inventory.or (arr []) = arr items) : items = [] ∨ inventory = arr items := by
  unfold JSVal.or at h
  split at h
  · exact Or.inr h
  · injection h with h
    exact Or.inl h.symm

theorem render_ok_of_flat (env : Env) (inventory productionLines alerts stats : JSVal) (v : View)
    (hi : ∀ items, inventory = arr items → ∀ x ∈ items, x.isFlatRecord = true)
    (hp : ∀ items, productionLines = arr items → ∀ x ∈ items, x.isFlatRecord = true)
    (ha : ∀ items, alerts = arr items → ∀ x ∈ items, x.isFlatRecord = true)
    (hs : (stats.prop "totalToys").isPrimitive = true) :
    (loadDashboardData.render env inventory productionLines alerts stats v).2 = none := by
  have fi := sectionSource_flat inventory fallbackInventory hi (by simp [fallbackInventory, JSVal.isFlatRecord, JSVal.isPrimitive])
  have fp := sectionSource_flat productionLines fallbackProduction hp (by simp [fallbackProduction, JSVal.isFlatRecord, JSVal.isPrimitive])
  have fa := sectionSource_flat alerts (fallbackAlerts env) ha (by simp [fallbackAlerts, JSVal.isFlatRecord, JSVal.isPrimitive])
  have e1 : ∀ w, (updateInventoryTable (sectionSource inventory fallbackInventory) w).2 = none := by
    intro w
    exact (forEachAppend_none_of_ok inventoryRow _ (fun x hx => inventoryRow_ok_of_flat x (fi x hx))).1
  have e2 : ∀ w, (updateProductionLines (sectionSource productionLines fallbackProduction) w).2 =
      none := by
    intro w
    have := (forEachAppend_none_of_ok productionCard _
      (fun x hx => productionCard_ok_of_flat x (fp x hx))).1
    simp [updateProductionLines, this]
  have e3 : ∀ w, (updateAlertsList env (sectionSource alerts (fallbackAlerts env)) w).2 = none := by
    intro w
    have := (forEachAppend_none_of_ok (alertCard env) _
      (fun x hx => alertCard_ok_of_flat env x (fa x hx))).1
    simp [updateAlertsList, this]
  have e4 : ∀ w, (if stats.truthy then updateDashboardStats stats w
      else calculateStatsFromInventory (inventory.or (arr [])) w).2 = none := by
    intro w
    split
    · exact updateDashboardStats_ok stats w hs
    · unfold calculateStatsFromInventory
      split
      · rfl
      · split
        · rename_i items hitems
          have hflat : ∀ x ∈ items, x.isFlatRecord = true := by
            rcases or_empty_eq_arr inventory items hitems with h0 | h0
            · subst h0; simp
            · exact hi items h0
          obtain ⟨total, ht, htp⟩ := sumCurrentStock_ok_of_flat items (num 0) rfl hflat
          simp only [ht]
          exact updateDashboardStats_ok _ w htp
        · rfl
  rw [render_eq]
  rw [Step.andThen_of_none _ _ (e1 v), Step.andThen_of_none _ _ (e2 _),
    Step.andThen_of_none _ _ (e3 _), Step.andThen_of_none _ _ (e4 _)]

/-! ## Refresh cycle: live data or fallback, per section -/

theorem tryBlock_eq_render (env : Env) (net : Network) (v : View)
    (inventory productionLines alerts stats : JSVal)
    (hi : fetchFromAPI net "/inventory" = .ok inventory)
    (hp : fetchFromAPI net "/production" = .ok productionLines)
    (ha : fetchFromAPI net "/alerts" = .ok alerts)
    (hs : fetchFromAPI net "/stats" = .ok stats) :
    loadDashboardData.tryBlock env net v =
      loadDashboardData.render env inventory productionLines alerts stats v := by
  simp [loadDashboardData.tryBlock, hi, hp, ha, hs]

theorem loadDashboardData_of_ok (env : Env) (net : Network) (v : View)
    (h : (loadDashboardData.tryBlock env net (showLoading true v)).2 = none) :
    loadDashboardData env net v =
      (showLoading false (loadDashboardData.tryBlock env net (showLoading true v)).1, none) := by
  simp [loadDashboardData, h]

theorem loadDashboardData_of_thrown (env : Env) (net : Network) (v : View)
    (h : (loadDashboardData.tryBlock env net (showLoading true v)).2 ≠ none) :
    loadDashboardData env net v =
      (showLoading false (loadDashboardData.handler env
          (loadDashboardData.tryBlock env net (showLoading true v)).1).1,
        (loadDashboardData.handler env
          (loadDashboardData.tryBlock env net (showLoading true v)).1).2) := by
  unfold loadDashboardData
  cases hc : (loadDashboardData.tryBlock env net (showLoading true v)).2 with
  | none => exact absurd hc h
  | some e => simp [hc]

theorem sectionSource_arr (items fallback : List JSVal) :
    sectionSource (arr items) fallback = items := rfl

theorem sectionSource_of_not_isArray (fetched : JSVal) (fallback : List JSVal)
    (h : fetched.isArray = false) : sectionSource fetched fallback = fallback := by
  simp [sectionSource, asArray_of_not_isArray fetched h]

/-- C7, as stated, fails: with the inventory fetch yielding the array
`[null]` and the production fetch yielding the empty array, both fetched
values are non-null arrays, yet reading `item.status` of the `null` element
throws, the cycle ends in its `catch` block, and the production grid shows
the one fallback line instead of the (empty) fetched array; the inventory
table shows the fallback record. -/
theorem loadDashboardData_null_element_falls_back :
    fetchFromAPI (jsonNetwork (arr [null]) (arr []) (arr []) null) "/inventory" =
      .ok (arr [null]) ∧
    fetchFromAPI (jsonNetwork (arr [null]) (arr []) (arr []) null) "/production" =
      .ok (arr []) ∧
    (forEachAppend productionCard []).1.length = 0 ∧
    (loadDashboardData (fixedClock 0) (jsonNetwork (arr [null]) (arr []) (arr []) null)
      emptyPage).1.productionGrid.length = 1 ∧
    (loadDashboardData (fixedClock 0) (jsonNetwork (arr [null]) (arr []) (arr []) null)
      emptyPage).1.inventoryTable.map (fun row => row.statusText) = ["Low Stock"] ∧
    (loadDashboardData (fixedClock 0) (jsonNetwork (arr [null]) (arr []) (arr []) null)
      emptyPage).1.apiStatusText = "Connection Error" := by
  refine ⟨rfl, rfl, rfl, ?_, ?_, ?_⟩ <;> decide

/-- C7, amended: in one `loadDashboardData` cycle in which rendering throws
no exception, each of inventory, production and alerts, independently of the
other results, is rendered from the fetched value when that value is an
array and from its fallback constant when it is not (`null` included).
Rendering throws nothing when every element of each fetched array is an
object whose field values are primitive and `stats.totalToys` is primitive
too.  When rendering does throw (an array with a `null` element, a value
that has no conversion to text), the `catch` block renders all three
sections from their fallback constants and the status reads
`Connection Error`.  In both cases the cycle itself
completes.  When all four fetches yield `null`, the table, the grid and the
list hold exactly the one fallback record (Teddy Bear, Low Stock, 1500/2000),
the one fallback line (LINE001, ACTIVE) and the one fallback alert
(ALERT001, default icon of severity HIGH). -/
theorem loadDashboardData_sections (env : Env) (net : Network) (v : View)
    (inventory productionLines alerts stats : JSVal)
    (hi : fetchFromAPI net "/inventory" = .ok inventory)
    (hp : fetchFromAPI net "/production" = .ok productionLines)
    (ha : fetchFromAPI net "/alerts" = .ok alerts)
    (hs : fetchFromAPI net "/stats" = .ok stats) :
    ((loadDashboardData.render env inventory productionLines alerts stats
        (showLoading true v)).2 = none →
      ((∀ items, inventory = arr items →
          (loadDashboardData env net v).1.inventoryTable = (forEachAppend inventoryRow items).1) ∧
        (inventory.isArray = false →
          (loadDashboardData env net v).1.inventoryTable =
            (forEachAppend inventoryRow fallbackInventory).1)) ∧
      ((∀ items, productionLines = arr items →
          (loadDashboardData env net v).1.productionGrid =
            (forEachAppend productionCard items).1) ∧
        (productionLines.isArray = false →
          (loadDashboardData env net v).1.productionGrid =
            (forEachAppend productionCard fallbackProduction).1)) ∧
      ((∀ items, alerts = arr items →
          (loadDashboardData env net v).1.alertsList =
            (forEachAppend (alertCard env) items).1) ∧
        (alerts.isArray = false →
          (loadDashboardData env net v).1.alertsList =
            (forEachAppend (alertCard env) (fallbackAlerts env)).1)) ∧
      (loadDashboardData env net v).1.apiStatusText = "Connected") ∧
    ((∀ items, inventory = arr items → ∀ x ∈ items, x.isFlatRecord = true) →
      (∀ items, productionLines = arr items → ∀ x ∈ items, x.isFlatRecord = true) →
      (∀ items, alerts = arr items → ∀ x ∈ items, x.isFlatRecord = true) →
      (stats.prop "totalToys").isPrimitive = true →
      (loadDashboardData.render env inventory productionLines alerts stats
        (showLoading true v)).2 = none) ∧
    ((loadDashboardData.render env inventory productionLines alerts stats
        (showLoading true v)).2 ≠ none →
      (loadDashboardData env net v).1.inventoryTable =
        (forEachAppend inventoryRow fallbackInventory).1 ∧
      (loadDashboardData env net v).1.productionGrid =
        (forEachAppend productionCard fallbackProduction).1 ∧
      (loadDashboardData env net v).1.alertsList =
        (forEachAppend (alertCard env) (fallbackAlerts env)).1 ∧
      (loadDashboardData env net v).1.apiStatusText = "Connection Error") ∧
    (loadDashboardData env net v).2 = none ∧
    (inventory = null → productionLines = null → alerts = null → stats = null →
      (loadDashboardData env net v).1.inventoryTable =
        [{ toyName := "Teddy Bear", toyIdLabel := "N/A",
           region := "Central Africa", city := "Douala",
           currentStock := "1,500", minimumStock := "2,000",
           statusClass := "status-lowstock", statusText := "Low Stock",
           restockETA := "02:30", actionToyId := "undefined" }] ∧
      (loadDashboardData env net v).1.productionGrid =
        [{ lineName := "Teddy Bear Assembly", statusClass := "status-active",
           status := "ACTIVE", outputPerHour := "500", qualityScore := "98",
           toyType := "Teddy Bears", lineId := "LINE001" }] ∧
      ∃ ta, getTimeAgo env (str (env.toISOString env.now)) = .ok ta ∧
        (loadDashboardData env net v).1.alertsList =
          [{ icon := "fa-exclamation-circle",
             message := "Teddy Bears running low in Douala (1500/2000)",
             timeAgo := ta, alertId := "ALERT001" }]) := by
  have htry := tryBlock_eq_render env net (showLoading true v) inventory productionLines alerts
    stats hi hp ha hs
  have hA : (loadDashboardData.render env inventory productionLines alerts stats
        (showLoading true v)).2 = none →
      (loadDashboardData env net v).2 = none ∧
      (loadDashboardData env net v).1.inventoryTable =
        (forEachAppend inventoryRow (sectionSource inventory fallbackInventory)).1 ∧
      (loadDashboardData env net v).1.productionGrid =
        (forEachAppend productionCard (sectionSource productionLines fallbackProduction)).1 ∧
      (loadDashboardData env net v).1.alertsList =
        (forEachAppend (alertCard env) (sectionSource alerts (fallbackAlerts env))).1 ∧
      (loadDashboardData env net v).1.apiStatusText = "Connected" := by
    intro hok
    have hok' := hok
    rw [← htry] at hok'
    rw [loadDashboardData_of_ok env net v hok', htry]
    obtain ⟨t1, t2, t3, t4⟩ := render_tables_of_ok env inventory productionLines alerts stats
      (showLoading true v) hok
    exact ⟨rfl, t1, t2, t3, t4⟩
  have hB : (loadDashboardData.render env inventory productionLines alerts stats
        (showLoading true v)).2 ≠ none →
      (loadDashboardData env net v).2 = none ∧
      (loadDashboardData env net v).1.inventoryTable =
        (forEachAppend inventoryRow fallbackInventory).1 ∧
      (loadDashboardData env net v).1.productionGrid =
        (forEachAppend productionCard fallbackProduction).1 ∧
      (loadDashboardData env net v).1.alertsList =
        (forEachAppend (alertCard env) (fallbackAlerts env)).1 ∧
      (loadDashboardData env net v).1.apiStatusText = "Connection Error" := by
    intro hthrown
    have hthrown' := hthrown
    rw [← htry] at hthrown'
    rw [loadDashboardData_of_thrown env net v hthrown']
    unfold loadDashboardData.handler
    obtain ⟨f0, f1, f2, f3, f4⟩ := loadFallbackData_tables env
      (showAlert "error" "Failed to load data. Showing cached information."
        { (loadDashboardData.tryBlock env net (showLoading true v)).1 with
          apiStatusText := "Connection Error", apiStatusClass := "status-error" })
    exact ⟨f0, f1, f2, f3, f4⟩
  have hflat := render_ok_of_flat env inventory productionLines alerts stats (showLoading true v)
  refine ⟨?_, hflat, ?_, ?_, ?_⟩
  · intro hok
    obtain ⟨_, t1, t2, t3, t4⟩ := hA hok
    refine ⟨⟨?_, ?_⟩, ⟨?_, ?_⟩, ⟨?_, ?_⟩, t4⟩
    · intro items e
      rw [t1, e, sectionSource_arr]
    · intro e
      rw [t1, sectionSource_of_not_isArray _ _ e]
    · intro items e
      rw [t2, e, sectionSource_arr]
    · intro e
      rw [t2, sectionSource_of_not_isArray _ _ e]
    · intro items e
      rw [t3, e, sectionSource_arr]
    · intro e
      rw [t3, sectionSource_of_not_isArray _ _ e]
  · intro hthrown
    exact (hB hthrown).2
  · by_cases hok : (loadDashboardData.render env inventory productionLines alerts stats
        (showLoading true v)).2 = none
    · exact (hA hok).1
    · exact (hB hok).1
  · intro e1 e2 e3 e4
    have hok := hflat (by intro items e; rw [e1] at e; cases e)
      (by intro items e; rw [e2] at e; cases e) (by intro items e; rw [e3] at e; cases e)
      (by rw [e4]; rfl)
    obtain ⟨_, t1, t2, t3, _⟩ := hA hok
    obtain ⟨ta, hta, hal⟩ := fallbackAlerts_rows env
    rw [t1, t2, t3, e1, e2, e3, sectionSource_of_not_isArray null fallbackInventory rfl,
      sectionSource_of_not_isArray null fallbackProduction rfl,
      sectionSource_of_not_isArray null (fallbackAlerts env) rfl,
      fallbackInventory_rows, fallbackProduction_rows, hal]
    exact ⟨rfl, rfl, ta, hta, rfl⟩

theorem render_robot_ok :
    (loadDashboardData.render (fixedClock 0) (arr [obj [("toyName", str "Robot")]]) null
      (arr []) null (showLoading true emptyPage)).2 = none := by
  apply render_ok_of_flat
  · intro items e x hx
    cases e
    simp only [List.mem_singleton] at hx
    subst hx
    decide
  · intro items e
    cases e
  · intro items e x hx
    cases e
    simp at hx
  · rfl

/-- With a live inventory of one record, no production data and an empty
alerts array, the table shows the fetched record and the grid the fallback
line. -/
theorem loadDashboardData_sections_witness :
    (loadDashboardData (fixedClock 0)
        (jsonNetwork (arr [obj [("toyName", str "Robot")]]) null (arr []) null)
        emptyPage).1.inventoryTable =
      (forEachAppend inventoryRow [obj [("toyName", str "Robot")]]).1 ∧
    (loadDashboardData (fixedClock 0)
        (jsonNetwork (arr [obj [("toyName", str "Robot")]]) null (arr []) null)
        emptyPage).1.productionGrid =
      (forEachAppend productionCard fallbackProduction).1 :=
  ⟨((loadDashboardData_sections (fixedClock 0)
        (jsonNetwork (arr [obj [("toyName", str "Robot")]]) null (arr []) null) emptyPage
        (arr [obj [("toyName", str "Robot")]]) null (arr []) null rfl rfl rfl rfl).1
        render_robot_ok).1.1
      [obj [("toyName", str "Robot")]] rfl,
    ((loadDashboardData_sections (fixedClock 0)
        (jsonNetwork (arr [obj [("toyName", str "Robot")]]) null (arr []) null) emptyPage
        (arr [obj [("toyName", str "Robot")]]) null (arr []) null rfl rfl rfl rfl).1
        render_robot_ok).2.1.2
      rfl⟩

/-! ## Chart -/

/-- C8: for every `stats` whose `inventoryStatus` is present (truthy) and an
initialized chart, `updateChartFromStats` sets the labels to the single
category `Stock Status` and the data of the three datasets, in the order
In Stock, Low Stock, Out of Stock, to the one-element arrays holding
`IN_STOCK || 0`, `LOW_STOCK || 0` and `OUT_OF_STOCK || 0`: the count itself
when it is a number, 0 when it is missing.  Label and colour of each dataset
are unchanged, the chart is redrawn once and nothing else on the page
changes.  For `{IN_STOCK:10, LOW_STOCK:3, OUT_OF_STOCK:1}` the data are
`[10]`, `[3]`, `[1]`. -/
theorem updateChartFromStats_datasets (stats : JSVal) (v : View) (chart : Chart)
    (hchart : v.stockChart = some chart)
    (hstatus : (stats.prop "inventoryStatus").truthy = true) :
    updateChartFromStats stats v =
      { v with stockChart := some (Chart.mk [str "Stock Status"]
          (Dataset.mk chart.dataset0.label chart.dataset0.backgroundColor
            [((stats.prop "inventoryStatus").prop "IN_STOCK").or (num 0)])
          (Dataset.mk chart.dataset1.label chart.dataset1.backgroundColor
            [((stats.prop "inventoryStatus").prop "LOW_STOCK").or (num 0)])
          (Dataset.mk chart.dataset2.label chart.dataset2.backgroundColor
            [((stats.prop "inventoryStatus").prop "OUT_OF_STOCK").or (num 0)])
          (chart.redraws + 1)) } ∧
    (∀ (key : String) (n : Int), (stats.prop "inventoryStatus").prop key = num n →
      ((stats.prop "inventoryStatus").prop key).or (num 0) = num n) ∧
    (∀ key : String, (stats.prop "inventoryStatus").prop key = undefined →
      ((stats.prop "inventoryStatus").prop key).or (num 0) = num 0) ∧
    (stats.prop "inventoryStatus" =
        obj [("IN_STOCK", num 10), ("LOW_STOCK", num 3), ("OUT_OF_STOCK", num 1)] →
      ((updateChartFromStats stats v).stockChart.map
        (fun c => (c.labels, c.dataset0.data, c.dataset1.data, c.dataset2.data))) =
        some ([str "Stock Status"], [num 10], [num 3], [num 1])) := by
  have hmain : updateChartFromStats stats v =
      { v with stockChart := some (Chart.mk [str "Stock Status"]
          (Dataset.mk chart.dataset0.label chart.dataset0.backgroundColor
            [((stats.prop "inventoryStatus").prop "IN_STOCK").or (num 0)])
          (Dataset.mk chart.dataset1.label chart.dataset1.backgroundColor
            [((stats.prop "inventoryStatus").prop "LOW_STOCK").or (num 0)])
          (Dataset.mk chart.dataset2.label chart.dataset2.backgroundColor
            [((stats.prop "inventoryStatus").prop "OUT_OF_STOCK").or (num 0)])
          (chart.redraws + 1)) } := by
    simp [updateChartFromStats, hchart, hstatus]
  refine ⟨hmain, ?_, ?_, ?_⟩
  · intro key n h
    rw [h]
    by_cases hn : n = 0
    · subst hn; rfl
    · simp [JSVal.or, JSVal.truthy, hn]
  · intro key h
    rw [h]
    rfl
  · intro h
    rw [hmain, h]
    rfl

/-- The chart created by `initializeChart`, updated from the counts 10, 3
and 1, keeps its three labels and holds the three counts. -/
theorem updateChartFromStats_datasets_witness :
    ((updateChartFromStats
        (obj [("inventoryStatus",
          obj [("IN_STOCK", num 10), ("LOW_STOCK", num 3), ("OUT_OF_STOCK", num 1)])])
        (initializeChart emptyPage)).stockChart.map
      (fun c => (c.labels, c.dataset0.data, c.dataset1.data, c.dataset2.data))) =
      some ([str "Stock Status"], [num 10], [num 3], [num 1]) :=
  (updateChartFromStats_datasets
    (obj [("inventoryStatus",
      obj [("IN_STOCK", num 10), ("LOW_STOCK", num 3), ("OUT_OF_STOCK", num 1)])])
    (initializeChart emptyPage) initialChart rfl rfl).2.2.2 rfl

/-! ## Statistics derived from the inventory -/

theorem get_eq_prop (item : JSVal) (key : String) (h : item ≠ null ∧ item ≠ undefined) :
    item.get key = .ok (item.prop key) := by
  cases item <;> simp_all [JSVal.get, JSVal.prop]

theorem add_num_num (a b : Int) (h : |a + b| ≤ 2 ^ 53) :
    (num a).add (num b) = .ok (num (a + b)) := by
  have e : ((a : ℚ) + (b : ℚ)) = ((a + b : ℤ) : ℚ) := by push_cast; rfl
  simp only [JSVal.add, JSVal.toPrimitive, bind, Except.bind, pure, Except.pure,
    JSVal.primToNum, Num.add, e, roundDouble_intCast (a + b) h, JSVal.ofNum, Int.floor_intCast]

theorem ofNum_isDefined (x : Num) : (ofNum x).isDefined = true := by
  cases x <;> rfl

theorem add_isDefined (a b c : JSVal) (h : a.add b = .ok c) :
    c.isDefined = true ∧ c.isPrimitive = true := by
  unfold JSVal.add at h
  cases ha : a.toPrimitive with
  | error e => simp [ha, bind, Except.bind] at h
  | ok pa =>
    cases hb : b.toPrimitive with
    | error e => simp [ha, hb, bind, Except.bind] at h
    | ok pb =>
      simp only [ha, hb, bind, Except.bind] at h
      split at h
      · cases hq : JSVal.toStr pb with
        | error e => simp [hq, Except.map] at h
        | ok y => simp [hq, Except.map] at h; subst h; exact ⟨rfl, rfl⟩
      · cases hq : JSVal.toStr pa with
        | error e => simp [hq, Except.map] at h
        | ok y => simp [hq, Except.map] at h; subst h; exact ⟨rfl, rfl⟩
      · simp only [pure, Except.pure] at h
        injection h with h
        subst h
        exact ⟨ofNum_isDefined _, ofNum_isPrimitive _⟩

theorem sumCurrentStock_isDefined (items : List JSVal) (sum total : JSVal)
    (hsum : sum.isDefined = true ∧ sum.isPrimitive = true)
    (h : sumCurrentStock items sum = .ok total) :
    total.isDefined = true ∧ total.isPrimitive = true := by
  induction items generalizing sum with
  | nil =>
    simp [sumCurrentStock] at h
    subst h
    exact hsum
  | cons x rest ih =>
    unfold sumCurrentStock at h
    cases hg : x.get "currentStock" with
    | error e => simp [hg] at h
    | ok stock =>
      cases hadd : sum.add (stock.or (num 0)) with
      | error e => simp [hg, hadd] at h
      | ok sum1 =>
        simp only [hg, hadd] at h
        exact ih sum1 (add_isDefined _ _ _ hadd) h

theorem sumCurrentStock_numeric (items : List JSVal) (acc : Int)
    (h : ∀ item ∈ items, (item ≠ null ∧ item ≠ undefined) ∧
      ((item.prop "currentStock").truthy = false ∨ ∃ n, item.prop "currentStock" = num n))
    (hb : ∀ k, |acc + ((items.take k).map currentStockOf).sum| ≤ 2 ^ 53) :
    sumCurrentStock items (num acc) = .ok (num (acc + (items.map currentStockOf).sum)) := by
  induction items generalizing acc with
  | nil => simp [sumCurrentStock]
  | cons x rest ih =>
    obtain ⟨hx, hstock⟩ := h x (List.mem_cons_self x rest)
    have hb1 : |acc + currentStockOf x| ≤ 2 ^ 53 := by simpa using hb 1
    have hrest := ih (acc + currentStockOf x) (fun y hy => h y (List.mem_cons_of_mem x hy))
      (by
        intro k
        have := hb (k + 1)
        simpa [add_assoc] using this)
    unfold sumCurrentStock
    rw [get_eq_prop x "currentStock" hx]
    have hadd : (num acc).add ((x.prop "currentStock").or (num 0)) =
        .ok (num (acc + currentStockOf x)) := by
      rcases hstock with hu | ⟨n, hn⟩
      · have hor : (x.prop "currentStock").or (num 0) = num 0 := by simp [JSVal.or, hu]
        have hzero : currentStockOf x = 0 := by
          unfold currentStockOf
          cases hv : x.prop "currentStock" <;> simp only []
          rw [hv] at hu
          simpa [JSVal.truthy] using hu
        rw [hzero] at hb1
        rw [hor, hzero]
        exact add_num_num acc 0 hb1
      · simp only [currentStockOf, hn] at hb1 ⊢
        by_cases h0 : n = 0
        · subst h0
          exact add_num_num acc 0 hb1
        · have : (num n).or (num 0) = num n := by simp [JSVal.or, JSVal.truthy, h0]
          rw [this]
          exact add_num_num acc n hb1
    simp only [hadd, hrest, List.map_cons, List.sum_cons]
    congr 2
    ring

theorem updateDashboardStats_minimalStats (total : JSVal) (v : View)
    (hdef : total.isDefined = true ∧ total.isPrimitive = true) :
    updateDashboardStats (minimalStats total) v =
      ({ v with
        animations := (Counter.regionsStocked, num 0) :: (Counter.stockAlerts, num 0) ::
          (Counter.activeLines, num 0) :: (Counter.totalToys, total) :: v.animations
        toyTrendSource := if total.truthy then some total else v.toyTrendSource }, none) := by
  have e1 : (minimalStats total).prop "totalToys" = total := rfl
  have e2 : (minimalStats total).prop "productionStats" =
      obj [("activeLines", num 0), ("totalLines", num 0)] := rfl
  have e3 : (minimalStats total).prop "alertStats" = obj [("total", num 0)] := rfl
  have e4 : (minimalStats total).prop "regionStats" = obj [] := rfl
  have e5 : (minimalStats total).prop "inventoryStatus" = undefined := rfl
  have e6 : (minimalStats total).truthy = true := rfl
  have e7 : ((obj [("activeLines", num 0), ("totalLines", num 0)]).prop "activeLines").or (num 0) =
      num 0 := rfl
  have e8 : ((obj [("total", num 0)]).prop "total").or (num 0) = num 0 := rfl
  have e9 : (obj []).keysLength = 0 := rfl
  have t1 : (obj [("activeLines", num 0), ("totalLines", num 0)]).truthy = true := rfl
  have t2 : (obj [("total", num 0)]).truthy = true := rfl
  have t3 : (obj []).truthy = true := rfl
  have t4 : undefined.truthy = false := rfl
  unfold updateDashboardStats
  simp only [e1, e2, e3, e4, e5, e6, e7, e8, e9, hdef.1, t1, t2, t3, t4,
    toPrimitive_of_isPrimitive total hdef.2]
  by_cases ht : total.truthy = true <;> simp [ht, View.animate]

theorem updateProductionLines_animations (lines : List JSVal) (v : View)
    (h : (updateProductionLines lines v).2 = none) :
    (updateProductionLines lines v).1.animations =
      (Counter.activeLines, num (activeCount lines)) :: v.animations := by
  unfold updateProductionLines at h ⊢
  simp only at h ⊢
  split <;> rename_i hc
  · simp [hc] at h
  · rfl

theorem updateAlertsList_animations (env : Env) (alerts : List JSVal) (v : View)
    (h : (updateAlertsList env alerts v).2 = none) :
    (updateAlertsList env alerts v).1.animations =
      (Counter.stockAlerts, num alerts.length) :: v.animations := by
  unfold updateAlertsList at h ⊢
  simp only at h ⊢
  split <;> rename_i hc
  · simp [hc] at h
  · rfl

theorem render_animations_of_ok (env : Env) (inventory productionLines alerts stats : JSVal)
    (v : View)
    (h : (loadDashboardData.render env inventory productionLines alerts stats v).2 = none) :
    ∃ v3 : View,
      v3.animations =
        (Counter.stockAlerts, num (sectionSource alerts (fallbackAlerts env)).length) ::
        (Counter.activeLines,
          num (activeCount (sectionSource productionLines fallbackProduction))) ::
        v.animations ∧
      (if stats.truthy then updateDashboardStats stats v3
        else calculateStatsFromInventory (inventory.or (arr [])) v3).2 = none ∧
      (loadDashboardData.render env inventory productionLines alerts stats v).1.animations =
        (if stats.truthy then updateDashboardStats stats v3
          else calculateStatsFromInventory (inventory.or (arr [])) v3).1.animations := by
  rw [render_eq] at h ⊢
  have h4 := Step.none_of_andThen_none _ _ h
  have h3 := Step.none_of_andThen_none _ _ h4
  have h2 := Step.none_of_andThen_none _ _ h3
  have h1 := Step.none_of_andThen_none _ _ h2
  rw [Step.andThen_of_none _ _ h4]
  rw [Step.andThen_of_none _ _ h3] at h4 ⊢
  rw [Step.andThen_of_none _ _ h2] at h3 h4 ⊢
  rw [Step.andThen_of_none _ _ h1] at h2 h3 h4 ⊢
  refine ⟨_, ?_, h4, rfl⟩
  rw [updateAlertsList_animations env _ _ h3, updateProductionLines_animations _ _ h2]
  rfl

/-- C9, as stated, fails: with the stats fetch yielding `null` and the
inventory fetch yielding an object that is not an array (an error body),
`calculateStatsFromInventory` returns at its guard and the stats renderer is
never called: the only counter animations of the cycle are those of the
fallback production and alerts, none is started on the total-toys or the
regions counter, and active lines and alerts are not driven to 0. -/
theorem loadDashboardData_object_inventory_no_stats :
    fetchFromAPI (jsonNetwork (obj [("message", str "Internal server error")]) null null null)
      "/stats" = .ok null ∧
    (loadDashboardData (fixedClock 0)
      (jsonNetwork (obj [("message", str "Internal server error")]) null null null)
      emptyPage).1.animations.map (fun a => (a.1, a.2.truthy)) =
        [(Counter.stockAlerts, true), (Counter.activeLines, true)] ∧
    (loadDashboardData (fixedClock 0)
      (jsonNetwork (obj [("message", str "Internal server error")]) null null null)
      emptyPage).1.apiStatusText = "Connected" := by
  refine ⟨rfl, ?_, ?_⟩ <;> decide

theorem counterTarget_of_minimalStats (total : JSVal) (rest : List (Counter × JSVal)) (w : View)
    (h : w.animations = (Counter.regionsStocked, num 0) :: (Counter.stockAlerts, num 0) ::
      (Counter.activeLines, num 0) :: (Counter.totalToys, total) :: rest) :
    w.counterTarget Counter.totalToys = some total ∧
    w.counterTarget Counter.activeLines = some (num 0) ∧
    w.counterTarget Counter.stockAlerts = some (num 0) ∧
    w.counterTarget Counter.regionsStocked = some (num 0) := by
  simp [View.counterTarget, h, List.find?]

theorem calculateStats_arr (items : List JSVal) (v3 : View)
    (h : (calculateStatsFromInventory (arr items) v3).2 = none) :
    ∃ total, sumCurrentStock items (num 0) = .ok total ∧
      (calculateStatsFromInventory (arr items) v3).1.animations =
        (Counter.regionsStocked, num 0) :: (Counter.stockAlerts, num 0) ::
          (Counter.activeLines, num 0) :: (Counter.totalToys, total) :: v3.animations := by
  have hg : (!(arr items).truthy || !(arr items).isArray) = false := rfl
  unfold calculateStatsFromInventory at h ⊢
  simp only [hg, Bool.false_eq_true, if_false] at h ⊢
  cases hsum : sumCurrentStock items (num 0) with
  | error e => simp [hsum] at h
  | ok total =>
    refine ⟨total, rfl, ?_⟩
    simp only []
    rw [updateDashboardStats_minimalStats total v3
      (sumCurrentStock_isDefined items (num 0) total ⟨rfl, rfl⟩ hsum)]

/-- C9, amended: in every `loadDashboardData` cycle in which the stats fetch
is unavailable (`null`, or any falsy value) and rendering throws no
exception, a minimal stats object is derived and rendered when the inventory
result is an array or is falsy (`null` counts as the empty list): the
total-toys counter is driven to the result of the `reduce` over the records,
an addition of doubles, which is the sum of `currentStock` when every
`currentStock` is a number or is missing or otherwise falsy (counted as 0)
and no partial sum leaves the range of `-2^53` to `2^53`, and the
active-lines, alert-total and region-count counters are driven to 0.  When the inventory result is truthy
but not an array, nothing is derived or rendered: the total-toys and regions
counters keep the target they had before the cycle. -/
theorem loadDashboardData_stats_from_inventory (env : Env) (net : Network) (v : View)
    (inventory productionLines alerts stats : JSVal)
    (hi : fetchFromAPI net "/inventory" = .ok inventory)
    (hp : fetchFromAPI net "/production" = .ok productionLines)
    (ha : fetchFromAPI net "/alerts" = .ok alerts)
    (hs : fetchFromAPI net "/stats" = .ok stats)
    (hstats : stats.truthy = false)
    (hok : (loadDashboardData.render env inventory productionLines alerts stats
      (showLoading true v)).2 = none) :
    (∀ items, inventory = arr items →
      ∃ total, sumCurrentStock items (num 0) = .ok total ∧
        (loadDashboardData env net v).1.counterTarget Counter.totalToys = some total ∧
        (loadDashboardData env net v).1.counterTarget Counter.activeLines = some (num 0) ∧
        (loadDashboardData env net v).1.counterTarget Counter.stockAlerts = some (num 0) ∧
        (loadDashboardData env net v).1.counterTarget Counter.regionsStocked = some (num 0)) ∧
    (∀ items, inventory = arr items →
      (∀ item ∈ items, (item ≠ null ∧ item ≠ undefined) ∧
        ((item.prop "currentStock").truthy = false ∨ ∃ n, item.prop "currentStock" = num n)) →
      (∀ k, |((items.take k).map currentStockOf).sum| ≤ 2 ^ 53) →
      (loadDashboardData env net v).1.counterTarget Counter.totalToys =
        some (num (items.map currentStockOf).sum)) ∧
    (inventory.truthy = false →
      (loadDashboardData env net v).1.counterTarget Counter.totalToys = some (num 0) ∧
      (loadDashboardData env net v).1.counterTarget Counter.activeLines = some (num 0) ∧
      (loadDashboardData env net v).1.counterTarget Counter.stockAlerts = some (num 0) ∧
      (loadDashboardData env net v).1.counterTarget Counter.regionsStocked = some (num 0)) ∧
    (inventory.truthy = true → inventory.isArray = false →
      (loadDashboardData env net v).1.counterTarget Counter.totalToys =
        v.counterTarget Counter.totalToys ∧
      (loadDashboardData env net v).1.counterTarget Counter.regionsStocked =
        v.counterTarget Counter.regionsStocked) := by
  have htry := tryBlock_eq_render env net (showLoading true v) inventory productionLines alerts
    stats hi hp ha hs
  have hok' := hok
  rw [← htry] at hok'
  obtain ⟨v3, hv3, hnone, hanim⟩ := render_animations_of_ok env inventory productionLines alerts
    stats (showLoading true v) hok
  have hfinal : (loadDashboardData env net v).1.animations =
      (calculateStatsFromInventory (inventory.or (arr [])) v3).1.animations := by
    rw [loadDashboardData_of_ok env net v hok', htry]
    simp only [(showLoading_fields _ _).2.2.2.1, hanim, hstats, Bool.false_eq_true, if_false]
  simp only [hstats, Bool.false_eq_true, if_false] at hnone
  have harr : ∀ items, inventory.or (arr []) = arr items →
      ∃ total, sumCurrentStock items (num 0) = .ok total ∧
        (loadDashboardData env net v).1.counterTarget Counter.totalToys = some total ∧
        (loadDashboardData env net v).1.counterTarget Counter.activeLines = some (num 0) ∧
        (loadDashboardData env net v).1.counterTarget Counter.stockAlerts = some (num 0) ∧
        (loadDashboardData env net v).1.counterTarget Counter.regionsStocked = some (num 0) := by
    intro items e
    rw [e] at hnone hfinal
    obtain ⟨total, hsum, han⟩ := calculateStats_arr items v3 hnone
    exact ⟨total, hsum, counterTarget_of_minimalStats total v3.animations _ (hfinal.trans han)⟩
  refine ⟨?_, ?_, ?_, ?_⟩
  · intro items e
    exact harr items (by rw [e]; rfl)
  · intro items e hnum hbound
    obtain ⟨total, hsum, ht, _⟩ := harr items (by rw [e]; rfl)
    rw [sumCurrentStock_numeric items 0 hnum (by simpa using hbound)] at hsum
    simp only [zero_add] at hsum
    injection hsum with hsum
    rw [ht, hsum]
  · intro hfalsy
    obtain ⟨total, hsum, ht, hrest⟩ := harr [] (by simp [JSVal.or, hfalsy])
    simp only [sumCurrentStock] at hsum
    injection hsum with hsum
    rw [← hsum] at ht
    exact ⟨ht, hrest⟩
  · intro htruthy hnot
    have hor : inventory.or (arr []) = inventory := by simp [JSVal.or, htruthy]
    have hcalc : (calculateStatsFromInventory inventory v3).1 = v3 := by
      simp [calculateStatsFromInventory, hnot]
    rw [hor, hcalc, hv3] at hfinal
    simp [View.counterTarget, hfinal, List.find?, (showLoading_fields _ _).2.2.2.1]

theorem render_two_records_ok :
    (loadDashboardData.render (fixedClock 0)
      (arr [obj [("currentStock", num 1200)], obj [("currentStock", num 300)]]) null null null
      (showLoading true emptyPage)).2 = none := by
  apply render_ok_of_flat
  · intro items e x hx
    cases e
    simp only [List.mem_cons, List.mem_singleton, List.not_mem_nil, or_false] at hx
    rcases hx with rfl | rfl <;> decide
  · intro items e
    cases e
  · intro items e
    cases e
  · rfl

/-- With no stats and a live inventory of two records holding 1200 and 300
toys, the total-toys counter is driven to 1500. -/
theorem loadDashboardData_stats_from_inventory_witness :
    (loadDashboardData (fixedClock 0)
        (jsonNetwork (arr [obj [("currentStock", num 1200)], obj [("currentStock", num 300)]])
          null null null)
        emptyPage).1.counterTarget Counter.totalToys =
      some (num ([obj [("currentStock", num 1200)],
        obj [("currentStock", num 300)]].map currentStockOf).sum) :=
  (loadDashboardData_stats_from_inventory (fixedClock 0)
    (jsonNetwork (arr [obj [("currentStock", num 1200)], obj [("currentStock", num 300)]])
      null null null)
    emptyPage (arr [obj [("currentStock", num 1200)], obj [("currentStock", num 300)]])
    null null null rfl rfl rfl rfl rfl render_two_records_ok).2.1
    [obj [("currentStock", num 1200)], obj [("currentStock", num 300)]] rfl
    (by
      intro item hitem
      simp only [List.mem_cons, List.mem_singleton, List.not_mem_nil, or_false] at hitem
      rcases hitem with rfl | rfl
      · exact ⟨⟨by simp, by simp⟩, Or.inr ⟨1200, rfl⟩⟩
      · exact ⟨⟨by simp, by simp⟩, Or.inr ⟨300, rfl⟩⟩)
    (by
      intro k
      rcases k with _ | _ | _ | k <;> simp [currentStockOf, JSVal.prop, lookup])

/-! ## API client -/

/-- C10: `fetchFromAPI` never propagates a failure: for every endpoint and
every behaviour of the request the returned promise is fulfilled.  It is
fulfilled with `null` when `fetch` rejects, when the response status is not
in 200-299 (whether or not reading the body text fails), and when reading or
parsing the body as JSON fails; it is fulfilled with the parsed JSON body
when the status is in 200-299 and the body parses, and a value other than
`null` is only ever obtained that way. -/
theorem fetchFromAPI_never_rejects (net : Network) (endpoint : String) :
    (∃ v, fetchFromAPI net endpoint = .ok v) ∧
    (∀ e, net (API_BASE_URL ++ endpoint) = .error e → fetchFromAPI net endpoint = .ok null) ∧
    (∀ r, net (API_BASE_URL ++ endpoint) = .ok r → ¬ (200 ≤ r.status ∧ r.status ≤ 299) →
      fetchFromAPI net endpoint = .ok null) ∧
    (∀ r e, net (API_BASE_URL ++ endpoint) = .ok r → r.json = .error e →
      fetchFromAPI net endpoint = .ok null) ∧
    (∀ r data, net (API_BASE_URL ++ endpoint) = .ok r → 200 ≤ r.status → r.status ≤ 299 →
      r.json = .ok data → fetchFromAPI net endpoint = .ok data) ∧
    (∀ v, fetchFromAPI net endpoint = .ok v → v ≠ null →
      ∃ r, net (API_BASE_URL ++ endpoint) = .ok r ∧ 200 ≤ r.status ∧ r.status ≤ 299 ∧
        r.json = .ok v) := by
  have hcases : ∀ r, net (API_BASE_URL ++ endpoint) = .ok r →
      (r.ok = false → fetchFromAPI net endpoint = .ok null) ∧
      (∀ e, r.json = .error e → fetchFromAPI net endpoint = .ok null) ∧
      (∀ data, r.ok = true → r.json = .ok data → fetchFromAPI net endpoint = .ok data) := by
    intro r hr
    refine ⟨?_, ?_, ?_⟩
    · intro hok
      unfold fetchFromAPI fetchFromAPI.tryBlock
      rw [hr]
      cases ht : r.text <;> simp [hok, ht]
    · intro e he
      unfold fetchFromAPI fetchFromAPI.tryBlock
      rw [hr]
      cases hok : r.ok <;> cases ht : r.text <;> simp [hok, ht, he]
    · intro data hok hd
      unfold fetchFromAPI fetchFromAPI.tryBlock
      rw [hr]
      simp [hok, hd]
  have hokiff : ∀ r : Response, r.ok = true ↔ 200 ≤ r.status ∧ r.status ≤ 299 := by
    intro r
    simp [Response.ok]
  refine ⟨?_, ?_, ?_, ?_, ?_, ?_⟩
  · unfold fetchFromAPI
    cases fetchFromAPI.tryBlock net endpoint with
    | error e => exact ⟨null, rfl⟩
    | ok data => exact ⟨data, rfl⟩
  · intro e he
    unfold fetchFromAPI fetchFromAPI.tryBlock
    rw [he]
  · intro r hr hnot
    apply (hcases r hr).1
    cases hok : r.ok with
    | false => rfl
    | true => exact absurd ((hokiff r).1 hok) hnot
  · intro r e hr he
    exact (hcases r hr).2.1 e he
  · intro r data hr h1 h2 hd
    exact (hcases r hr).2.2 data ((hokiff r).2 ⟨h1, h2⟩) hd
  · intro v hv hne
    cases hn : net (API_BASE_URL ++ endpoint) with
    | error e =>
      have : fetchFromAPI net endpoint = .ok null := by
        unfold fetchFromAPI fetchFromAPI.tryBlock
        rw [hn]
      rw [this] at hv
      injection hv with hv
      exact absurd hv.symm hne
    | ok r =>
      obtain ⟨c1, c2, c3⟩ := hcases r hn
      cases hok : r.ok with
      | false =>
        rw [c1 hok] at hv
        injection hv with hv
        exact absurd hv.symm hne
      | true =>
        cases hj : r.json with
        | error e =>
          rw [c2 e hj] at hv
          injection hv with hv
          exact absurd hv.symm hne
        | ok data =>
          rw [c3 data hok hj] at hv
          injection hv with hv
          subst hv
          exact ⟨r, rfl, ((hokiff r).1 hok).1, ((hokiff r).1 hok).2, hj⟩

/-- A response with status 503 whose body cannot be read gives `null`. -/
theorem fetchFromAPI_never_rejects_witness :
    fetchFromAPI (fun _ => .ok ⟨503, .error (.typeError "body stream failed"), .ok (arr [])⟩)
      "/inventory" = .ok null :=
  (fetchFromAPI_never_rejects
    (fun _ => .ok ⟨503, .error (.typeError "body stream failed"), .ok (arr [])⟩)
    "/inventory").2.2.1 ⟨503, .error (.typeError "body stream failed"), .ok (arr [])⟩ rfl
    (by decide)

/-! ## Action functions -/

theorem response_ok_iff (r : Response) : r.ok = true ↔ 200 ≤ r.status ∧ r.status ≤ 299 := by
  simp [Response.ok]

theorem showAlert_blue (type message : String) (v : View)
    (h1 : (type == "error") = false) (h2 : (type == "success") = false) :
    showAlert type message v =
      { v with alertMessage := message, bannerDisplay := "flex", bannerBackground := bannerBlue } := by
  simp [showAlert, h1, h2, bannerBlue]

/-- C11, as stated, fails: `restockToy` on a page whose banner is hidden and
empty, with a `fetch` that rejects, leaves the banner visible with the text
of the notice shown before the request, so the page is not as it was before
the call; and with a response of status 500 nothing at all is logged. -/
theorem restockToy_failure_changes_banner :
    emptyPage.bannerDisplay = "none" ∧ emptyPage.alertMessage = "" ∧
    (restockToy (fixedClock 0) (jsonNetwork null null null null)
      (rejectingMutations (.typeError "Failed to fetch")) "TOY001" emptyPage).view.bannerDisplay =
      "flex" ∧
    (restockToy (fixedClock 0) (jsonNetwork null null null null)
      (rejectingMutations (.typeError "Failed to fetch")) "TOY001" emptyPage).view.alertMessage =
      "Initiating restock for Toy ID: TOY001" ∧
    (restockToy (fixedClock 0) (jsonNetwork null null null null)
      (statusMutations 500) "TOY001" emptyPage).errors = [] ∧
    (restockToy (fixedClock 0) (jsonNetwork null null null null)
      (statusMutations 500) "TOY001" emptyPage).refreshed = false := by
  refine ⟨rfl, rfl, ?_, ?_, ?_, ?_⟩ <;> decide

/-- C11, amended: each of `restockToy`, `createAlert` and `resolveAlert`
first shows its notice in the banner.  When `fetch` rejects, the error is
logged with `console.error`, no dashboard refresh is triggered, and the page
is as before the call except for the banner, which is visible with the
notice and the default (blue) colour: tables, counters, chart and status
indicator are unchanged.  When the response is not 2xx, no refresh is
triggered and the page is likewise unchanged except for that banner.  A
dashboard refresh is triggered exactly when the response is 2xx. -/
theorem actions_on_failure (env : Env) (net : Network) (send : Mutations) (id : String)
    (v : View) :
    ((∀ e, send ⟨"POST", API_BASE_URL ++ "/inventory",
          obj [("toyid", str id), ("currentStock", num 2000), ("action", str "restock")]⟩ =
          .error e →
        (restockToy env net send id v).errors = [("Restock error:", e)] ∧
        (restockToy env net send id v).refreshed = false ∧
        (restockToy env net send id v).view =
          { v with alertMessage := "Initiating restock for Toy ID: " ++ id,
                   bannerDisplay := "flex", bannerBackground := bannerBlue }) ∧
      (∀ r, send ⟨"POST", API_BASE_URL ++ "/inventory",
          obj [("toyid", str id), ("currentStock", num 2000), ("action", str "restock")]⟩ =
          .ok r → ¬ (200 ≤ r.status ∧ r.status ≤ 299) →
        (restockToy env net send id v).refreshed = false ∧
        (restockToy env net send id v).view =
          { v with alertMessage := "Initiating restock for Toy ID: " ++ id,
                   bannerDisplay := "flex", bannerBackground := bannerBlue }) ∧
      ((restockToy env net send id v).refreshed = true ↔
        ∃ r, send ⟨"POST", API_BASE_URL ++ "/inventory",
          obj [("toyid", str id), ("currentStock", num 2000), ("action", str "restock")]⟩ =
          .ok r ∧ 200 ≤ r.status ∧ r.status ≤ 299)) ∧
    ((∀ e, send ⟨"POST", API_BASE_URL ++ "/alerts",
          obj [("toyid", str id), ("severity", str "MEDIUM"),
            ("message", str ("Manual alert created for toy " ++ id))]⟩ = .error e →
        (createAlert env net send id v).errors = [("Create alert error:", e)] ∧
        (createAlert env net send id v).refreshed = false ∧
        (createAlert env net send id v).view =
          { v with alertMessage := "Creating alert for Toy ID: " ++ id,
                   bannerDisplay := "flex", bannerBackground := bannerBlue }) ∧
      (∀ r, send ⟨"POST", API_BASE_URL ++ "/alerts",
          obj [("toyid", str id), ("severity", str "MEDIUM"),
            ("message", str ("Manual alert created for toy " ++ id))]⟩ = .ok r →
        ¬ (200 ≤ r.status ∧ r.status ≤ 299) →
        (createAlert env net send id v).refreshed = false ∧
        (createAlert env net send id v).view =
          { v with alertMessage := "Creating alert for Toy ID: " ++ id,
                   bannerDisplay := "flex", bannerBackground := bannerBlue }) ∧
      ((createAlert env net send id v).refreshed = true ↔
        ∃ r, send ⟨"POST", API_BASE_URL ++ "/alerts",
          obj [("toyid", str id), ("severity", str "MEDIUM"),
            ("message", str ("Manual alert created for toy " ++ id))]⟩ = .ok r ∧
          200 ≤ r.status ∧ r.status ≤ 299)) ∧
    ((∀ e, send ⟨"PUT", API_BASE_URL ++ "/alerts",
          obj [("alertId", str id), ("resolved", bool true)]⟩ = .error e →
        (resolveAlert env net send id v).errors = [("Resolve alert error:", e)] ∧
        (resolveAlert env net send id v).refreshed = false ∧
        (resolveAlert env net send id v).view =
          { v with alertMessage := "Resolving alert: " ++ id,
                   bannerDisplay := "flex", bannerBackground := bannerBlue }) ∧
      (∀ r, send ⟨"PUT", API_BASE_URL ++ "/alerts",
          obj [("alertId", str id), ("resolved", bool true)]⟩ = .ok r →
        ¬ (200 ≤ r.status ∧ r.status ≤ 299) →
        (resolveAlert env net send id v).refreshed = false ∧
        (resolveAlert env net send id v).view =
          { v with alertMessage := "Resolving alert: " ++ id,
                   bannerDisplay := "flex", bannerBackground := bannerBlue }) ∧
      ((resolveAlert env net send id v).refreshed = true ↔
        ∃ r, send ⟨"PUT", API_BASE_URL ++ "/alerts",
          obj [("alertId", str id), ("resolved", bool true)]⟩ = .ok r ∧
          200 ≤ r.status ∧ r.status ≤ 299)) := by
  have hinfo := fun (m : String) => showAlert_blue "info" m v (by decide) (by decide)
  have hwarn := fun (m : String) => showAlert_blue "warning" m v (by decide) (by decide)
  refine ⟨⟨?_, ?_, ?_⟩, ⟨?_, ?_, ?_⟩, ⟨?_, ?_, ?_⟩⟩
  · intro e he
    simp [restockToy, he, hinfo]
  · intro r hr hnot
    have hok : r.ok = false := by
      cases h : r.ok with
      | false => rfl
      | true => exact absurd ((response_ok_iff r).1 h) hnot
    simp only [restockToy, hr, hok, hinfo]
    exact ⟨rfl, rfl⟩
  · unfold restockToy
    cases hs : send ⟨"POST", API_BASE_URL ++ "/inventory",
        obj [("toyid", str id), ("currentStock", num 2000), ("action", str "restock")]⟩ with
    | error e => simp
    | ok r =>
      cases h : r.ok with
      | false =>
        have := (response_ok_iff r).not.1 (by simp [h])
        simp [h, this]
      | true =>
        have := (response_ok_iff r).1 h
        simp [h, this]
  · intro e he
    simp [createAlert, he, hwarn]
  · intro r hr hnot
    have hok : r.ok = false := by
      cases h : r.ok with
      | false => rfl
      | true => exact absurd ((response_ok_iff r).1 h) hnot
    simp only [createAlert, hr, hok, hwarn]
    exact ⟨rfl, rfl⟩
  · unfold createAlert
    cases hs : send ⟨"POST", API_BASE_URL ++ "/alerts",
        obj [("toyid", str id), ("severity", str "MEDIUM"),
          ("message", str ("Manual alert created for toy " ++ id))]⟩ with
    | error e => simp
    | ok r =>
      cases h : r.ok with
      | false =>
        have := (response_ok_iff r).not.1 (by simp [h])
        simp [h, this]
      | true =>
        have := (response_ok_iff r).1 h
        simp [h, this]
  · intro e he
    simp [resolveAlert, he, hinfo]
  · intro r hr hnot
    have hok : r.ok = false := by
      cases h : r.ok with
      | false => rfl
      | true => exact absurd ((response_ok_iff r).1 h) hnot
    simp only [resolveAlert, hr, hok, hinfo]
    exact ⟨rfl, rfl⟩
  · unfold resolveAlert
    cases hs : send ⟨"PUT", API_BASE_URL ++ "/alerts",
        obj [("alertId", str id), ("resolved", bool true)]⟩ with
    | error e => simp
    | ok r =>
      cases h : r.ok with
      | false =>
        have := (response_ok_iff r).not.1 (by simp [h])
        simp [h, this]
      | true =>
        have := (response_ok_iff r).1 h
        simp [h, this]

/-- With a response of status 404, `createAlert` triggers no refresh and
changes nothing on an empty page but the banner. -/
theorem actions_on_failure_witness :
    (createAlert (fixedClock 0) (jsonNetwork null null null null) (statusMutations 404)
        "TOY001" emptyPage).refreshed = false ∧
    (createAlert (fixedClock 0) (jsonNetwork null null null null) (statusMutations 404)
        "TOY001" emptyPage).view =
      { emptyPage with alertMessage := "Creating alert for Toy ID: " ++ "TOY001",
                       bannerDisplay := "flex", bannerBackground := bannerBlue } :=
  (actions_on_failure (fixedClock 0) (jsonNetwork null null null null) (statusMutations 404)
    "TOY001" emptyPage).2.1.2.1 ⟨404, .ok "", .ok null⟩ rfl (by decide)

/-! ## Reading a counter back -/

theorem digitChar_props (k : Nat) (hk : k < 10) :
    digitValue 10 (Nat.digitChar k) = some k ∧ Nat.digitChar k ≠ ',' ∧
    isStrWhiteSpace (Nat.digitChar k) = false ∧ Nat.digitChar k ≠ '-' ∧
    Nat.digitChar k ≠ '+' ∧ Nat.digitChar k ≠ 'x' ∧ Nat.digitChar k ≠ 'X' := by
  interval_cases k <;> decide


theorem toDigitsCore_spec (fuel n : Nat) (ds : List Char) (h : n < fuel) :
    ∃ pre, Nat.toDigitsCore 10 fuel n ds = pre ++ ds ∧ pre ≠ [] ∧ AllDigits pre ∧
      ∀ (rest : List Char) (acc : Nat) (seen : Bool),
        readDigits 10 (pre ++ rest) acc seen = readDigits 10 rest (acc * 10 ^ pre.length + n) true := by
  induction fuel generalizing n ds with
  | zero => omega
  | succ f ih =>
    unfold Nat.toDigitsCore
    simp only
    have hmod : n % 10 < 10 := Nat.mod_lt _ (by norm_num)
    obtain ⟨hv, -⟩ := digitChar_props (n % 10) hmod
    split
    · rename_i h0
      have hn : n % 10 = n := by omega
      refine ⟨[Nat.digitChar (n % 10)], rfl, by simp, ?_, ?_⟩
      · intro c hc
        simp only [List.mem_singleton] at hc
        exact ⟨n % 10, hmod, hc⟩
      · intro rest acc seen
        rw [hn] at hv
        simp [readDigits, hv, hn]
    · rename_i h0
      obtain ⟨pre, hpre, hne, hall, hread⟩ := ih (n / 10) (Nat.digitChar (n % 10) :: ds) (by omega)
      refine ⟨pre ++ [Nat.digitChar (n % 10)], by simp [hpre], by simp, ?_, ?_⟩
      · intro c hc
        simp only [List.mem_append, List.mem_singleton] at hc
        rcases hc with hc | hc
        · exact hall c hc
        · exact ⟨n % 10, hmod, hc⟩
      · intro rest acc seen
        simp only [List.append_assoc, List.singleton_append, hread, readDigits, hv,
          List.length_append, List.length_singleton]
        congr 1
        have := Nat.div_add_mod n 10
        rw [pow_succ]
        nlinarith [this]

theorem toDigits_spec (n : Nat) :
    Nat.toDigits 10 n ≠ [] ∧ AllDigits (Nat.toDigits 10 n) ∧
      readDigits 10 (Nat.toDigits 10 n) 0 false = (n, true) := by
  obtain ⟨pre, hpre, hne, hall, hread⟩ := toDigitsCore_spec (n + 1) n [] (by omega)
  have h : Nat.toDigits 10 n = pre := by simpa [Nat.toDigits] using hpre
  rw [h]
  refine ⟨hne, hall, ?_⟩
  have := hread [] 0 false
  simpa [readDigits] using this

theorem groupRev_filter (l : List Char) (h : ∀ c ∈ l, c ≠ ',') :
    (groupRev l).filter (fun c => c != ',') = l := by
  induction l using groupRev.induct with
  | case1 a b c d rest ih =>
    have ha := h a (by simp)
    have hb := h b (by simp)
    have hc := h c (by simp)
    have hrest := ih (fun x hx => h x (by simp at hx ⊢; tauto))
    simp [groupRev, ha, hb, hc, hrest]
  | case2 l hl =>
    have : groupRev l = l := by
      unfold groupRev
      split
      · exact absurd rfl (hl _ _ _ _ _)
      · rfl
    rw [this]
    simpa using h

theorem allDigits_ne_comma (l : List Char) (h : AllDigits l) : ∀ c ∈ l, c ≠ ',' := by
  intro c hc
  obtain ⟨k, hk, rfl⟩ := h c hc
  exact (digitChar_props k hk).2.1

theorem removeCommas_toLocaleString (n : Int) :
    (removeCommas (toLocaleString n)).data =
      if n < 0 then '-' :: Nat.toDigits 10 n.natAbs else Nat.toDigits 10 n.natAbs := by
  obtain ⟨_, hall, _⟩ := toDigits_spec n.natAbs
  have hrev : ∀ c ∈ (Nat.toDigits 10 n.natAbs).reverse, c ≠ ',' := by
    intro c hc
    exact allDigits_ne_comma _ hall c (List.mem_reverse.1 hc)
  have hf := groupRev_filter _ hrev
  have hcore : ((groupRev (Nat.toDigits 10 n.natAbs).reverse).reverse).filter (fun c => c != ',') =
      Nat.toDigits 10 n.natAbs := by
    rw [List.filter_reverse, hf, List.reverse_reverse]
  unfold removeCommas toLocaleString
  by_cases hn : n < 0
  · simp only [hn, if_true, String.data_append]
    show List.filter (fun c => c != ',') (['-'] ++ _) = _
    rw [List.filter_append, hcore]
    rfl
  · simp only [hn, if_false]
    exact hcore

theorem hex_false_of_digits : ∀ ds : List Char, AllDigits ds →
    (match ds with
      | '0' :: 'x' :: _ => true
      | '0' :: 'X' :: _ => true
      | _ => false) = false := by
  intro ds hall
  split
  · obtain ⟨k, hk, hc⟩ := hall 'x' (by simp)
    exact absurd hc.symm (digitChar_props k hk).2.2.2.2.2.1
  · obtain ⟨k, hk, hc⟩ := hall 'X' (by simp)
    exact absurd hc.symm (digitChar_props k hk).2.2.2.2.2.2
  · rfl

theorem unsigned_of_digits : ∀ (c : Char) (t : List Char), AllDigits (c :: t) →
    (match c :: t with
      | '-' :: rest => rest
      | '+' :: rest => rest
      | l => l) = c :: t := by
  intro c t hall
  obtain ⟨k, hk, hc⟩ := hall c (by simp)
  split
  · rename_i rest heq
    injection heq with h1 h2
    exact absurd (hc.symm.trans h1) (digitChar_props k hk).2.2.2.1
  · rename_i rest heq
    injection heq with h1 h2
    exact absurd (hc.symm.trans h1) (digitChar_props k hk).2.2.2.2.1
  · rfl

theorem parseInt_of_digits (s : String) (ds : List Char) (m : Nat) (hne : ds ≠ [])
    (hall : AllDigits ds) (hread : readDigits 10 ds 0 false = (m, true)) :
    (s.data = ds → parseInt.mathInt s = some (m : Int)) ∧
    (s.data = '-' :: ds → parseInt.mathInt s = some (-(m : Int))) := by
  obtain ⟨c, t, rfl⟩ := List.exists_cons_of_ne_nil hne
  obtain ⟨k, hk, hc⟩ := hall c (by simp)
  have hws : isStrWhiteSpace c = false := hc ▸ (digitChar_props k hk).2.2.1
  have hminus : c ≠ '-' := hc ▸ (digitChar_props k hk).2.2.2.1
  have hhex := hex_false_of_digits (c :: t) hall
  have huns := unsigned_of_digits c t hall
  constructor
  · intro hs
    unfold parseInt.mathInt
    simp only [hs, List.dropWhile_cons_of_neg (by simp [hws] : ¬ isStrWhiteSpace c = true)]
    simp only [huns, hhex, hread]
    simp [hminus]
  · intro hs
    have hws2 : ¬ isStrWhiteSpace '-' = true := by decide
    unfold parseInt.mathInt
    simp only [hs, List.dropWhile_cons_of_neg hws2]
    simp only [hhex, hread]
    simp

theorem digitValue_none (c : Char) (h : c.isDigit = false) : digitValue 10 c = none := by
  unfold digitValue
  simp only [h, Bool.false_eq_true, if_false]
  split_ifs <;> simp

theorem hex_false_of_head : ∀ l : List Char, (∀ c, l.head? = some c → c.isDigit = false) →
    (match l with
      | '0' :: 'x' :: _ => true
      | '0' :: 'X' :: _ => true
      | _ => false) = false := by
  intro l h
  split
  · exact absurd (h '0' rfl) (by decide)
  · exact absurd (h '0' rfl) (by decide)
  · rfl

theorem parse_tail_none : ∀ l : List Char, (∀ c, l.head? = some c → c.isDigit = false) →
    (if (match l with
          | '0' :: 'x' :: _ => true
          | '0' :: 'X' :: _ => true
          | _ => false) = true
      then readDigits 16 (l.drop 2) 0 false else readDigits 10 l 0 false).2 = false := by
  intro l h
  rw [hex_false_of_head l h]
  cases l with
  | nil => rfl
  | cons c r => simp [readDigits, digitValue_none c (h c rfl)]

theorem unsigned_of_other : ∀ (c : Char) (t : List Char), c ≠ '-' → c ≠ '+' →
    (match c :: t with
      | '-' :: rest => rest
      | '+' :: rest => rest
      | l => l) = c :: t := by
  intro c t h1 h2
  split
  · rename_i rest heq
    injection heq with e1 e2
    exact absurd e1 h1
  · rename_i rest heq
    injection heq with e1 e2
    exact absurd e1 h2
  · rfl

theorem begins_of_other : ∀ (c : Char) (t : List Char), c ≠ '-' → c ≠ '+' →
    (match c :: t with
      | '-' :: d :: _ => d.isDigit
      | '+' :: d :: _ => d.isDigit
      | d :: _ => d.isDigit
      | [] => false) = c.isDigit := by
  intro c t h1 h2
  split
  · rename_i heq
    injection heq with e1 e2
    exact absurd e1 h1
  · rename_i heq
    injection heq with e1 e2
    exact absurd e1 h2
  · rename_i heq
    injection heq with e1 e2
    rw [e1]
  · rename_i heq
    cases heq

theorem parseInt_none_of_not_beginsWithInteger (text : String)
    (h : beginsWithInteger text = false) : parseInt.mathInt (removeCommas text) = none := by
  unfold beginsWithInteger at h
  unfold parseInt.mathInt
  generalize (removeCommas text).data.dropWhile isStrWhiteSpace = L at h ⊢
  have key : ∀ c, (match L with
      | '-' :: rest => rest
      | '+' :: rest => rest
      | l => l).head? = some c → c.isDigit = false := by
    intro c hc
    rcases L with _ | ⟨c0, r0⟩
    · simp at hc
    · by_cases hm : c0 = '-'
      · subst hm
        rcases r0 with _ | ⟨c1, r1⟩
        · simp at hc
        · simp only [List.head?_cons, Option.some.injEq] at hc
          subst hc
          exact h
      · by_cases hp : c0 = '+'
        · subst hp
          rcases r0 with _ | ⟨c1, r1⟩
          · simp at hc
          · simp only [List.head?_cons, Option.some.injEq] at hc
            subst hc
            exact h
        · rw [unsigned_of_other c0 r0 hm hp] at hc
          rw [begins_of_other c0 r0 hm hp] at h
          simp only [List.head?_cons, Option.some.injEq] at hc
          subst hc
          exact h
  have := parse_tail_none _ key
  simp only [this, Bool.false_eq_true, if_false]

theorem mathInt_toLocaleString (n : Int) :
    parseInt.mathInt (removeCommas (toLocaleString n)) = some n := by
  obtain ⟨hne, hall, hread⟩ := toDigits_spec n.natAbs
  obtain ⟨hpos, hneg⟩ := parseInt_of_digits (removeCommas (toLocaleString n))
    (Nat.toDigits 10 n.natAbs) n.natAbs hne hall hread
  have hdata := removeCommas_toLocaleString n
  by_cases hn : n < 0
  · rw [if_pos hn] at hdata
    rw [hneg hdata]
    congr 1
    omega
  · rw [if_neg hn] at hdata
    rw [hpos hdata]
    congr 1
    omega

theorem toLocaleString_injective (a b : Int) (h : toLocaleString a = toLocaleString b) :
    a = b := by
  have ha := mathInt_toLocaleString a
  rw [h, mathInt_toLocaleString b] at ha
  injection ha with ha
  exact ha.symm

/-- C12: the start value `animateCounter` reads back from the element undoes
the formatting it writes.  For every integer `n` that a double holds (it is
its own nearest double; every value the counter writes is one), removing all
commas from the thousands-separated (en-US grouped) rendering of `n` and
parsing the result with `parseInt` yields `n`, so the start value read from
an element showing a previously written `n` is `n` and the animation started
there runs from `n`; and when the element text does not begin with an
integer (the empty text for example) the start value is 0. -/
theorem animateCounter_reads_back (n : Int) (hn : roundDouble (n : ℚ) = Num.fin (n : ℚ)) :
    parseInt (removeCommas (toLocaleString n)) = Num.fin (n : ℚ) ∧
    animateCounter.current (toLocaleString n) = Num.fin (n : ℚ) ∧
    (∀ (engine : Engine) (target : Num) (startTime : ℚ) (frames : List ℚ),
      animateCounter engine (toLocaleString n) target startTime frames =
        animateCounter.runFrames engine (Num.fin (n : ℚ)) target startTime
          { textContent := toLocaleString n, frameRequested := true } frames) ∧
    (∀ text : String, beginsWithInteger text = false →
      animateCounter.current text = Num.fin 0) ∧
    animateCounter.current "" = Num.fin 0 := by
  have hmath := mathInt_toLocaleString n
  have hparse : parseInt (removeCommas (toLocaleString n)) = Num.fin (n : ℚ) := by
    simp only [parseInt, hmath, hn]
  have hcur : animateCounter.current (toLocaleString n) = Num.fin (n : ℚ) := by
    simp only [animateCounter.current, hparse]
    split_ifs with h0
    · rw [h0]
    · rfl
  have hnone : ∀ text : String, beginsWithInteger text = false →
      animateCounter.current text = Num.fin 0 := by
    intro text h
    simp only [animateCounter.current, parseInt, parseInt_none_of_not_beginsWithInteger text h]
  refine ⟨hparse, hcur, ?_, hnone, hnone "" (by decide)⟩
  intro engine target startTime frames
  simp only [animateCounter, hcur]

/-- An element showing `1,500` gives the start value 1500. -/
theorem animateCounter_reads_back_witness :
    animateCounter.current "1,500" = Num.fin ((1500 : Int) : ℚ) := by
  have h := (animateCounter_reads_back 1500 (roundDouble_intCast 1500 (by norm_num))).2.1
  rwa [show toLocaleString 1500 = "1,500" by decide] at h

/-! ## Animated counter: frames -/

theorem elapsed_mono (startTime : ℚ) {t1 t2 : ℚ} (h : t1 ≤ t2) :
    (animateCounter.elapsed startTime t1).le (animateCounter.elapsed startTime t2) = true :=
  roundDouble_mono (by linarith)

theorem elapsed_ge_of_le (startTime t : ℚ) (h : 1000 ≤ t - startTime) :
    (Num.fin 1000).le (animateCounter.elapsed startTime t) = true := by
  have h1 := roundDouble_mono h
  have h2 := roundDouble_intCast 1000 (by norm_num)
  norm_num at h2
  rw [h2] at h1
  exact h1

theorem div_1000_ne_nan (a : Num) (h : a ≠ Num.nan) : a.div (Num.fin 1000) ≠ Num.nan := by
  cases a with
  | nan => exact absurd rfl h
  | fin x =>
    have : (Num.fin x).div (Num.fin 1000) = roundDouble (x / 1000) := by simp [Num.div]
    rw [this]
    exact roundDouble_ne_nan _
  | inf s => simp [Num.div]

theorem progress_mono (startTime : ℚ) {t1 t2 : ℚ} (h : t1 ≤ t2) :
    (animateCounter.progress startTime t1).le (animateCounter.progress startTime t2) = true :=
  Num.min_fin_mono 1 (Num.div_fin_mono 1000 (by norm_num) (elapsed_mono startTime h))

theorem progress_le_one (startTime t : ℚ) :
    (animateCounter.progress startTime t).le (Num.fin 1) = true :=
  Num.min_fin_le 1 _ (div_1000_ne_nan _ (roundDouble_ne_nan _))

theorem progress_eq_one (startTime t : ℚ)
    (h : (Num.fin 1000).le (animateCounter.elapsed startTime t) = true) :
    animateCounter.progress startTime t = Num.fin 1 := by
  have h1 := Num.div_fin_mono 1000 (by norm_num) h
  have h2 : (Num.fin 1000).div (Num.fin 1000) = Num.fin 1 := by
    have : (Num.fin 1000).div (Num.fin 1000) = roundDouble (1000 / 1000) := by simp [Num.div]
    rw [this]
    norm_num
    exact roundDouble_one
  rw [h2] at h1
  exact Num.min_eq_of_le 1 h1

theorem sub_one_one : (Num.fin 1).sub (Num.fin 1) = Num.fin 0 := by
  simp only [Num.sub, Num.neg, Num.add]
  norm_num
  exact roundDouble_zero

theorem sub_one_zero : (Num.fin 1).sub (Num.fin 0) = Num.fin 1 := by
  simp only [Num.sub, Num.neg, Num.add]
  norm_num
  exact roundDouble_one

theorem base_nonneg (startTime t : ℚ) :
    (Num.fin 0).le ((Num.fin 1).sub (animateCounter.progress startTime t)) = true := by
  have := Num.sub_fin_anti 1 (progress_le_one startTime t)
  rwa [sub_one_one] at this

theorem easeOut_le_one (engine : Engine)
    (hpos : ∀ x : ℚ, 0 < x → (Num.fin 0).le (engine.pow3 x) = true) (startTime t : ℚ) :
    (animateCounter.easeOut engine startTime t).le (Num.fin 1) = true := by
  have := Num.sub_fin_anti 1 (Engine.pow_nonneg engine hpos (base_nonneg startTime t))
  rwa [sub_one_zero] at this

theorem easeOut_mono (engine : Engine)
    (hpos : ∀ x : ℚ, 0 < x → (Num.fin 0).le (engine.pow3 x) = true)
    (hmono : ∀ x y : ℚ, 0 < x → x ≤ y → (engine.pow3 x).le (engine.pow3 y) = true)
    (startTime : ℚ) {t1 t2 : ℚ} (h : t1 ≤ t2) :
    (animateCounter.easeOut engine startTime t1).le
      (animateCounter.easeOut engine startTime t2) = true :=
  Num.sub_fin_anti 1 (Engine.pow_mono engine hpos hmono (base_nonneg startTime t2)
    (Num.sub_fin_anti 1 (progress_mono startTime h)))

theorem easeOut_of_progress_one (engine : Engine) (startTime t : ℚ)
    (h : animateCounter.progress startTime t = Num.fin 1) :
    animateCounter.easeOut engine startTime t = Num.fin 1 := by
  unfold animateCounter.easeOut
  rw [h, sub_one_one]
  simp only [Engine.pow, if_true]
  exact sub_one_zero

theorem sub_fin_fin (a b : ℚ) : (Num.fin a).sub (Num.fin b) = roundDouble (a - b) := by
  simp only [Num.sub, Num.neg, Num.add]
  rw [sub_eq_add_neg]

theorem currentValue_of_easeOut_one (engine : Engine) (current target : Int)
    (hd : roundDouble ((target : ℚ) - (current : ℚ)) = Num.fin ((target : ℚ) - (current : ℚ)))
    (ht : roundDouble (target : ℚ) = Num.fin (target : ℚ)) (startTime t : ℚ)
    (h : animateCounter.easeOut engine startTime t = Num.fin 1) :
    animateCounter.currentValue engine (Num.fin current) (Num.fin target) startTime t =
      Num.fin (target : ℚ) := by
  unfold animateCounter.currentValue
  rw [h, sub_fin_fin, hd]
  simp only [Num.mul, mul_one, hd, Num.add]
  have e : (current : ℚ) + ((target : ℚ) - (current : ℚ)) = (target : ℚ) := by ring
  rw [e, ht]
  simp [Num.floor]

theorem progress_lt_one (startTime t : ℚ)
    (h : (animateCounter.elapsed startTime t).lt (Num.fin 1000) = true) :
    (animateCounter.progress startTime t).lt (Num.fin 1) = true := by
  unfold animateCounter.progress
  unfold animateCounter.elapsed at h ⊢
  rcases roundDouble_cases (t - startTime) with ⟨e, _⟩ | ⟨e, _, _⟩ | ⟨e, _, _⟩
  · rw [e] at h ⊢
    have hlt : roundNearest (t - startTime) < 1000 := by simpa [Num.lt] using h
    have hle := roundNearest_le_of_lt_1000 hlt
    have hdiv : (Num.fin (roundNearest (t - startTime))).div (Num.fin 1000) =
        roundDouble (roundNearest (t - startTime) / 1000) := by simp [Num.div]
    rw [hdiv]
    have hw : roundNearest (t - startTime) / 1000 < 1 - 1 / 2 ^ 54 := by
      have h1 : roundNearest (t - startTime) / 1000 ≤ (1000 - 1 / 2 ^ 43) / 1000 :=
        div_le_div_of_nonneg_right hle (by norm_num)
      have h2 : ((1000 : ℚ) - 1 / 2 ^ 43) / 1000 < 1 - 1 / 2 ^ 54 := by norm_num
      linarith
    have hone := roundNearest_lt_one hw
    rcases roundDouble_cases (roundNearest (t - startTime) / 1000) with
      ⟨e2, _⟩ | ⟨e2, _, h3⟩ | ⟨e2, _, _⟩
    · rw [e2, Num.min_fin_fin, if_neg (not_lt.2 hone.le)]
      simpa [Num.lt] using hone
    · exfalso
      have : (1 : ℚ) ≤ 2 ^ 1024 := one_le_pow₀ (by norm_num)
      linarith
    · rw [e2]
      rfl
  · rw [e] at h
    simp [Num.lt] at h
  · rw [e]
    rfl

theorem update_of_elapsed (engine : Engine) (current target : Int)
    (hd : roundDouble ((target : ℚ) - (current : ℚ)) = Num.fin ((target : ℚ) - (current : ℚ)))
    (ht : roundDouble (target : ℚ) = Num.fin (target : ℚ)) (startTime t : ℚ)
    (h : (Num.fin 1000).le (animateCounter.elapsed startTime t) = true) :
    animateCounter.update engine (Num.fin current) (Num.fin target) startTime t =
      { textContent := toLocaleString target, frameRequested := false } := by
  have hp := progress_eq_one startTime t h
  have hv := currentValue_of_easeOut_one engine current target hd ht startTime t
    (easeOut_of_progress_one engine startTime t hp)
  simp [animateCounter.update, hv, hp, Num.toLocaleString, Num.lt]

theorem update_of_running (engine : Engine) (current target : Num) (startTime t : ℚ)
    (h : (animateCounter.elapsed startTime t).lt (Num.fin 1000) = true) :
    (animateCounter.update engine current target startTime t).frameRequested = true := by
  simp [animateCounter.update, progress_lt_one startTime t h]

theorem runFrames_reaches_target (engine : Engine) (current target : Int)
    (hd : roundDouble ((target : ℚ) - (current : ℚ)) = Num.fin ((target : ℚ) - (current : ℚ)))
    (ht : roundDouble (target : ℚ) = Num.fin (target : ℚ)) (startTime : ℚ)
    (early : List ℚ) (t : ℚ) (later : List ℚ) (s0 : CounterState)
    (hs0 : s0.frameRequested = true)
    (hearly : ∀ u ∈ early, (animateCounter.elapsed startTime u).lt (Num.fin 1000) = true)
    (hlast : (Num.fin 1000).le (animateCounter.elapsed startTime t) = true) :
    animateCounter.runFrames engine (Num.fin current) (Num.fin target) startTime s0
        (early ++ t :: later) =
      { textContent := toLocaleString target, frameRequested := false } := by
  induction early generalizing s0 with
  | nil =>
    simp only [List.nil_append, animateCounter.runFrames, hs0, if_true]
    rw [update_of_elapsed engine current target hd ht startTime t hlast]
    cases later <;> simp [animateCounter.runFrames]
  | cons u rest ih =>
    simp only [List.cons_append, animateCounter.runFrames, hs0, if_true]
    apply ih
    · exact update_of_running engine _ _ startTime u (hearly u (List.mem_cons_self u rest))
    · intro w hw
      exact hearly w (List.mem_cons_of_mem u hw)

theorem currentValue_mono_easeOut (current target : Int) (h : current < target)
    (hd : roundDouble ((target : ℚ) - (current : ℚ)) = Num.fin ((target : ℚ) - (current : ℚ)))
    {a b : Num} (hab : a.le b = true) :
    (((Num.fin current).add (((Num.fin target).sub (Num.fin current)).mul a)).floor).le
      (((Num.fin current).add (((Num.fin target).sub (Num.fin current)).mul b)).floor) = true := by
  rw [sub_fin_fin, hd]
  have hpos : (0 : ℚ) < (target : ℚ) - (current : ℚ) := by
    have : (current : ℚ) < (target : ℚ) := by exact_mod_cast h
    linarith
  exact Num.floor_mono (Num.add_fin_mono _ (Num.mul_fin_mono _ hpos hab))

theorem correctlyRounded_nonneg (x : ℚ) (h : 0 < x) :
    (Num.fin 0).le (correctlyRounded.pow3 x) = true := by
  have h1 : (0 : ℚ) ≤ x ^ 3 := by positivity
  have := roundDouble_mono h1
  rwa [roundDouble_zero] at this

theorem correctlyRounded_mono (x y : ℚ) (h : 0 < x) (hxy : x ≤ y) :
    (correctlyRounded.pow3 x).le (correctlyRounded.pow3 y) = true :=
  roundDouble_mono (pow_le_pow_left₀ h.le hxy 3)

theorem currentValue_eq (engine : Engine) (current target : ℚ) (startTime t : ℚ)
    (h : animateCounter.easeOut engine startTime t = Num.fin 1) :
    animateCounter.currentValue engine (Num.fin current) (Num.fin target) startTime t =
      ((Num.fin current).add ((roundDouble (target - current)).mul (Num.fin 1))).floor := by
  unfold animateCounter.currentValue
  rw [h, sub_fin_fin]

theorem easeOut_full (engine : Engine) :
    animateCounter.easeOut engine 0 1000 = Num.fin 1 :=
  easeOut_of_progress_one engine 0 1000
    (progress_eq_one 0 1000 (elapsed_ge_of_le 0 1000 (by norm_num)))

theorem currentValue_misses :
    animateCounter.currentValue correctlyRounded (Num.fin (-9007199254740991))
      (Num.fin 9007199254740990) 0 1000 = Num.fin 9007199254740989 := by
  rw [currentValue_eq _ _ _ _ _ (easeOut_full _)]
  have e1 : (9007199254740990 : ℚ) - (-9007199254740991) =
      ((2 * 9007199254740990 + 1 : ℤ) : ℚ) := by norm_num
  rw [e1, roundDouble_odd_binade53 9007199254740990 (by norm_num) (by norm_num)]
  have e2 : ((2 * (if (9007199254740990 : ℤ) % 2 = 0 then (9007199254740990 : ℤ)
      else 9007199254740990 + 1) : ℤ) : ℚ) = ((2 * 9007199254740990 : ℤ) : ℚ) := by
    norm_num
  rw [e2]
  simp only [Num.mul, mul_one]
  rw [roundDouble_even_binade53 9007199254740990 (by norm_num) (by norm_num)]
  simp only [Num.add]
  have e3 : (-9007199254740991 : ℚ) + ((2 * 9007199254740990 : ℤ) : ℚ) =
      ((9007199254740989 : ℤ) : ℚ) := by norm_num
  rw [e3, roundDouble_intCast 9007199254740989 (by norm_num)]
  simp only [Num.floor, Int.floor_intCast]
  norm_num

theorem currentValue_overshoots :
    animateCounter.currentValue correctlyRounded (Num.fin (-5))
      (Num.fin 9007199254740990) 0 1000 = Num.fin 9007199254740991 := by
  rw [currentValue_eq _ _ _ _ _ (easeOut_full _)]
  have e1 : (9007199254740990 : ℚ) - (-5) = ((2 * 4503599627370497 + 1 : ℤ) : ℚ) := by norm_num
  rw [e1, roundDouble_odd_binade53 4503599627370497 (by norm_num) (by norm_num)]
  have e2 : ((2 * (if (4503599627370497 : ℤ) % 2 = 0 then (4503599627370497 : ℤ)
      else 4503599627370497 + 1) : ℤ) : ℚ) = ((2 * 4503599627370498 : ℤ) : ℚ) := by
    norm_num
  rw [e2]
  simp only [Num.mul, mul_one]
  rw [roundDouble_even_binade53 4503599627370498 (by norm_num) (by norm_num)]
  simp only [Num.add]
  have e3 : (-5 : ℚ) + ((2 * 4503599627370498 : ℤ) : ℚ) = ((9007199254740991 : ℤ) : ℚ) := by
    norm_num
  rw [e3, roundDouble_intCast 9007199254740991 (by norm_num)]
  simp only [Num.floor, Int.floor_intCast]
  norm_num

theorem value_at_one (current target : Int)
    (hd : roundDouble ((target : ℚ) - (current : ℚ)) = Num.fin ((target : ℚ) - (current : ℚ)))
    (ht : roundDouble (target : ℚ) = Num.fin (target : ℚ)) :
    ((Num.fin current).add (((Num.fin target).sub (Num.fin current)).mul (Num.fin 1))).floor =
      Num.fin (target : ℚ) := by
  rw [sub_fin_fin, hd]
  simp only [Num.mul, mul_one, hd, Num.add]
  have e : (current : ℚ) + ((target : ℚ) - (current : ℚ)) = (target : ℚ) := by ring
  rw [e, ht]
  simp [Num.floor]

theorem current_zero_text : animateCounter.current "0" = Num.fin ((0 : Int) : ℚ) := by
  have h : parseInt.mathInt (removeCommas "0") = some 0 := by decide
  simp only [animateCounter.current, parseInt, h]
  have := roundDouble_zero
  simp only [Int.cast_zero, this, if_true]

theorem elapsed_lt_of_nat (n : ℕ) (h : n < 1000) :
    (animateCounter.elapsed 0 (n : ℚ)).lt (Num.fin 1000) = true := by
  unfold animateCounter.elapsed
  have e : (n : ℚ) - 0 = ((n : ℤ) : ℚ) := by simp
  have hb : |(n : ℤ)| ≤ 2 ^ 53 := by
    rw [abs_of_nonneg (by positivity)]
    omega
  rw [e, roundDouble_intCast (n : ℤ) hb]
  simp only [Num.lt, decide_eq_true_eq]
  exact_mod_cast h

/-- C5, as stated, fails: from the start value -9007199254740991 towards the
target 9007199254740990, both integers that a double holds, the difference
`target - current` is not a double and rounds down by one, so the frame
1000 ms after the start computes 9007199254740989, writes its
thousands-separated text, which is not that of the target, and requests no
further frame. -/
theorem animateCounter_large_range_misses_target :
    roundDouble (-9007199254740991) = Num.fin (-9007199254740991) ∧
    roundDouble 9007199254740990 = Num.fin 9007199254740990 ∧
    animateCounter.currentValue correctlyRounded (Num.fin (-9007199254740991))
        (Num.fin 9007199254740990) 0 1000 = Num.fin 9007199254740989 ∧
    animateCounter.update correctlyRounded (Num.fin (-9007199254740991))
        (Num.fin 9007199254740990) 0 1000 =
      { textContent := toLocaleString 9007199254740989, frameRequested := false } ∧
    toLocaleString 9007199254740989 ≠ toLocaleString 9007199254740990 := by
  refine ⟨?_, ?_, currentValue_misses, ?_, ?_⟩
  · have := roundDouble_intCast (-9007199254740991) (by norm_num)
    norm_num at this
    exact this
  · have := roundDouble_intCast 9007199254740990 (by norm_num)
    norm_num at this
    exact this
  · have hp := progress_eq_one 0 1000 (elapsed_ge_of_le 0 1000 (by norm_num))
    have hf : ⌊(9007199254740989 : ℚ)⌋ = 9007199254740989 := by
      have := Int.floor_intCast (α := ℚ) 9007199254740989
      norm_num at this ⊢
    have h1 : (Num.fin 9007199254740989).toLocaleString = toLocaleString 9007199254740989 := by
      show toLocaleString ⌊(9007199254740989 : ℚ)⌋ = _
      rw [hf]
    have h2 : (Num.fin 1).lt (Num.fin 1) = false := by simp [Num.lt]
    unfold animateCounter.update
    rw [currentValue_misses, hp, h1, h2]
  · intro h
    have := toLocaleString_injective _ _ h
    norm_num at this

/-- C5, amended: when the target and the difference `target - current` are
integers that a double holds exactly, the first animation frame whose
computed elapsed time `currentTime - startTime` is at least 1000 writes
exactly the target (thousands-separated) and requests no further frame, and
later frames change nothing; a frame whose timestamp is at least 1000 ms
after the start time has such an elapsed time.  Whatever the start value and
the target, every frame whose computed elapsed time is below 1000 requests
another frame. -/
theorem animateCounter_reaches_target (engine : Engine) (textContent : String)
    (current target : Int) (startTime : ℚ) (early : List ℚ) (t : ℚ) (later : List ℚ)
    (hcur : animateCounter.current textContent = Num.fin (current : ℚ))
    (hd : roundDouble ((target : ℚ) - (current : ℚ)) = Num.fin ((target : ℚ) - (current : ℚ)))
    (ht : roundDouble (target : ℚ) = Num.fin (target : ℚ))
    (hearly : ∀ u ∈ early, (animateCounter.elapsed startTime u).lt (Num.fin 1000) = true)
    (hlast : (Num.fin 1000).le (animateCounter.elapsed startTime t) = true) :
    animateCounter engine textContent (Num.fin (target : ℚ)) startTime (early ++ t :: later) =
      { textContent := toLocaleString target, frameRequested := false } ∧
    (∀ s0 : CounterState, s0.frameRequested = true →
      animateCounter.runFrames engine (Num.fin (current : ℚ)) (Num.fin (target : ℚ)) startTime s0
          (early ++ t :: later) =
        { textContent := toLocaleString target, frameRequested := false }) ∧
    (∀ (start goal : Num) (u : ℚ),
      (animateCounter.elapsed startTime u).lt (Num.fin 1000) = true →
      (animateCounter.update engine start goal startTime u).frameRequested = true) ∧
    (∀ u : ℚ, (Num.fin 1000).le (animateCounter.elapsed startTime u) = true →
      animateCounter.update engine (Num.fin (current : ℚ)) (Num.fin (target : ℚ)) startTime u =
        { textContent := toLocaleString target, frameRequested := false }) ∧
    (∀ u : ℚ, 1000 ≤ u - startTime →
      (Num.fin 1000).le (animateCounter.elapsed startTime u) = true) := by
  refine ⟨?_, ?_, ?_, ?_, ?_⟩
  · unfold animateCounter
    rw [hcur]
    exact runFrames_reaches_target engine current target hd ht startTime early t later _ rfl
      hearly hlast
  · intro s0 hs0
    exact runFrames_reaches_target engine current target hd ht startTime early t later s0 hs0
      hearly hlast
  · intro start goal u hu
    exact update_of_running engine start goal startTime u hu
  · intro u hu
    exact update_of_elapsed engine current target hd ht startTime u hu
  · intro u hu
    exact elapsed_ge_of_le startTime u hu

/-- From the displayed value `0` with target 1500, frames at 16, 500 and
999 ms followed by frames at 1000 and 1016 ms leave `1,500` on the
element. -/
theorem animateCounter_reaches_target_witness :
    animateCounter correctlyRounded "0" (Num.fin ((1500 : Int) : ℚ)) 0
        ([((16 : ℕ) : ℚ), ((500 : ℕ) : ℚ), ((999 : ℕ) : ℚ)] ++ 1000 :: [1016]) =
      { textContent := "1,500", frameRequested := false } :=
  (animateCounter_reaches_target correctlyRounded "0" 0 1500 0
    [((16 : ℕ) : ℚ), ((500 : ℕ) : ℚ), ((999 : ℕ) : ℚ)] 1000 [1016]
    current_zero_text
    (by
      have := roundDouble_intCast 1500 (by norm_num)
      simpa using this)
    (roundDouble_intCast 1500 (by norm_num))
    (by
      intro u hu
      simp only [List.mem_cons, List.mem_singleton, List.not_mem_nil, or_false] at hu
      rcases hu with rfl | rfl | rfl <;> exact elapsed_lt_of_nat _ (by norm_num))
    (elapsed_ge_of_le 0 1000 (by norm_num))).1.trans (by decide)

/-- C6, as stated, fails: from the start value -5 towards the target
9007199254740990, both integers that a double holds, the difference
`target - current` rounds up to 9007199254740996 and the frame at progress 1
writes 9007199254740991, which exceeds the target. -/
theorem currentValue_exceeds_target :
    roundDouble (-5) = Num.fin (-5) ∧
    roundDouble 9007199254740990 = Num.fin 9007199254740990 ∧
    animateCounter.currentValue correctlyRounded (Num.fin (-5)) (Num.fin 9007199254740990)
        0 1000 = Num.fin 9007199254740991 ∧
    (Num.fin 9007199254740991).le (Num.fin 9007199254740990) = false := by
  refine ⟨?_, ?_, currentValue_overshoots, ?_⟩
  · have := roundDouble_intCast (-5) (by norm_num)
    norm_num at this
    exact this
  · have := roundDouble_intCast 9007199254740990 (by norm_num)
    norm_num at this
    exact this
  · simp only [Num.le, decide_eq_false_iff_not, not_le]
    norm_num

/-- C6, amended: for `target > current` with the target and the difference
`target - current` integers that a double holds exactly, and an
implementation of `Math.pow(x, 3)` that is non-negative and non-decreasing
on positive bases, the value
`Math.floor(current + (target - current) * easeOut)` written by a frame,
computed in doubles, never exceeds the target, whatever the frame timestamp,
and is non-decreasing in the frame timestamp. -/
theorem currentValue_le_target_and_mono (engine : Engine) (current target : Int)
    (startTime : ℚ) (h : current < target)
    (hd : roundDouble ((target : ℚ) - (current : ℚ)) = Num.fin ((target : ℚ) - (current : ℚ)))
    (ht : roundDouble (target : ℚ) = Num.fin (target : ℚ))
    (hpos : ∀ x : ℚ, 0 < x → (Num.fin 0).le (engine.pow3 x) = true)
    (hmono : ∀ x y : ℚ, 0 < x → x ≤ y → (engine.pow3 x).le (engine.pow3 y) = true) :
    (∀ t : ℚ,
      (animateCounter.currentValue engine (Num.fin (current : ℚ)) (Num.fin (target : ℚ))
        startTime t).le (Num.fin (target : ℚ)) = true) ∧
    (∀ t1 t2 : ℚ, t1 ≤ t2 →
      (animateCounter.currentValue engine (Num.fin (current : ℚ)) (Num.fin (target : ℚ))
        startTime t1).le
        (animateCounter.currentValue engine (Num.fin (current : ℚ)) (Num.fin (target : ℚ))
          startTime t2) = true) := by
  constructor
  · intro t
    have := currentValue_mono_easeOut current target h hd (easeOut_le_one engine hpos startTime t)
    rw [value_at_one current target hd ht] at this
    exact this
  · intro t1 t2 ht12
    exact currentValue_mono_easeOut current target h hd
      (easeOut_mono engine hpos hmono startTime ht12)

/-- From 0 towards 1500, the value written 250 ms after the start is at most
the value written 750 ms after the start. -/
theorem currentValue_le_target_and_mono_witness :
    (animateCounter.currentValue correctlyRounded (Num.fin ((0 : Int) : ℚ))
        (Num.fin ((1500 : Int) : ℚ)) 0 250).le
      (animateCounter.currentValue correctlyRounded (Num.fin ((0 : Int) : ℚ))
        (Num.fin ((1500 : Int) : ℚ)) 0 750) = true :=
  (currentValue_le_target_and_mono correctlyRounded 0 1500 0 (by decide)
    (by
      have := roundDouble_intCast 1500 (by norm_num)
      simpa using this)
    (roundDouble_intCast 1500 (by norm_num))
    correctlyRounded_nonneg correctlyRounded_mono).2 250 750 (by norm_num)

end Santa
